import Mathlib

/-!
Verification development for the n8n-flow-maker-rag backend core:
the node type registry (`node_schemas.py`), the structural validator
(`validation_service.py`), the quality scorer (`quality_validator.py`),
the rule-based graph builder (`workflow_generator.py`) and the
refinement pipeline (`enhanced_workflow_generator.py`).

Modelling conventions:
* Python dictionaries with a fixed set of keys that the code reads are
  embedded as structures with `Option`-valued fields (a `none` field models
  an absent key).  Raw subscripts `d[k]` are embedded in the `Except String`
  monad and fail with a KeyError message when the key is absent; `d.get(k, v)`
  becomes `Option.getD`.
* Parameter / settings values that the embedded code never inspects are
  embedded as an explicit JSON-like value type `JVal`.
* Python `uuid.uuid4()` calls are modelled by an explicit stream
  `g : Nat -> String` of fresh identifiers consumed in call order; a counter
  is threaded through the code exactly where the source draws UUIDs.
* Ratio comparisons such as `percentage >= 0.8` (Python floats) are embedded
  as exact rational comparisons via cross multiplication, and the `{:.0%}`
  format as exact round-half-to-even; no claim in this development depends on
  double-precision rounding artifacts.
* Sets of strings built by the source (`{n['name'] for n in nodes}`) are
  embedded as duplicate-free lists; Python set iteration order is
  hash-randomized, so only cardinality and membership of these sets back any
  claim below.
-/

namespace NFlow

/-- JSON-like values, used for parameter bags and other data the embedded
code stores but never inspects. -/
inductive JVal where
  | jstr (s : String)
  | jnum (n : Int)
  | jbool (b : Bool)
  | jnull
  | jarr (xs : List JVal)
  | jobj (kvs : List (String × JVal))

/-- Boolean equality on JSON-like values (structural). -/
def JVal.beq : JVal → JVal → Bool
  | .jstr a, .jstr b => a == b
  | .jnum a, .jnum b => a == b
  | .jbool a, .jbool b => a == b
  | .jnull, .jnull => true
  | .jarr xs, .jarr ys =>
      let rec beqList : List JVal → List JVal → Bool
        | [], [] => true
        | x :: xs, y :: ys => JVal.beq x y && beqList xs ys
        | _, _ => false
      beqList xs ys
  | .jobj xs, .jobj ys =>
      let rec beqKVs : List (String × JVal) → List (String × JVal) → Bool
        | [], [] => true
        | (k, v) :: xs, (l, w) :: ys => k == l && JVal.beq v w && beqKVs xs ys
        | _, _ => false
      beqKVs xs ys
  | _, _ => false

/-- One schema entry of the node type registry
(`NodeSchemaValidator._load_schemas`). -/
structure NodeSchema where
  required : List String
  optionalKeys : List String
  requiresCredentials : Bool
  credentialType : Option String
  errorHandlingRecommended : Bool

/-- The node type registry (`NodeSchemaValidator._load_schemas`), as the
association list of its entries in source order.  `typical_config` entries are
omitted: no code covered by this development reads them. -/
def schemas : List (String × NodeSchema) :=
  [ ("n8n-nodes-base.httpRequest",
      { required := ["method", "url"],
        optionalKeys := ["authentication", "options", "bodyParametersJson", "headerParametersJson"],
        requiresCredentials := false, credentialType := none,
        errorHandlingRecommended := true }),
    ("@blotato/n8n-nodes-blotato.blotato",
      { required := ["resource"],
        optionalKeys := ["operation", "mediaUrl", "caption", "platform"],
        requiresCredentials := true, credentialType := some "blotatoApi",
        errorHandlingRecommended := true }),
    ("n8n-nodes-base.openAi",
      { required := ["resource", "operation"],
        optionalKeys := ["options", "prompt", "model"],
        requiresCredentials := true, credentialType := some "openAiApi",
        errorHandlingRecommended := false }),
    ("@n8n/n8n-nodes-langchain.agent",
      { required := ["promptType"],
        optionalKeys := ["text", "options"],
        requiresCredentials := false, credentialType := none,
        errorHandlingRecommended := false }),
    ("@n8n/n8n-nodes-langchain.chatOpenAi",
      { required := [],
        optionalKeys := ["model", "temperature", "maxTokens"],
        requiresCredentials := true, credentialType := some "openAiApi",
        errorHandlingRecommended := false }),
    ("n8n-nodes-base.if",
      { required := ["conditions"], optionalKeys := ["options"],
        requiresCredentials := false, credentialType := none,
        errorHandlingRecommended := false }),
    ("n8n-nodes-base.switch",
      { required := ["mode"], optionalKeys := ["rules", "output"],
        requiresCredentials := false, credentialType := none,
        errorHandlingRecommended := false }),
    ("n8n-nodes-base.merge",
      { required := [], optionalKeys := ["mode", "options"],
        requiresCredentials := false, credentialType := none,
        errorHandlingRecommended := false }),
    ("n8n-nodes-base.set",
      { required := [], optionalKeys := ["values", "options"],
        requiresCredentials := false, credentialType := none,
        errorHandlingRecommended := false }),
    ("n8n-nodes-base.code",
      { required := ["mode"], optionalKeys := ["jsCode", "pythonCode"],
        requiresCredentials := false, credentialType := none,
        errorHandlingRecommended := false }),
    ("n8n-nodes-base.function",
      { required := ["functionCode"], optionalKeys := [],
        requiresCredentials := false, credentialType := none,
        errorHandlingRecommended := false }),
    ("n8n-nodes-base.googleSheets",
      { required := ["resource", "operation"],
        optionalKeys := ["sheetId", "range", "documentId"],
        requiresCredentials := true, credentialType := some "googleSheetsOAuth2Api",
        errorHandlingRecommended := true }),
    ("n8n-nodes-base.gmail",
      { required := ["resource", "operation"],
        optionalKeys := ["sendTo", "subject", "message"],
        requiresCredentials := true, credentialType := some "gmailOAuth2",
        errorHandlingRecommended := true }),
    ("n8n-nodes-base.slack",
      { required := ["resource", "operation"],
        optionalKeys := ["channel", "text", "username"],
        requiresCredentials := true, credentialType := some "slackApi",
        errorHandlingRecommended := true }),
    ("n8n-nodes-base.postgres",
      { required := ["operation"],
        optionalKeys := ["table", "query", "columns"],
        requiresCredentials := true, credentialType := some "postgres",
        errorHandlingRecommended := true }),
    ("n8n-nodes-base.mysql",
      { required := ["operation"],
        optionalKeys := ["table", "query", "columns"],
        requiresCredentials := true, credentialType := some "mySql",
        errorHandlingRecommended := true }),
    ("n8n-nodes-base.webhook",
      { required := [], optionalKeys := ["path", "httpMethod", "responseMode"],
        requiresCredentials := false, credentialType := none,
        errorHandlingRecommended := false }),
    ("n8n-nodes-base.scheduleTrigger",
      { required := [], optionalKeys := ["rule", "triggerTimes"],
        requiresCredentials := false, credentialType := none,
        errorHandlingRecommended := false }),
    ("n8n-nodes-base.manualTrigger",
      { required := [], optionalKeys := [],
        requiresCredentials := false, credentialType := none,
        errorHandlingRecommended := false }),
    ("n8n-nodes-base.stickyNote",
      { required := [], optionalKeys := ["content", "height", "width"],
        requiresCredentials := false, credentialType := none,
        errorHandlingRecommended := false }),
    ("n8n-nodes-base.wait",
      { required := ["resume"], optionalKeys := ["amount", "unit"],
        requiresCredentials := false, credentialType := none,
        errorHandlingRecommended := false }),
    ("n8n-nodes-base.errorTrigger",
      { required := [], optionalKeys := [],
        requiresCredentials := false, credentialType := none,
        errorHandlingRecommended := false }),
    ("@n8n/n8n-nodes-langchain.toolHackerNews",
      { required := [], optionalKeys := ["operation", "articleId"],
        requiresCredentials := false, credentialType := none,
        errorHandlingRecommended := false }),
    ("n8n-nodes-base.perplexity",
      { required := ["operation"], optionalKeys := ["prompt", "model"],
        requiresCredentials := true, credentialType := some "perplexityApi",
        errorHandlingRecommended := false }) ]

/-- Association-list lookup, modelling Python `dict.get(key)`. -/
def alistGet {α : Type} (kvs : List (String × α)) (k : String) : Option α :=
  match kvs.find? (fun kv => kv.1 == k) with
  | some kv => some kv.2
  | none => none

/-- `self.schemas.get(node_type)`: registry lookup by type tag. -/
def lookupSchema (t : String) : Option NodeSchema :=
  alistGet schemas t

/-- `NodeSchemaValidator.requires_credentials`. -/
def requiresCredentials (t : String) : Bool :=
  match lookupSchema t with
  | some s => s.requiresCredentials
  | none => false

/-- `NodeSchemaValidator.get_credential_type`. -/
def getCredentialType (t : String) : Option String :=
  match lookupSchema t with
  | some s => s.credentialType
  | none => none

/-- `NodeSchemaValidator.needs_error_handling`. -/
def needsErrorHandling (t : String) : Bool :=
  match lookupSchema t with
  | some s => s.errorHandlingRecommended
  | none => false

/-- A node as a Python dictionary: each field models one key the embedded
code reads (`none` = key absent).  Keys none of the embedded code reads are
not represented; the embedded code never adds or removes such keys. -/
structure PyNode where
  id : Option String := none
  name : Option String := none
  type : Option String := none
  typeVersion : Option Int := none
  position : Option (List Int) := none
  parameters : Option (List (String × JVal)) := none
  credentials : Option (List (String × JVal)) := none
  onError : Option JVal := none
  retryOnFail : Option JVal := none
  continueOnFail : Option JVal := none
  maxTries : Option JVal := none

/-- Does a parameter / credential bag contain the key `k`
(Python `k in d`)? -/
def hasKey (kvs : List (String × JVal)) (k : String) : Bool :=
  kvs.any (fun kv => kv.1 == k)

/-- Python `s.startswith(p)`, via character lists (kernel-computable, unlike
the byte-based core `String.startsWith`). -/
def strStartsWith (s p : String) : Bool :=
  p.toList.isPrefixOf s.toList

/-- Python `s.endswith(p)`, via character lists. -/
def strEndsWith (s p : String) : Bool :=
  p.toList.isSuffixOf s.toList

/-- Fuel-bounded worker for `strReplace`; the fuel starts at the subject
length, enough since the pattern is non-empty at every call site. -/
def strReplaceFuel (old new : List Char) : Nat → List Char → List Char
  | 0, s => s
  | _ + 1, [] => []
  | fuel + 1, c :: rest =>
      if old.isPrefixOf (c :: rest) then
        new ++ strReplaceFuel old new fuel ((c :: rest).drop old.length)
      else
        c :: strReplaceFuel old new fuel rest

/-- Python `s.replace(old, new)` for a non-empty `old`: replace
non-overlapping occurrences left to right (the embedded code never calls it
with an empty pattern). -/
def strReplace (s old new : String) : String :=
  if old == "" then s
  else ⟨strReplaceFuel old.toList new.toList s.toList.length s.toList⟩

/-- Python `s.lower()`, via character lists (kernel-computable, unlike the
byte-based core `String.toLower`); every string it is applied to here is
ASCII. -/
def strToLower (s : String) : String :=
  ⟨s.toList.map Char.toLower⟩

/-- Result shape of `NodeSchemaValidator.validate_node`. -/
structure NodeValidation where
  valid : Bool
  errors : List String
  warnings : List String

/-- `NodeSchemaValidator.validate_node`: schema check of a single node.
An unknown type yields `valid=True` with one warning; a known schema checks
required parameters, the credential binding and the error-handling
recommendation. -/
def validateNode (node : PyNode) : NodeValidation :=
  let nodeType := node.type
  let schema := match nodeType with
    | some t => lookupSchema t
    | none => none
  match schema with
  | none =>
      { valid := true,
        warnings := ["No schema found for node type: " ++ (nodeType.getD "None")],
        errors := [] }
  | some schema =>
      let params := node.parameters.getD []
      let missingParamErrors :=
        (schema.required.filter (fun req => !hasKey params req)).map
          (fun req => "Missing required parameter: " ++ req)
      let emptyParamErrors :=
        if !schema.required.isEmpty && params.isEmpty then
          ["Parameters object is empty but required parameters are needed"]
        else []
      let credentialErrors :=
        if schema.requiresCredentials then
          match node.credentials with
          | none => ["Missing credentials configuration"]
          | some creds =>
              match schema.credentialType with
              | some ct =>
                  if ct != "" && !hasKey creds ct then
                    ["Missing credential type: " ++ ct]
                  else []
              | none => []
        else []
      let warnings :=
        if schema.errorHandlingRecommended then
          if node.onError.isNone && node.retryOnFail.isNone then
            ["Error handling recommended but not configured"]
          else []
        else []
      let errors := missingParamErrors ++ emptyParamErrors ++ credentialErrors
      { valid := errors.isEmpty, errors := errors, warnings := warnings }

/-- `models/workflow.py` `WorkflowConnection` (pydantic, typed). -/
structure WConn where
  node : String
  type : String
  index : Int

/-- `models/workflow.py` `WorkflowNode` (pydantic, typed). -/
structure WNode where
  id : String
  name : String
  type : String
  typeVersion : Int
  position : List Int
  parameters : List (String × JVal)
  credentials : Option (List (String × List (String × String))) := none

/-- `models/workflow.py` `WorkflowJSON` (pydantic, typed).  Connections are
`Dict[str, Dict[str, List[List[WorkflowConnection]]]]`, embedded as nested
association lists in insertion order. -/
structure WorkflowJSON where
  name : String
  nodes : List WNode
  connections : List (String × List (String × List (List WConn)))
  active : Option Bool := some false
  settings : Option (List (String × JVal)) := some []
  meta : Option JVal := none

/-- `models/workflow.py` `ValidationError`. -/
structure VError where
  type : String
  message : String
  nodeId : Option String := none

/-- `models/workflow.py` `ValidationResult`. -/
structure VResult where
  isValid : Bool
  errors : List VError
  warnings : List String

/-- Fallible dictionary subscript `d[k]` (raises `KeyError` in Python). -/
def dictGetE {α : Type} (kvs : List (String × α)) (k : String) : Except String α :=
  match alistGet kvs k with
  | some v => Except.ok v
  | none => Except.error ("KeyError: " ++ k)

/-- `ValidationService.REQUIRED_WORKFLOW_FIELDS`. -/
def requiredWorkflowFields : List String := ["name", "nodes", "connections"]

/-- `ValidationService.REQUIRED_NODE_FIELDS`. -/
def requiredNodeFields : List String :=
  ["id", "name", "type", "typeVersion", "position", "parameters"]

/-- `ValidationService.TRIGGER_NODE_TYPES`. -/
def triggerNodeTypes : List String :=
  ["n8n-nodes-base.manualTrigger", "n8n-nodes-base.webhook",
   "n8n-nodes-base.scheduleTrigger", "n8n-nodes-base.cronTrigger"]

/-- `ValidationService._validate_structure`.  On the typed pydantic model the
required top-level fields `name`, `nodes` and `connections` are always present
and non-None, so the field loop contributes no errors; only the node-count
check can fire. -/
def vValidateStructure (w : WorkflowJSON) : List VError :=
  let fieldErrors : List VError := []
  fieldErrors ++
    (if w.nodes.isEmpty then
      [{ type := "structure", message := "Workflow must contain at least one node" }]
    else [])

/-- Errors `ValidationService._validate_nodes` reports for a single node.  On
the typed model every key in `REQUIRED_NODE_FIELDS` is present and non-None,
so only the position-shape and type-format checks can fire. -/
def vNodeErrors (node : WNode) : List VError :=
  (if node.position.length != 2 then
    [{ type := "node", message := "Node position must be [x, y]", nodeId := some node.id }]
  else []) ++
  (if !strStartsWith node.type "n8n-nodes-base." then
    [{ type := "node", message := "Invalid node type format: " ++ node.type,
       nodeId := some node.id }]
  else [])

/-- `ValidationService._validate_nodes`. -/
def vValidateNodes (w : WorkflowJSON) : List VError :=
  w.nodes.flatMap vNodeErrors

/-- Errors `ValidationService._validate_connections` reports for one entry of
the connection map.  The subscript `outputs['main']` is a raw access guarded
by `'main' in outputs`. -/
def vConnEntryErrors (nodeNames : List String)
    (entry : String × List (String × List (List WConn))) :
    Except String (List VError) :=
  let sourceName := entry.1
  let outputs := entry.2
  if !nodeNames.contains sourceName then
    Except.ok
      [{ type := "connection",
         message := "Connection source node not found: " ++ sourceName }]
  else if (alistGet outputs "main").isSome then do
    let groups ← dictGetE outputs "main"
    Except.ok <| groups.flatMap fun group =>
      (group.filter (fun conn => !nodeNames.contains conn.node)).map fun conn =>
        { type := "connection",
          message := "Connection target node not found: " ++ conn.node,
          nodeId := some sourceName }
  else
    Except.ok []

/-- `ValidationService._validate_connections`, in the `Except` monad. -/
def vValidateConnections (w : WorkflowJSON) : Except String (List VError) :=
  let nodeNames := w.nodes.map WNode.name
  let rec go : List (String × List (String × List (List WConn))) →
      Except String (List VError)
    | [] => Except.ok []
    | entry :: rest => do
        let errs ← vConnEntryErrors nodeNames entry
        let more ← go rest
        Except.ok (errs ++ more)
  go w.connections

/-- `ValidationService._validate_trigger`. -/
def vValidateTrigger (w : WorkflowJSON) : List String :=
  let hasTrigger := w.nodes.any (fun n => triggerNodeTypes.contains n.type)
  if !hasTrigger then
    ["Workflow does not contain a trigger node. It may need to be started manually or have a trigger added."]
  else []

/-- `ValidationService._validate_unique_names`: fold with the set of names
seen so far (first-insertion-order list). -/
def vUniqueNamesAux : List WNode → List String → List VError
  | [], _ => []
  | node :: rest, seen =>
      (if seen.contains node.name then
        [{ type := "node", message := "Duplicate node name: " ++ node.name,
           nodeId := some node.id }]
      else []) ++
      vUniqueNamesAux rest (seen ++ [node.name])

/-- `ValidationService._validate_unique_names`. -/
def vValidateUniqueNames (w : WorkflowJSON) : List VError :=
  vUniqueNamesAux w.nodes []

/-- Insert a string into a first-insertion-order duplicate-free list
(Python `set.add`). -/
def insertNew (seen : List String) (s : String) : List String :=
  if seen.contains s then seen else seen ++ [s]

/-- The set of node names mentioned by the connection map, as collected by
`ValidationService._generate_warnings` (sources plus all targets under
`main`). -/
def vConnectedNames (conns : List (String × List (String × List (List WConn)))) :
    List String :=
  conns.foldl
    (fun acc entry =>
      let acc := insertNew acc entry.1
      match alistGet entry.2 "main" with
      | some groups =>
          groups.foldl
            (fun acc group => group.foldl (fun acc c => insertNew acc c.node) acc)
            acc
      | none => acc)
    []

/-- `ValidationService._generate_warnings`. -/
def vGenerateWarnings (w : WorkflowJSON) : List String :=
  let connected := vConnectedNames w.connections
  let disconnected := (w.nodes.filter (fun n => !connected.contains n.name)).map WNode.name
  (if !disconnected.isEmpty then
    ["Disconnected nodes found: " ++ String.intercalate ", " disconnected ++
     ". These nodes will not execute."]
  else []) ++
  (if w.name == "" || w.name == "My Workflow" then
    ["Consider giving the workflow a more descriptive name"]
  else [])

/-- A connection-list entry as a Python dictionary (`none` = key absent). -/
structure PyConnEntry where
  node : Option String := none
  type : Option String := none
  index : Option Int := none

/-- A workflow as a Python dictionary (`none` = key absent), the input type of
the quality validator and of the refinement pipeline's repair passes. -/
structure PyWorkflow where
  name : Option String := none
  nodes : Option (List PyNode) := none
  connections : Option (List (String × List (String × List (List PyConnEntry)))) := none
  active : Option Bool := none
  settings : Option JVal := none

/-- `QualityValidator.min_node_count`. -/
def minNodeCount : List (String × Nat) :=
  [("simple", 15), ("standard", 25), ("complex", 35)]

/-- `QualityValidator.min_sticky_notes` (= `QUALITY_CONFIG['min_sticky_notes']`). -/
def minStickyNotes : Nat := 5

/-- `QualityValidator.min_quality_score` (= `QUALITY_CONFIG['min_quality_score']`). -/
def minQualityScore : Nat := 80

/-- `QUALITY_CONFIG['max_generation_attempts']`. -/
def maxGenerationAttempts : Nat := 3

/-- Exact rational comparison `a / b >= p / q`, embedding the source's float
comparison `percentage >= threshold` (used only with `b > 0`). -/
def ratioGe (a b p q : Nat) : Bool :=
  a * q ≥ p * b

/-- Round `n / d` to the nearest integer, halves to even: exact-rational
embedding of Python's `{:.0%}` float formatting (used only with `d > 0`). -/
def roundHalfEven (n d : Nat) : Nat :=
  let q := n / d
  let r := n % d
  if 2 * r < d then q
  else if 2 * r > d then q + 1
  else if q % 2 == 0 then q else q + 1

/-- Exact-rational embedding of Python's `f"{a/b:.0%}"`. -/
def pct0 (a b : Nat) : String :=
  toString (roundHalfEven (100 * a) b) ++ "%"

/-- Result of `QualityValidator._check_node_count`. -/
structure NodeCountCheck where
  score : Nat
  maxScore : Nat
  nodeCount : Nat
  required : Nat
  passed : Bool
  message : String

/-- Result of `QualityValidator._check_credentials`.  In the
no-service-nodes branch the source returns a dict without the
`service_nodes`, `with_credentials` and `percentage` keys; those fields are
`none` there. -/
structure CredCheck where
  score : Nat
  maxScore : Nat
  serviceNodes : Option Nat
  withCredentials : Option Nat
  percentage : Option (Nat × Nat)
  passed : Bool
  message : String

/-- Result of `QualityValidator._check_parameters`. -/
structure ParamCheck where
  score : Nat
  maxScore : Nat
  completeNodes : Nat
  totalNodes : Nat
  percentage : Nat × Nat
  passed : Bool
  message : String

/-- Result of `QualityValidator._check_error_handling`.  In the
no-processable-nodes branch the source returns a dict without the
`nodes_with_error_handling`, `total_nodes` and `percentage` keys. -/
structure ErrHandlingCheck where
  score : Nat
  maxScore : Nat
  nodesWithErrorHandling : Option Nat
  totalNodes : Option Nat
  percentage : Option (Nat × Nat)
  passed : Bool
  message : String

/-- Result of `QualityValidator._check_connections`. -/
structure ConnCheck where
  score : Nat
  maxScore : Nat
  passed : Bool
  unconnectedNodes : List String
  message : String

/-- Result of `QualityValidator._check_documentation`. -/
structure DocCheck where
  score : Nat
  maxScore : Nat
  stickyNoteCount : Nat
  required : Nat
  passed : Bool
  message : String

/-- Result of `QualityValidator._check_flow_complexity`. -/
structure FlowCheck where
  score : Nat
  maxScore : Nat
  features : List String
  featureCount : Nat
  passed : Bool
  message : String

/-- The `details` dict assembled by `QualityValidator.validate`. -/
structure QualityDetails where
  node_count : NodeCountCheck
  credentials : CredCheck
  parameters : ParamCheck
  error_handling : ErrHandlingCheck
  connections : ConnCheck
  documentation : DocCheck
  flow_complexity : FlowCheck

/-- The dict returned by `QualityValidator.validate`. -/
structure QualityResult where
  valid : Bool
  score : Nat
  details : QualityDetails
  requiredScore : Nat
  grade : String

/-- `QualityValidator._check_node_count`. -/
def checkNodeCount (w : PyWorkflow) (complexity : String) : NodeCountCheck :=
  let nodes := w.nodes.getD []
  let nodeCount := nodes.length
  let required := (alistGet minNodeCount complexity).getD 25
  let score :=
    if nodeCount ≥ 35 then 20
    else if nodeCount ≥ 25 then 15
    else if nodeCount ≥ 15 then 10
    else if nodeCount ≥ 10 then 5
    else 0
  { score := score, maxScore := 20, nodeCount := nodeCount, required := required,
    passed := nodeCount ≥ required,
    message := "Node count: " ++ toString nodeCount ++ " (required: " ++
      toString required ++ ")" }

/-- Is this node counted as "has proper credentials" by
`QualityValidator._check_credentials`?  (`'credentials' in node` and the
type's credential kind, when truthy, is a key of it.) -/
def nodeHasProperCredentials (n : PyNode) : Bool :=
  match n.credentials with
  | none => false
  | some creds =>
      match getCredentialType (n.type.getD "") with
      | some ct => ct != "" && hasKey creds ct
      | none => false

/-- `QualityValidator._check_credentials`. -/
def checkCredentials (w : PyWorkflow) : CredCheck :=
  let nodes := w.nodes.getD []
  let serviceNodes := nodes.filter (fun n => requiresCredentials (n.type.getD ""))
  if serviceNodes.isEmpty then
    { score := 15, maxScore := 15, serviceNodes := none, withCredentials := none,
      percentage := none, passed := true,
      message := "No service nodes requiring credentials" }
  else
    let nodesWithCreds := (serviceNodes.filter nodeHasProperCredentials).length
    let sn := serviceNodes.length
    let score :=
      if ratioGe nodesWithCreds sn 1 1 then 15
      else if ratioGe nodesWithCreds sn 4 5 then 12
      else if ratioGe nodesWithCreds sn 3 5 then 9
      else if ratioGe nodesWithCreds sn 2 5 then 6
      else 0
    { score := score, maxScore := 15, serviceNodes := some sn,
      withCredentials := some nodesWithCreds,
      percentage := some (nodesWithCreds, sn),
      passed := ratioGe nodesWithCreds sn 9 10,
      message := toString nodesWithCreds ++ "/" ++ toString sn ++
        " service nodes have credentials" }

/-- `QualityValidator._check_parameters`. -/
def checkParameters (w : PyWorkflow) : ParamCheck :=
  let nodes := w.nodes.getD []
  let nonSticky := nodes.filter (fun n => n.type != some "n8n-nodes-base.stickyNote")
  let totalNodes := nonSticky.length
  let completeParams := (nonSticky.filter (fun n => (validateNode n).valid)).length
  let percentage : Nat × Nat :=
    if totalNodes == 0 then (1, 1) else (completeParams, totalNodes)
  let score :=
    if ratioGe percentage.1 percentage.2 1 1 then 15
    else if ratioGe percentage.1 percentage.2 9 10 then 12
    else if ratioGe percentage.1 percentage.2 4 5 then 9
    else 0
  { score := score, maxScore := 15, completeNodes := completeParams,
    totalNodes := totalNodes, percentage := percentage,
    passed := ratioGe percentage.1 percentage.2 4 5,
    message := toString completeParams ++ "/" ++ toString totalNodes ++
      " nodes have complete parameters" }

/-- Is this node processable for `QualityValidator._check_error_handling`
(not a trigger, not a sticky note)? -/
def isProcessable (n : PyNode) : Bool :=
  !strEndsWith (n.type.getD "") "Trigger" && n.type != some "n8n-nodes-base.stickyNote"

/-- Does the node carry any of the error-handling keys
(`onError`, `retryOnFail`, `continueOnFail`)? -/
def hasErrorHandlingKeys (n : PyNode) : Bool :=
  n.onError.isSome || n.retryOnFail.isSome || n.continueOnFail.isSome

/-- `QualityValidator._check_error_handling`. -/
def checkErrorHandling (w : PyWorkflow) : ErrHandlingCheck :=
  let nodes := w.nodes.getD []
  let processable := nodes.filter isProcessable
  if processable.isEmpty then
    { score := 0, maxScore := 20, nodesWithErrorHandling := none,
      totalNodes := none, percentage := none, passed := false,
      message := "No processable nodes found" }
  else
    let nwe := (processable.filter hasErrorHandlingKeys).length
    let total := processable.length
    let score :=
      if ratioGe nwe total 1 2 then 20
      else if ratioGe nwe total 2 5 then 16
      else if ratioGe nwe total 3 10 then 12
      else if ratioGe nwe total 1 5 then 8
      else 0
    { score := score, maxScore := 20, nodesWithErrorHandling := some nwe,
      totalNodes := some total, percentage := some (nwe, total),
      passed := ratioGe nwe total 3 10,
      message := toString nwe ++ "/" ++ toString total ++
        " nodes have error handling (" ++ pct0 nwe total ++ ")" }

/-- Fallible access `n['name']`. -/
def nodeNameE (n : PyNode) : Except String String :=
  match n.name with
  | some s => Except.ok s
  | none => Except.error "KeyError: name"

/-- Fallible access `n['type']`. -/
def nodeTypeE (n : PyNode) : Except String String :=
  match n.type with
  | some s => Except.ok s
  | none => Except.error "KeyError: type"

/-- Fallible access `conn['node']`. -/
def connNodeE (c : PyConnEntry) : Except String String :=
  match c.node with
  | some s => Except.ok s
  | none => Except.error "KeyError: node"

/-- Collect `n['name']` over a node list, failing at the first node without
the key (Python set comprehension `{n['name'] for n in nodes}`; the set is
modelled as a duplicate-free list). -/
def collectNamesE (p : PyNode → Bool) : List PyNode → Except String (List String)
  | [] => Except.ok []
  | n :: rest =>
      if p n then do
        let name ← nodeNameE n
        let more ← collectNamesE p rest
        Except.ok (insertNew more name)
      else
        collectNamesE p rest

/-- Collect the target names of every connection entry (the quadruple nested
loop of `QualityValidator._check_connections`), failing at the first entry
without a `node` key. -/
def collectConnTargetsE
    (conns : List (String × List (String × List (List PyConnEntry)))) :
    Except String (List String) := do
  let rec goEntries : List PyConnEntry → Except String (List String)
    | [] => Except.ok []
    | c :: rest => do
        let t ← connNodeE c
        let more ← goEntries rest
        Except.ok (insertNew more t)
  let rec goLists : List (List PyConnEntry) → Except String (List String)
    | [] => Except.ok []
    | l :: rest => do
        let xs ← goEntries l
        let more ← goLists rest
        Except.ok (xs.foldl insertNew more)
  let rec goTypes : List (String × List (List PyConnEntry)) → Except String (List String)
    | [] => Except.ok []
    | kv :: rest => do
        let xs ← goLists kv.2
        let more ← goTypes rest
        Except.ok (xs.foldl insertNew more)
  let rec goSources : List (String × List (String × List (List PyConnEntry))) →
      Except String (List String)
    | [] => Except.ok []
    | kv :: rest => do
        let xs ← goTypes kv.2
        let more ← goSources rest
        Except.ok (xs.foldl insertNew more)
  goSources conns

/-- `QualityValidator._check_connections`, in the `Except` monad: the raw
subscripts `n['name']` and `conn['node']` fail on nodes or connection entries
without those keys. -/
def checkConnections (w : PyWorkflow) : Except String ConnCheck := do
  let nodes := w.nodes.getD []
  let connections := w.connections.getD []
  let nodeNames ← collectNamesE (fun _ => true) nodes
  let triggerNodes ← collectNamesE (fun n => strEndsWith (n.type.getD "") "Trigger") nodes
  let stickyNotes ← collectNamesE (fun n => n.type == some "n8n-nodes-base.stickyNote") nodes
  let nodesNeedingInput := nodeNames.filter
    (fun s => !triggerNodes.contains s && !stickyNotes.contains s)
  let nodesWithInput ← collectConnTargetsE connections
  let unconnected := nodesNeedingInput.filter (fun s => !nodesWithInput.contains s)
  let (score, passed) := if unconnected.length == 0 then ((5 : Nat), true) else (0, false)
  return ({
    score := score, maxScore := 5, passed := passed,
    unconnectedNodes := unconnected,
    message := toString nodesWithInput.length ++ "/" ++
      toString nodesNeedingInput.length ++ " required nodes connected" } : ConnCheck)

/-- `QualityValidator._check_documentation`. -/
def checkDocumentation (w : PyWorkflow) : DocCheck :=
  let nodes := w.nodes.getD []
  let count := (nodes.filter (fun n => n.type == some "n8n-nodes-base.stickyNote")).length
  let score :=
    if count ≥ 8 then 10
    else if count ≥ 5 then 7
    else if count ≥ 3 then 4
    else 0
  { score := score, maxScore := 10, stickyNoteCount := count,
    required := minStickyNotes, passed := count ≥ minStickyNotes,
    message := toString count ++ " sticky notes (minimum: " ++
      toString minStickyNotes ++ ")" }

/-- Short-circuiting `any` over a fallible predicate (a Python generator
expression inside `any(...)` with raw subscripts). -/
def anyE {α : Type} (p : α → Except String Bool) : List α → Except String Bool
  | [] => Except.ok false
  | x :: xs => do
      if (← p x) then Except.ok true else anyE p xs

/-- `QualityValidator._check_flow_complexity`, in the `Except` monad: the
first four feature probes use the raw subscript `n['type']`; the fifth uses
`n.get('type')` and cannot fail. -/
def checkFlowComplexity (w : PyWorkflow) (complexity : String) :
    Except String FlowCheck := do
  let nodes := w.nodes.getD []
  let hasIfNodes ← anyE (fun n => do
    return (← nodeTypeE n) == "n8n-nodes-base.if") nodes
  let hasSwitchNodes ← anyE (fun n => do
    return (← nodeTypeE n) == "n8n-nodes-base.switch") nodes
  let hasMergeNodes ← anyE (fun n => do
    return (← nodeTypeE n) == "n8n-nodes-base.merge") nodes
  let hasSetNodes ← anyE (fun n => do
    return (← nodeTypeE n) == "n8n-nodes-base.set") nodes
  let hasCodeNodes := nodes.any (fun n =>
    n.type == some "n8n-nodes-base.code" || n.type == some "n8n-nodes-base.function")
  let features :=
    (if hasIfNodes || hasSwitchNodes then ["conditional logic"] else []) ++
    (if hasMergeNodes then ["merging"] else []) ++
    (if hasSetNodes then ["data transformation"] else []) ++
    (if hasCodeNodes then ["custom logic"] else [])
  let featureCount := features.length
  let score :=
    if complexity == "simple" then
      if featureCount ≥ 2 then 15
      else if featureCount ≥ 1 then 10
      else 5
    else
      if featureCount ≥ 3 then 15
      else if featureCount ≥ 2 then 10
      else if featureCount ≥ 1 then 5
      else 0
  return ({
    score := score, maxScore := 15, features := features,
    featureCount := featureCount,
    passed := featureCount ≥ (if complexity == "simple" then 1 else 2),
    message := "Flow features: " ++
      (if features.isEmpty then "none" else String.intercalate ", " features) } : FlowCheck)

/-- `QualityValidator._calculate_score`. -/
def calculateScore (d : QualityDetails) : Nat :=
  d.node_count.score + d.credentials.score + d.parameters.score +
    d.error_handling.score + d.connections.score + d.documentation.score +
    d.flow_complexity.score

/-- `QualityValidator._get_grade`. -/
def getGrade (score : Nat) : String :=
  if score ≥ 90 then "A (Excellent)"
  else if score ≥ 80 then "B (Good)"
  else if score ≥ 70 then "C (Acceptable)"
  else if score ≥ 60 then "D (Needs Improvement)"
  else "F (Poor)"

/-- `QualityValidator.validate`, in the `Except` monad.  The checks are
evaluated in the order of the source's `results` dict literal, so the first
raising check determines the exception. -/
def qvalidate (w : PyWorkflow) (complexity : String) :
    Except String QualityResult := do
  let nodeCount := checkNodeCount w complexity
  let credentials := checkCredentials w
  let parameters := checkParameters w
  let errorHandling := checkErrorHandling w
  let connections ← checkConnections w
  let documentation := checkDocumentation w
  let flowComplexity ← checkFlowComplexity w complexity
  let details : QualityDetails :=
    { node_count := nodeCount, credentials := credentials,
      parameters := parameters, error_handling := errorHandling,
      connections := connections, documentation := documentation,
      flow_complexity := flowComplexity }
  let overallScore := calculateScore details
  return ({
    valid := overallScore ≥ minQualityScore, score := overallScore,
    details := details, requiredScore := minQualityScore,
    grade := getGrade overallScore } : QualityResult)

/-- `QualityValidator.generate_feedback`, in the `Except` monad: the source
reads `details['credentials']['service_nodes']` (and friends) and
`details['error_handling']['percentage']` with raw subscripts, and those keys
are absent in the lenient branches of the corresponding checks. -/
def generateFeedback (r : QualityResult) : Except String (List String) := do
  let d := r.details
  let nodeCountFb :=
    if !d.node_count.passed then
      ["CRITICAL: Workflow has only " ++ toString d.node_count.nodeCount ++
       " nodes. Add more nodes to reach " ++ toString d.node_count.required ++
       " nodes minimum."]
    else []
  let credFb ←
    if !d.credentials.passed then do
      let sn ← match d.credentials.serviceNodes with
        | some v => Except.ok v
        | none => Except.error "KeyError: service_nodes"
      let wc ← match d.credentials.withCredentials with
        | some v => Except.ok v
        | none => Except.error "KeyError: with_credentials"
      Except.ok ["CRITICAL: " ++ toString ((sn : Int) - (wc : Int)) ++
        " service nodes missing credentials configuration."]
    else Except.ok []
  let paramFb :=
    if !d.parameters.passed then
      ["CRITICAL: " ++
       toString ((d.parameters.totalNodes : Int) - (d.parameters.completeNodes : Int)) ++
       " nodes have incomplete or missing parameters."]
    else []
  let ehFb ←
    if !d.error_handling.passed then do
      let p ← match d.error_handling.percentage with
        | some v => Except.ok v
        | none => Except.error "KeyError: percentage"
      Except.ok ["WARNING: Only " ++ pct0 p.1 p.2 ++
        " of nodes have error handling. Add onError, retryOnFail, or continueOnFail to critical nodes."]
    else Except.ok []
  let connFb :=
    if !d.connections.passed then
      ["CRITICAL: " ++ toString d.connections.unconnectedNodes.length ++
       " nodes are not connected: " ++
       String.intercalate ", " (d.connections.unconnectedNodes.take 3)]
    else []
  let docFb :=
    if !d.documentation.passed then
      ["WARNING: Add " ++
       toString ((d.documentation.required : Int) - (d.documentation.stickyNoteCount : Int)) ++
       " more sticky notes to document workflow sections."]
    else []
  let flowFb :=
    if !d.flow_complexity.passed then
      ["WARNING: Workflow lacks complexity features. Add IF/Switch nodes for branching, Merge nodes for parallel paths, or Set nodes for data transformation."]
    else []
  return nodeCountFb ++ credFb ++ paramFb ++ ehFb ++ connFb ++ docFb ++ flowFb

/-- Fallible list subscript `l[i]` (raises `IndexError` in Python). -/
def listGetE {α : Type} (l : List α) (i : Nat) : Except String α :=
  match l.get? i with
  | some x => Except.ok x
  | none => Except.error "IndexError: list index out of range"

/-- Substring test, embedding Python `sub in s`. -/
def strContains (s sub : String) : Bool :=
  decide (sub.toList <:+: s.toList)

/-- Character-list worker for `pyTitle`.  The boolean is True when the
previous character was alphabetic. -/
def pyTitleAux : List Char → Bool → List Char
  | [], _ => []
  | c :: rest, prevAlpha =>
      if c.isAlpha then
        (if prevAlpha then c.toLower else c.toUpper) :: pyTitleAux rest true
      else
        c :: pyTitleAux rest false

/-- Python `str.title()`: uppercase the first character of each alphabetic
run, lowercase the rest.  (Python keys runs on cased characters; every string
the embedded code titles is ASCII, where this coincides.) -/
def pyTitle (s : String) : String :=
  ⟨pyTitleAux s.toList false⟩

/-- `EnhancedWorkflowGenerator._fix_structure`, per node: fill missing `id`
(drawing a fresh UUID), `position`, `parameters` and `typeVersion`. -/
def fixStructureNode (g : Nat → String) (k : Nat) (n : PyNode) : PyNode × Nat :=
  let (id, k) :=
    match n.id with
    | some i => (some i, k)
    | none => (some (g k), k + 1)
  ({ n with
      id := id,
      position := some (n.position.getD [0, 0]),
      parameters := some (n.parameters.getD []),
      typeVersion := some (n.typeVersion.getD 1) }, k)

/-- Node loop of `EnhancedWorkflowGenerator._fix_structure`, threading the
UUID counter. -/
def fixStructureNodes (g : Nat → String) : List PyNode → Nat → List PyNode × Nat
  | [], k => ([], k)
  | n :: rest, k =>
      let (n, k) := fixStructureNode g k n
      let (rest, k) := fixStructureNodes g rest k
      (n :: rest, k)

/-- `EnhancedWorkflowGenerator._fix_structure`: fill missing top-level keys
and per-node structural defaults. -/
def fixStructure (g : Nat → String) (k : Nat) (w : PyWorkflow) : PyWorkflow × Nat :=
  let name := some (w.name.getD "Generated Workflow")
  let nodes := w.nodes.getD []
  let connections := some (w.connections.getD [])
  let active := some (w.active.getD false)
  let settings := some (w.settings.getD (JVal.jobj [("executionOrder", JVal.jstr "v1")]))
  let (nodes, k) := fixStructureNodes g nodes k
  ({ name := name, nodes := some nodes, connections := connections,
     active := active, settings := settings }, k)

/-- `EnhancedWorkflowGenerator._fix_parameters`: runs `validate_node` on each
node and prints the issues; it never modifies the workflow. -/
def fixParameters (w : PyWorkflow) : PyWorkflow := w

/-- `EnhancedWorkflowGenerator._get_service_name`. -/
def getServiceName (nodeType : String) : String :=
  let name := strReplace nodeType "n8n-nodes-base." ""
  let name := strReplace name "@n8n/n8n-nodes-langchain." ""
  let name := strReplace name "@blotato/n8n-nodes-blotato." ""
  pyTitle (strReplace (strReplace name "_" " ") "-" " ")

/-- `EnhancedWorkflowGenerator._inject_credentials`, per node: add a
placeholder binding under the type's credential kind when the node has no
`credentials` key. -/
def injectCredentialsNode (n : PyNode) : PyNode :=
  let nodeType := n.type.getD ""
  if requiresCredentials nodeType then
    match n.credentials with
    | some _ => n
    | none =>
        match getCredentialType nodeType with
        | some ct =>
            if ct != "" then
              let binding : List (String × JVal) :=
                [(ct, JVal.jobj
                  [("id", JVal.jstr "\x7b\x7bCREDENTIAL_ID\x7d\x7d"),
                   ("name", JVal.jstr (getServiceName nodeType ++ " account"))])]
              { n with credentials := some binding }
            else n
        | none => n
  else n

/-- `EnhancedWorkflowGenerator._inject_credentials`. -/
def injectCredentials (w : PyWorkflow) : PyWorkflow :=
  { w with nodes := w.nodes.map (List.map injectCredentialsNode) }

/-- `EnhancedWorkflowGenerator._add_error_handling`, per node. -/
def addErrorHandlingNode (n : PyNode) : PyNode :=
  let nodeType := n.type.getD ""
  if strEndsWith nodeType "Trigger" || nodeType == "n8n-nodes-base.stickyNote" then n
  else if needsErrorHandling nodeType then
    { n with
        onError := some (n.onError.getD (JVal.jstr "continueRegularOutput")),
        retryOnFail := some (n.retryOnFail.getD (JVal.jbool true)),
        maxTries := some (n.maxTries.getD (JVal.jnum 3)) }
  else n

/-- `EnhancedWorkflowGenerator._add_error_handling`. -/
def addErrorHandling (w : PyWorkflow) : PyWorkflow :=
  { w with nodes := w.nodes.map (List.map addErrorHandlingNode) }

/-- A section record built by
`EnhancedWorkflowGenerator._identify_workflow_sections`. -/
structure DocSection where
  title : String
  description : String
  position : List Int

/-- `EnhancedWorkflowGenerator._identify_workflow_sections`. -/
def identifyWorkflowSections (w : PyWorkflow) : List DocSection :=
  let nodes := w.nodes.getD []
  let triggers := nodes.filter (fun n => strEndsWith (n.type.getD "") "Trigger")
  let triggerSections : List DocSection :=
    match triggers with
    | t :: _ => [{ title := "Workflow Trigger",
                   description := "Initiates the workflow execution",
                   position := t.position.getD [0, 0] : DocSection }]
    | [] => []
  let conditionals := nodes.filter (fun n =>
    n.type == some "n8n-nodes-base.if" || n.type == some "n8n-nodes-base.switch")
  let conditionalSections : List DocSection :=
    match conditionals with
    | c :: _ => [{ title := "Conditional Logic",
                   description := "Routes data based on conditions",
                   position := c.position.getD [220, 0] : DocSection }]
    | [] => []
  let aiNodes := nodes.filter (fun n =>
    strContains (strToLower (n.type.getD "")) "ai" || strContains (strToLower (n.type.getD "")) "openai")
  let aiSections : List DocSection :=
    match aiNodes with
    | a :: _ => [{ title := "AI Processing",
                   description := "AI-powered content generation",
                   position := a.position.getD [440, 0] : DocSection }]
    | [] => []
  let merges := nodes.filter (fun n => n.type == some "n8n-nodes-base.merge")
  let mergeSections : List DocSection :=
    match merges with
    | m :: _ => [{ title := "Merge Results",
                   description := "Combines parallel execution paths",
                   position := m.position.getD [660, 0] : DocSection }]
    | [] => []
  let outputNodes := nodes.filter (fun n =>
    ["post", "send", "save", "create"].any
      (fun word => strContains (strToLower (n.name.getD "")) word))
  let outputSections : List DocSection :=
    match outputNodes with
    | o :: _ => [{ title := "Output Actions",
                   description := "Final workflow outputs",
                   position := o.position.getD [880, 0] : DocSection }]
    | [] => []
  let sections : List DocSection := triggerSections ++ conditionalSections ++
    aiSections ++ mergeSections ++ outputSections
  if sections.length < 3 then
    sections ++ [{ title := "Data Processing",
                   description := "Transform and prepare data",
                   position := [440, 300] : DocSection }]
  else sections

/-- `EnhancedWorkflowGenerator._create_sticky_note`: the raw subscripts
`position[0]` / `position[1]` fail on a malformed section position. -/
def createStickyNote (g : Nat → String) (k : Nat) (sec : DocSection) (i : Nat) :
    Except String (PyNode × Nat) := do
  let p0 ← listGetE sec.position 0
  let p1 ← listGetE sec.position 1
  let position := [p0 - 200, p1 - 150]
  Except.ok ({
    id := some (g k),
    name := some ("Note " ++ toString (i + 1)),
    type := some "n8n-nodes-base.stickyNote",
    typeVersion := some 1,
    position := some position,
    parameters := some
      [("content", JVal.jstr ("## " ++ sec.title ++ "\n\n" ++ sec.description)),
       ("height", JVal.jnum 160),
       ("width", JVal.jnum 240)] : PyNode }, k + 1)

/-- Sticky-note loop of `EnhancedWorkflowGenerator._add_documentation`
(`for i, section in enumerate(sections[:notes_needed])`). -/
def createStickyNotes (g : Nat → String) :
    List DocSection → Nat → Nat → Except String (List PyNode × Nat)
  | [], _, k => Except.ok ([], k)
  | sec :: rest, i, k => do
      let (note, k) ← createStickyNote g k sec i
      let (more, k) ← createStickyNotes g rest (i + 1) k
      Except.ok (note :: more, k)

/-- `EnhancedWorkflowGenerator._add_documentation`: top up sticky notes to
the target count (8 for `complex`, else `QUALITY_CONFIG['min_sticky_notes']`).
`max(0, target - existing)` is Nat subtraction.  The source appends to the
list obtained from `workflow.get('nodes', [])`, so when the `nodes` key is
absent the appends land in a fresh list and the workflow is unchanged. -/
def addDocumentation (g : Nat → String) (k : Nat) (w : PyWorkflow)
    (complexity : String) : Except String (PyWorkflow × Nat) := do
  let nodes := w.nodes.getD []
  let existingNotes := nodes.filter (fun n => n.type == some "n8n-nodes-base.stickyNote")
  let targetNotes := if complexity == "complex" then 8 else minStickyNotes
  let notesNeeded := targetNotes - existingNotes.length
  if notesNeeded > 0 then do
    let sections := identifyWorkflowSections w
    let (newNotes, k) ← createStickyNotes g (sections.take notesNeeded) 0 k
    Except.ok ({ w with nodes := w.nodes.map (· ++ newNotes) }, k)
  else
    Except.ok (w, k)

/-- `EnhancedWorkflowGenerator._validate_connections` (stage 7): only
ensures the `connections` key exists. -/
def stageValidateConnections (w : PyWorkflow) : PyWorkflow :=
  { w with connections := some (w.connections.getD []) }

/-- `EnhancedWorkflowGenerator._validate_and_refine`: the fixed-order repair
sequence (structure defaults, parameter logging, credential injection, error
handling, documentation, connection-key check). -/
def validateAndRefine (g : Nat → String) (k : Nat) (w : PyWorkflow)
    (complexity : String) : Except String (PyWorkflow × Nat) := do
  let (w, k) := fixStructure g k w
  let w := fixParameters w
  let w := injectCredentials w
  let w := addErrorHandling w
  let (w, k) ← addDocumentation g k w complexity
  let w := stageValidateConnections w
  Except.ok (w, k)

/-- The dict returned by `EnhancedWorkflowGenerator.generate`: the accepted
branch carries `workflow`, `quality_score`, `quality_details` and `attempt`;
the exhausted branch carries `workflow`, `quality_score`, `warning` and
`attempts`. -/
structure GenResult where
  workflow : Option PyWorkflow
  qualityScore : Nat
  qualityDetails : Option QualityResult
  attempt : Option Nat
  attempts : Option Nat
  warning : Option String

/-- Attempt loop of `EnhancedWorkflowGenerator.generate`.  The synthesis
collaborator (the LLM call of `_generate_workflow`, including JSON
extraction) is modelled as an oracle `synth` indexed by the attempt number;
`remaining` counts the attempts left out of
`QUALITY_CONFIG['max_generation_attempts']`.  The feedback derived for the
next prompt only alters the synthesis instruction (subsumed by the oracle),
but computing it can raise, so it stays in the model. -/
def egenLoop (synth : Nat → Option PyWorkflow) (g : Nat → String)
    (complexity : String) :
    Nat → Nat → Nat → Nat → Option PyWorkflow → Except String GenResult
  | _, 0, _, bestScore, bestWorkflow =>
      Except.ok {
        workflow := bestWorkflow, qualityScore := bestScore,
        qualityDetails := none, attempt := none,
        attempts := some maxGenerationAttempts,
        warning := some "Workflow may not meet all quality standards" }
  | attempt, remaining + 1, k, bestScore, bestWorkflow =>
      match synth attempt with
      | none => egenLoop synth g complexity (attempt + 1) remaining k bestScore bestWorkflow
      | some raw => do
          let (refined, k2) ← validateAndRefine g k raw complexity
          let qr ← qvalidate refined complexity
          let (bestScore, bestWorkflow) :=
            if qr.score > bestScore then (qr.score, some refined)
            else (bestScore, bestWorkflow)
          if qr.valid && qr.score ≥ minQualityScore then
            Except.ok {
              workflow := some refined, qualityScore := qr.score,
              qualityDetails := some qr, attempt := some (attempt + 1),
              attempts := none, warning := none }
          else if attempt < maxGenerationAttempts - 1 then do
            let _ ← generateFeedback qr
            egenLoop synth g complexity (attempt + 1) remaining k2 bestScore bestWorkflow
          else
            egenLoop synth g complexity (attempt + 1) remaining k2 bestScore bestWorkflow

/-- `EnhancedWorkflowGenerator.generate` (the refinement pipeline): loop for
up to `max_generation_attempts` attempts starting from an empty best
candidate. -/
def egenerate (synth : Nat → Option PyWorkflow) (g : Nat → String)
    (complexity : String) : Except String GenResult :=
  egenLoop synth g complexity 0 maxGenerationAttempts 0 0 none

/-- `ValidationService.validate_workflow`, in the `Except` monad (an
`Except.error` models a raised Python exception). -/
def validateWorkflow (w : WorkflowJSON) : Except String VResult := do
  let structErrors := vValidateStructure w
  let nodeErrors := vValidateNodes w
  let connErrors ← vValidateConnections w
  let triggerWarnings := vValidateTrigger w
  let nameErrors := vValidateUniqueNames w
  let extraWarnings := vGenerateWarnings w
  let errors := structErrors ++ nodeErrors ++ connErrors ++ nameErrors
  let warnings := triggerWarnings ++ extraWarnings
  return { isValid := errors.isEmpty, errors := errors, warnings := warnings }

/-- A node built by `WorkflowGenerator` (`workflow_generator.py`): the
builder always sets every structural field, so this model is typed.  The
position is stored as the source's `[x, y]` list. -/
structure GNode where
  id : String
  name : String
  type : String
  typeVersion : Nat
  position : List Int
  webhookId : Option String := none
  parameters : JVal
  credentials : Option JVal := none

/-- One target entry of a generator connection list
(`{"node": ..., "type": "main", "index": 0}`). -/
structure GTarget where
  node : String
  type : String
  index : Nat

/-- The per-source connection dict (`{"main": [[...], ...]}`), as an
association list from connection type to output lists. -/
abbrev GConnData : Type := List (String × List (List GTarget))

/-- The generator's connection map, keyed by source node name, in insertion
order (Python dict semantics). -/
abbrev GConns : Type := List (String × GConnData)

/-- Update the value at a key of an association list in place (Python
`d[k] = f(d[k])` for a present key; insertion order preserved). -/
def alistModify {α : Type} (kvs : List (String × α)) (k : String) (f : α → α) :
    List (String × α) :=
  kvs.map (fun kv => if kv.1 == k then (kv.1, f kv.2) else kv)

/-- Grow an output-list list with empty lists until index `i` exists
(`while len(lists) <= i: lists.append([])`). -/
def padOutputs (lists : List (List GTarget)) (i : Nat) : List (List GTarget) :=
  lists ++ List.replicate (i + 1 - lists.length) []

/-- Replace the element at index `i` (Python `l[i] = v`; `i` is always in
range where this is used). -/
def listSetAt {α : Type} (l : List α) (i : Nat) (v : α) : List α :=
  l.set i v

/-- Append `v` to the list at index `i`. -/
def listAppendAt (l : List (List GTarget)) (i : Nat) (v : GTarget) :
    List (List GTarget) :=
  l.set i ((l.getD i []) ++ [v])

/-- `WorkflowGenerator._connect_nodes`: ensure the source has an entry (with
`{"main": [[]]}`), pad its `main` lists up to `output_index`, and append the
target.  The `connections[from_name]["main"]` subscript is total here: every
entry this generator creates carries a `"main"` key. -/
def connectNodes (conns : GConns) (fromName toName : String)
    (outputIndex : Nat := 0) : GConns :=
  let conns :=
    if (alistGet conns fromName).isSome then conns
    else conns ++ [(fromName, ([("main", [[]])] : GConnData))]
  alistModify conns fromName (fun data =>
    alistModify data "main" (fun lists =>
      listAppendAt (padOutputs lists outputIndex) outputIndex
        { node := toName, type := "main", index := 0 }))

/-- Index-wise merge of two output-list lists (the `enumerate` loop of
`WorkflowGenerator._merge_connections`: extend in range, append beyond). -/
def mergeOutputLists : List (List GTarget) → List (List GTarget) →
    List (List GTarget)
  | tgt, [] => tgt
  | [], s :: srest => s :: mergeOutputLists [] srest
  | t :: trest, s :: srest => (t ++ s) :: mergeOutputLists trest srest

/-- Merge one source entry's connection dict into the target's
(`WorkflowGenerator._merge_connections`, inner loop). -/
def mergeConnData (tgt src : GConnData) : GConnData :=
  src.foldl
    (fun tgt ct =>
      if (alistGet tgt ct.1).isSome then
        alistModify tgt ct.1 (fun lists => mergeOutputLists lists ct.2)
      else tgt ++ [ct])
    tgt

/-- `WorkflowGenerator._merge_connections`. -/
def mergeConnections (tgt src : GConns) : GConns :=
  src.foldl
    (fun tgt entry =>
      if (alistGet tgt entry.1).isSome then
        alistModify tgt entry.1 (fun data => mergeConnData data entry.2)
      else tgt ++ [entry])
    tgt

/-- Truthiness of the `needs_notification` requirement value: the source
calls `.lower()` on it inside `_create_notification_nodes`, which raises
`AttributeError` for non-string values, so strings, booleans and absence are
distinguished. -/
inductive NotifVal where
  | noneV
  | boolV (b : Bool)
  | strV (s : String)

/-- Python truthiness of a `needs_notification` value. -/
def NotifVal.truthy : NotifVal → Bool
  | .noneV => false
  | .boolV b => b
  | .strV s => s != ""

/-- The requirements record consumed by `WorkflowGenerator`: one field per
dictionary key the source reads.  Boolean fields model the truthiness of
`requirements.get(key)`. -/
structure Requirements where
  trigger : Option String := none
  needsAuth : Bool := false
  needsValidation : Bool := false
  needsDuplicateCheck : Bool := false
  needsTransformation : Bool := false
  needsScoring : Bool := false
  hasBranching : Bool := false
  hasLoops : Bool := false
  needsErrorHandling : Bool := false
  needsRetryLogic : Bool := false
  numOutputs : Int := 1
  webhookPath : Option String := none
  scheduleFrequency : Option String := none
  database : Option String := none
  outputs : Option (List String) := none
  needsLogging : Bool := false
  needsNotification : NotifVal := .noneV
  needsErrorAlerts : Bool := false

/-- `ConversationState` as read by `_generate_workflow_name`: only
`initial_request` is consumed. -/
structure ConversationState where
  initialRequest : String

/-- `WorkflowGenerator.calculate_complexity`. -/
def calculateComplexity (req : Requirements) : Int :=
  let complexity : Int := 1
  let complexity := if req.trigger == some "webhook" then complexity + 1 else complexity
  let complexity := if req.needsAuth then complexity + 1 else complexity
  let complexity := if req.needsValidation then complexity + 2 else complexity
  let complexity := if req.needsDuplicateCheck then complexity + 2 else complexity
  let complexity := if req.needsTransformation then complexity + 1 else complexity
  let complexity := if req.needsScoring then complexity + 2 else complexity
  let complexity := if req.hasBranching then complexity + 2 else complexity
  let complexity := if req.hasLoops then complexity + 3 else complexity
  let complexity := if req.needsErrorHandling then complexity + 2 else complexity
  let complexity := if req.needsRetryLogic then complexity + 2 else complexity
  let complexity := complexity + req.numOutputs
  min complexity 10

/-- Layout constants of `WorkflowGenerator.__init__`. -/
def positionX : Int := 240

/-- Layout constant `position_y`. -/
def positionY : Int := 300

/-- Layout constant `spacing_x`. -/
def spacingX : Int := 220

/-- Layout constant `spacing_y`. -/
def spacingY : Int := 150

/-- First line of the `functionCode` parameter of the auth node; the
remainder of the JS string literal is elided — no embedded code inspects
parameter values. -/
def authFunctionCode : String := "// Validate API key from header"

/-- First line of the `functionCode` of the data-validation node (body
elided, never inspected). -/
def validateFunctionCode : String := "// Comprehensive data validation"

/-- First line of the `functionCode` of the validation-error logging node
(body elided, never inspected). -/
def logValidationErrorCode : String := "console.error validation failed"

/-- First line of the `functionCode` of the scoring node (body elided,
never inspected). -/
def scoringFunctionCode : String := "// Scoring algorithm"

/-- First line of the `functionCode` of the error-details logging node (body
elided, never inspected). -/
def logErrorDetailsCode : String := "const error = input error details"

/-- `WorkflowGenerator._create_trigger_node`.  The source draws `node_id`
before branching, so every branch consumes one UUID; the webhook branch draws
a second one for `webhookId`. -/
def createTriggerNode (req : Requirements) (pos : Int × Int) (g : Nat → String)
    (k : Nat) : GNode × (Int × Int) × Nat :=
  let triggerType := req.trigger.getD "webhook"
  let nodeId := g k
  let k := k + 1
  let (node, k) :=
    if triggerType == "webhook" then
      ({ id := nodeId, name := "Webhook Trigger", type := "n8n-nodes-base.webhook",
         typeVersion := 1, position := [pos.1, pos.2], webhookId := some (g k),
         parameters := JVal.jobj
           [("httpMethod", JVal.jstr "POST"),
            ("path", JVal.jstr (req.webhookPath.getD "workflow-trigger")),
            ("responseMode", JVal.jstr "onReceived"),
            ("options", JVal.jobj [])] : GNode }, k + 1)
    else if triggerType == "schedule" then
      ({ id := nodeId, name := "Schedule Trigger",
         type := "n8n-nodes-base.scheduleTrigger", typeVersion := 1,
         position := [pos.1, pos.2],
         parameters := JVal.jobj
           [("rule", JVal.jobj
             [("interval", JVal.jarr
               [JVal.jobj [("field", JVal.jstr (req.scheduleFrequency.getD "hour"))]])])] :
         GNode }, k)
    else if triggerType == "email" then
      ({ id := nodeId, name := "Email Trigger", type := "n8n-nodes-base.emailReadImap",
         typeVersion := 1, position := [pos.1, pos.2],
         parameters := JVal.jobj
           [("mailbox", JVal.jstr "INBOX"),
            ("options", JVal.jobj [("allowUnauthorizedCerts", JVal.jbool false)])],
         credentials := some (JVal.jobj
           [("imap", JVal.jobj
             [("id", JVal.jstr "1"),
              ("name", JVal.jstr "IMAP Account (to be configured)")])]) : GNode }, k)
    else
      ({ id := nodeId, name := "Manual Trigger", type := "n8n-nodes-base.manualTrigger",
         typeVersion := 1, position := [pos.1, pos.2],
         parameters := JVal.jobj [] : GNode }, k)
  (node, (pos.1 + spacingX, pos.2), k)

/-- `WorkflowGenerator._create_auth_node`. -/
def createAuthNode (pos : Int × Int) (g : Nat → String) (k : Nat) :
    GNode × (Int × Int) × Nat :=
  ({ id := g k, name := "Validate API Key", type := "n8n-nodes-base.function",
     typeVersion := 1, position := [pos.1, pos.2],
     parameters := JVal.jobj [("functionCode", JVal.jstr authFunctionCode)] : GNode },
   (pos.1 + spacingX, pos.2), k + 1)

/-- `WorkflowGenerator._create_validation_flow`: validation function node,
IF branch and error-logging node, with the IF's false output wired to the
error node.  Returns (nodes, connections, new position, success node name,
error node name). -/
def createValidationFlow (pos : Int × Int) (g : Nat → String) (k : Nat) :
    List GNode × GConns × (Int × Int) × String × String × Nat :=
  let validateNode : GNode :=
    { id := g k, name := "Validate Data", type := "n8n-nodes-base.function",
      typeVersion := 1, position := [pos.1, pos.2],
      parameters := JVal.jobj [("functionCode", JVal.jstr validateFunctionCode)] }
  let k := k + 1
  let ifPos : Int × Int := (pos.1 + spacingX, pos.2)
  let ifNode : GNode :=
    { id := g k, name := "Is Valid?", type := "n8n-nodes-base.if",
      typeVersion := 1, position := [ifPos.1, ifPos.2],
      parameters := JVal.jobj
        [("conditions", JVal.jobj
          [("boolean", JVal.jarr
            [JVal.jobj
              [("value1", JVal.jstr "=\x7b\x7b$json.validation.is_valid\x7d\x7d"),
               ("value2", JVal.jbool true)]])])] }
  let k := k + 1
  let conns : GConns := connectNodes [] validateNode.name ifNode.name
  let errPos : Int × Int := (ifPos.1 + spacingX, ifPos.2 + spacingY)
  let errorNode : GNode :=
    { id := g k, name := "Log Validation Error", type := "n8n-nodes-base.function",
      typeVersion := 1, position := [errPos.1, errPos.2],
      parameters := JVal.jobj [("functionCode", JVal.jstr logValidationErrorCode)] }
  let k := k + 1
  let conns :=
    if (alistGet conns ifNode.name).isSome then conns
    else conns ++ [(ifNode.name, ([("main", [[], []])] : GConnData))]
  let conns := alistModify conns ifNode.name (fun data =>
    alistModify data "main" (fun lists =>
      listSetAt lists 1 [{ node := errorNode.name, type := "main", index := 0 }]))
  ([validateNode, ifNode, errorNode], conns, (ifPos.1 + spacingX, ifPos.2),
   ifNode.name, errorNode.name, k)

/-- `WorkflowGenerator._create_duplicate_check_flow`: database lookup node
plus IF node.  Returns (nodes, connections, new position, new-record node
name). -/
def createDuplicateCheckFlow (req : Requirements) (pos : Int × Int)
    (g : Nat → String) (k : Nat) :
    List GNode × GConns × (Int × Int) × String × Nat :=
  let database := req.database.getD "postgres"
  let checkNode : GNode :=
    { id := g k, name := "Check for Duplicates", type := "n8n-nodes-base." ++ database,
      typeVersion := 1, position := [pos.1, pos.2],
      parameters := JVal.jobj
        [("operation", JVal.jstr "executeQuery"),
         ("query", JVal.jstr "SELECT id FROM records WHERE email = $1 LIMIT 1"),
         ("additionalFields", JVal.jobj
           [("queryParameters", JVal.jstr "=\x7b\x7b$json.email\x7d\x7d")])],
      credentials := some (JVal.jobj
        [(database, JVal.jobj
          [("id", JVal.jstr "1"),
           ("name", JVal.jstr (pyTitle database ++ " Database (to be configured)"))])]) }
  let k := k + 1
  let ifPos : Int × Int := (pos.1 + spacingX, pos.2)
  let ifNode : GNode :=
    { id := g k, name := "Is New Record?", type := "n8n-nodes-base.if",
      typeVersion := 1, position := [ifPos.1, ifPos.2],
      parameters := JVal.jobj
        [("conditions", JVal.jobj
          [("number", JVal.jarr
            [JVal.jobj
              [("value1", JVal.jstr "=\x7b\x7b$json.length || 0\x7d\x7d"),
               ("operation", JVal.jstr "equal"),
               ("value2", JVal.jnum 0)]])])] }
  let k := k + 1
  let conns : GConns := connectNodes [] checkNode.name ifNode.name
  ([checkNode, ifNode], conns, (ifPos.1 + spacingX, ifPos.2), ifNode.name, k)

/-- `WorkflowGenerator._create_scoring_node`. -/
def createScoringNode (pos : Int × Int) (g : Nat → String) (k : Nat) :
    GNode × (Int × Int) × Nat :=
  ({ id := g k, name := "Calculate Score", type := "n8n-nodes-base.function",
     typeVersion := 1, position := [pos.1, pos.2],
     parameters := JVal.jobj [("functionCode", JVal.jstr scoringFunctionCode)] : GNode },
   (pos.1 + spacingX, pos.2), k + 1)

/-- A priority-path Set node of `WorkflowGenerator._create_branching_flow`. -/
def mkPriorityNode (id : String) (name level speed : String) (pos : Int × Int) :
    GNode :=
  { id := id, name := name, type := "n8n-nodes-base.set", typeVersion := 1,
    position := [pos.1, pos.2],
    parameters := JVal.jobj
      [("values", JVal.jobj
        [("string", JVal.jarr
          [JVal.jobj [("name", JVal.jstr "priority_level"), ("value", JVal.jstr level)],
           JVal.jobj [("name", JVal.jstr "processing_speed"), ("value", JVal.jstr speed)]])])] }

/-- `WorkflowGenerator._create_branching_flow`: a priority Switch, three Set
paths and a Merge.  Returns (nodes, connections, new position, merge node
name). -/
def createBranchingFlow (pos : Int × Int) (g : Nat → String) (k : Nat) :
    List GNode × GConns × (Int × Int) × String × Nat :=
  let switchNode : GNode :=
    { id := g k, name := "Route by Priority", type := "n8n-nodes-base.switch",
      typeVersion := 1, position := [pos.1, pos.2],
      parameters := JVal.jobj
        [("mode", JVal.jstr "rules"),
         ("rules", JVal.jobj
           [("rules", JVal.jarr
             [JVal.jobj
               [("value1", JVal.jstr "=\x7b\x7b$json.score\x7d\x7d"),
                ("operation", JVal.jstr "largerEqual"),
                ("value2", JVal.jnum 80), ("output", JVal.jnum 0)],
              JVal.jobj
               [("value1", JVal.jstr "=\x7b\x7b$json.score\x7d\x7d"),
                ("operation", JVal.jstr "largerEqual"),
                ("value2", JVal.jnum 50), ("output", JVal.jnum 1)]])]),
         ("fallbackOutput", JVal.jnum 2)] }
  let k := k + 1
  let highNode := mkPriorityNode (g k) "High Priority Processing" "high" "immediate"
    (pos.1 + spacingX, pos.2 - spacingY)
  let k := k + 1
  let medNode := mkPriorityNode (g k) "Medium Priority Processing" "medium" "standard"
    (pos.1 + spacingX, pos.2)
  let k := k + 1
  let lowNode := mkPriorityNode (g k) "Low Priority Processing" "low" "batched"
    (pos.1 + spacingX, pos.2 + spacingY)
  let k := k + 1
  let conns : GConns :=
    [(switchNode.name,
      ([("main",
        [[{ node := highNode.name, type := "main", index := 0 }],
         [{ node := medNode.name, type := "main", index := 0 }],
         [{ node := lowNode.name, type := "main", index := 0 }]])] : GConnData))]
  let mergePos : Int × Int := (pos.1 + spacingX * 2, pos.2)
  let mergeNode : GNode :=
    { id := g k, name := "Merge Paths", type := "n8n-nodes-base.merge",
      typeVersion := 1, position := [mergePos.1, mergePos.2],
      parameters := JVal.jobj [("mode", JVal.jstr "append")] }
  let k := k + 1
  let conns := connectNodes conns highNode.name mergeNode.name
  let conns := connectNodes conns medNode.name mergeNode.name
  let conns := connectNodes conns lowNode.name mergeNode.name
  ([switchNode, highNode, medNode, lowNode, mergeNode], conns,
   (mergePos.1 + spacingX, pos.2), mergeNode.name, k)

/-- `WorkflowGenerator._create_action_nodes`: one primary output node chosen
by the first entry of `outputs` (default email). -/
def createActionNodes (req : Requirements) (pos : Int × Int) (g : Nat → String)
    (k : Nat) : GNode × GConns × (Int × Int) × Nat :=
  let outputs := req.outputs.getD ["email"]
  let primaryOutput := if outputs.isEmpty then "email" else outputs.headD "email"
  let node : GNode :=
    if primaryOutput == "email" then
      { id := g k, name := "Send Email", type := "n8n-nodes-base.gmail",
        typeVersion := 1, position := [pos.1, pos.2],
        parameters := JVal.jobj
          [("resource", JVal.jstr "message"), ("operation", JVal.jstr "send"),
           ("sendTo", JVal.jstr "=\x7b\x7b$json.email\x7d\x7d"),
           ("subject", JVal.jstr "=\x7b\x7b$json.subject || 'Workflow Notification'\x7d\x7d"),
           ("message", JVal.jstr "=\x7b\x7b$json.body || $json.message\x7d\x7d")],
        credentials := some (JVal.jobj
          [("gmailOAuth2", JVal.jobj
            [("id", JVal.jstr "1"),
             ("name", JVal.jstr "Gmail account (to be configured)")])]) }
    else if primaryOutput == "slack" then
      { id := g k, name := "Post to Slack", type := "n8n-nodes-base.slack",
        typeVersion := 1, position := [pos.1, pos.2],
        parameters := JVal.jobj
          [("resource", JVal.jstr "message"), ("operation", JVal.jstr "post"),
           ("channel", JVal.jstr "#general"),
           ("text", JVal.jstr "=\x7b\x7b$json.message\x7d\x7d")],
        credentials := some (JVal.jobj
          [("slackApi", JVal.jobj
            [("id", JVal.jstr "2"),
             ("name", JVal.jstr "Slack API (to be configured)")])]) }
    else if primaryOutput == "database" then
      let database := req.database.getD "postgres"
      { id := g k, name := "Save to Database", type := "n8n-nodes-base." ++ database,
        typeVersion := 1, position := [pos.1, pos.2],
        parameters := JVal.jobj
          [("operation", JVal.jstr "insert"),
           ("table", JVal.jstr "workflow_results")],
        credentials := some (JVal.jobj
          [(database, JVal.jobj
            [("id", JVal.jstr "1"),
             ("name", JVal.jstr (pyTitle database ++ " (to be configured)"))])]) }
    else
      { id := g k, name := "Send to Webhook", type := "n8n-nodes-base.httpRequest",
        typeVersion := 1, position := [pos.1, pos.2],
        parameters := JVal.jobj
          [("method", JVal.jstr "POST"),
           ("url", JVal.jstr "=\x7b\x7b$json.webhook_url\x7d\x7d"),
           ("options", JVal.jobj [])] }
  (node, ([] : GConns), (pos.1 + spacingX, pos.2), k + 1)

/-- `WorkflowGenerator._create_logging_node`. -/
def createLoggingNode (req : Requirements) (pos : Int × Int) (g : Nat → String)
    (k : Nat) : GNode × (Int × Int) × Nat :=
  let database := req.database.getD "postgres"
  ({ id := g k, name := "Log to Database", type := "n8n-nodes-base." ++ database,
     typeVersion := 1, position := [pos.1, pos.2],
     parameters := JVal.jobj
       [("operation", JVal.jstr "insert"),
        ("table", JVal.jstr "workflow_logs"),
        ("columns", JVal.jstr "workflow_id,execution_id,data,timestamp"),
        ("additionalFields", JVal.jobj [])],
     credentials := some (JVal.jobj
       [(database, JVal.jobj
         [("id", JVal.jstr "1"),
          ("name", JVal.jstr (pyTitle database ++ " (to be configured)"))])]) : GNode },
   (pos.1 + spacingX, pos.2), k + 1)

/-- `WorkflowGenerator._create_notification_nodes`, in the `Except` monad:
when `"slack"` is not among the outputs the source evaluates
`requirements.get("needs_notification", "").lower()`, which raises
`AttributeError` on a non-string value (e.g. `True`). -/
def createNotificationNodes (req : Requirements) (pos : Int × Int)
    (g : Nat → String) (k : Nat) :
    Except String (List GNode × GConns × (Int × Int) × Nat) := do
  let outputs := req.outputs.getD []
  let cond ←
    if outputs.contains "slack" then Except.ok true
    else
      match req.needsNotification with
      | .strV s => Except.ok (strContains (strToLower s) "notification")
      | .noneV => Except.ok (strContains "" "notification")
      | .boolV _ => Except.error "AttributeError: lower"
  let nodes : List GNode :=
    if cond then
      [{ id := g k, name := "Notify Slack", type := "n8n-nodes-base.slack",
         typeVersion := 1, position := [pos.1, pos.2],
         parameters := JVal.jobj
           [("resource", JVal.jstr "message"), ("operation", JVal.jstr "post"),
            ("channel", JVal.jstr "#notifications"),
            ("text", JVal.jstr "Workflow completed successfully for: name or email")],
         credentials := some (JVal.jobj
           [("slackApi", JVal.jobj
             [("id", JVal.jstr "2"),
              ("name", JVal.jstr "Slack API (to be configured)")])]) }]
    else []
  let k := if cond then k + 1 else k
  Except.ok (nodes, ([] : GConns), (pos.1 + spacingX, pos.2), k)

/-- `WorkflowGenerator._create_error_workflow`: error trigger plus
error-details logger (plus an admin alert when `needs_error_alerts`),
positioned below the main flow. -/
def createErrorWorkflow (req : Requirements) (g : Nat → String) (k : Nat) :
    List GNode × GConns × Nat :=
  let errorTrigger : GNode :=
    { id := g k, name := "Error Trigger", type := "n8n-nodes-base.errorTrigger",
      typeVersion := 1, position := [positionX, positionY + 400],
      parameters := JVal.jobj [] }
  let k := k + 1
  let logError : GNode :=
    { id := g k, name := "Log Error Details", type := "n8n-nodes-base.function",
      typeVersion := 1, position := [positionX + spacingX, positionY + 400],
      parameters := JVal.jobj [("functionCode", JVal.jstr logErrorDetailsCode)] }
  let k := k + 1
  let conns : GConns := connectNodes [] errorTrigger.name logError.name
  if req.needsErrorAlerts then
    let alertNode : GNode :=
      { id := g k, name := "Alert Admin", type := "n8n-nodes-base.gmail",
        typeVersion := 1, position := [positionX + spacingX * 2, positionY + 400],
        parameters := JVal.jobj
          [("resource", JVal.jstr "message"), ("operation", JVal.jstr "send"),
           ("sendTo", JVal.jstr "admin@company.com"),
           ("subject", JVal.jstr "Workflow Error Alert"),
           ("message", JVal.jstr
             "Error in workflow \x7b\x7b$json.workflow_id\x7d\x7d: \x7b\x7b$json.error_message\x7d\x7d")],
        credentials := some (JVal.jobj
          [("gmailOAuth2", JVal.jobj
            [("id", JVal.jstr "1"),
             ("name", JVal.jstr "Gmail account (to be configured)")])]) }
    let k := k + 1
    ([errorTrigger, logError, alertNode],
     connectNodes conns logError.name alertNode.name, k)
  else
    ([errorTrigger, logError], conns, k)

/-- Python `str.split()` with no argument: split on whitespace runs,
dropping empty pieces. -/
def pySplitWs (s : String) : List String :=
  (s.split (fun c => c.isWhitespace)).filter (fun piece => piece != "")

/-- `WorkflowGenerator._generate_workflow_name`, in the `Except` monad: with
no conversation the source evaluates
`requirements.get("outputs", ["processing"])[0]`, which raises `IndexError`
when `outputs` is present but empty. -/
def generateWorkflowName (req : Requirements) (conv : Option ConversationState) :
    Except String String :=
  match conv with
  | some c =>
      let words := (pySplitWs c.initialRequest).take 5
      Except.ok (pyTitle (String.intercalate " " words) ++ " Workflow")
  | none => do
      let trigger := req.trigger.getD "workflow"
      let action ← listGetE (req.outputs.getD ["processing"]) 0
      Except.ok (pyTitle trigger ++ " to " ++ pyTitle action ++ " Workflow")

/-- The workflow dict returned by `WorkflowGenerator.generate`. -/
structure GWorkflow where
  name : String
  nodes : List GNode
  connections : GConns
  active : Bool
  settings : JVal
  meta : JVal

/-- The local state of `WorkflowGenerator.generate`: accumulated nodes and
connections, the layout cursor, the name of the stage-exit node
(`last_node`), and the UUID counter. -/
structure GenState where
  nodes : List GNode
  conns : GConns
  pos : Int × Int
  lastName : String
  k : Nat

/-- A never-used default node (`List.headD` fallback for the concrete
non-empty node lists returned by the sub-flow builders, which the source
indexes with `[0]`). -/
def defaultGNode : GNode :=
  { id := "", name := "", type := "", typeVersion := 1, position := [0, 0],
    parameters := JVal.jobj [] }

/-- Step 1 of `WorkflowGenerator.generate`: the trigger node seeds the state. -/
def genStageTrigger (req : Requirements) (g : Nat → String) : GenState :=
  let (triggerNode, pos, k) := createTriggerNode req (positionX, positionY) g 0
  { nodes := [triggerNode], conns := [], pos := pos,
    lastName := triggerNode.name, k := k }

/-- Step 2 of `WorkflowGenerator.generate`: optional authentication node. -/
def genStageAuth (req : Requirements) (g : Nat → String) (s : GenState) : GenState :=
  if req.needsAuth then
    let (authNode, pos, k) := createAuthNode s.pos g s.k
    { nodes := s.nodes ++ [authNode],
      conns := connectNodes s.conns s.lastName authNode.name,
      pos := pos, lastName := authNode.name, k := k }
  else s

/-- Step 3 of `WorkflowGenerator.generate`: optional validation flow; the
previous exit connects to `validation_nodes[0]` and the IF node becomes the
exit. -/
def genStageValidation (req : Requirements) (g : Nat → String) (s : GenState) :
    GenState :=
  if req.needsValidation then
    let (vNodes, vConns, pos, successName, _errorName, k) :=
      createValidationFlow s.pos g s.k
    let conns := mergeConnections s.conns vConns
    let conns := connectNodes conns s.lastName (vNodes.headD defaultGNode).name
    { nodes := s.nodes ++ vNodes, conns := conns, pos := pos,
      lastName := successName, k := k }
  else s

/-- Step 4 of `WorkflowGenerator.generate`: optional duplicate check. -/
def genStageDuplicate (req : Requirements) (g : Nat → String) (s : GenState) :
    GenState :=
  if req.needsDuplicateCheck then
    let (dNodes, dConns, pos, newName, k) := createDuplicateCheckFlow req s.pos g s.k
    let conns := mergeConnections s.conns dConns
    let conns := connectNodes conns s.lastName (dNodes.headD defaultGNode).name
    { nodes := s.nodes ++ dNodes, conns := conns, pos := pos,
      lastName := newName, k := k }
  else s

/-- Step 5 of `WorkflowGenerator.generate`: optional scoring node. -/
def genStageScoring (req : Requirements) (g : Nat → String) (s : GenState) :
    GenState :=
  if req.needsScoring then
    let (scoringNode, pos, k) := createScoringNode s.pos g s.k
    { nodes := s.nodes ++ [scoringNode],
      conns := connectNodes s.conns s.lastName scoringNode.name,
      pos := pos, lastName := scoringNode.name, k := k }
  else s

/-- Step 6 of `WorkflowGenerator.generate`: optional branch-and-merge flow
(also triggered by complexity above 6). -/
def genStageBranching (req : Requirements) (complexity : Int) (g : Nat → String)
    (s : GenState) : GenState :=
  if req.hasBranching || complexity > 6 then
    let (bNodes, bConns, pos, mergeName, k) := createBranchingFlow s.pos g s.k
    let conns := mergeConnections s.conns bConns
    let conns := connectNodes conns s.lastName (bNodes.headD defaultGNode).name
    { nodes := s.nodes ++ bNodes, conns := conns, pos := pos,
      lastName := mergeName, k := k }
  else s

/-- Step 7 of `WorkflowGenerator.generate`: the primary action node (always
present). -/
def genStageAction (req : Requirements) (g : Nat → String) (s : GenState) :
    GenState :=
  let (actionNode, actionConns, pos, k) := createActionNodes req s.pos g s.k
  let conns := mergeConnections s.conns actionConns
  let conns := connectNodes conns s.lastName actionNode.name
  { nodes := s.nodes ++ [actionNode], conns := conns, pos := pos,
    lastName := actionNode.name, k := k }

/-- Step 8 of `WorkflowGenerator.generate`: optional audit-log node (also
triggered by complexity above 5). -/
def genStageLogging (req : Requirements) (complexity : Int) (g : Nat → String)
    (s : GenState) : GenState :=
  if req.needsLogging || complexity > 5 then
    let (logNode, pos, k) := createLoggingNode req s.pos g s.k
    { nodes := s.nodes ++ [logNode],
      conns := connectNodes s.conns s.lastName logNode.name,
      pos := pos, lastName := logNode.name, k := k }
  else s

/-- Step 9 of `WorkflowGenerator.generate`: optional notification nodes; the
source indexes `notif_nodes[0]`, which raises when the list is empty, and
`_create_notification_nodes` itself can raise (see there). -/
def genStageNotification (req : Requirements) (g : Nat → String) (s : GenState) :
    Except String GenState :=
  if req.needsNotification.truthy then do
    let (nNodes, nConns, _pos, k) ← createNotificationNodes req s.pos g s.k
    let conns := mergeConnections s.conns nConns
    let firstNotif ← listGetE nNodes 0
    let conns := connectNodes conns s.lastName firstNotif.name
    Except.ok { s with nodes := s.nodes ++ nNodes, conns := conns, k := k }
  else Except.ok s

/-- Step 10 of `WorkflowGenerator.generate`: optional out-of-band error
workflow (no connection from the main flow). -/
def genStageErrors (req : Requirements) (g : Nat → String) (s : GenState) :
    GenState :=
  if req.needsErrorHandling then
    let (eNodes, eConns, k) := createErrorWorkflow req g s.k
    { s with nodes := s.nodes ++ eNodes,
             conns := mergeConnections s.conns eConns, k := k }
  else s

/-- `WorkflowGenerator.generate`: fixed-order, stage-by-stage assembly of a
workflow from the requirements record.  UUID draws follow source order; the
`Except` monad carries the raising paths (notification nodes and name
generation). -/
def generate (req : Requirements) (conv : Option ConversationState)
    (g : Nat → String) : Except String GWorkflow := do
  let complexity := calculateComplexity req
  let s := genStageTrigger req g
  let s := genStageAuth req g s
  let s := genStageValidation req g s
  let s := genStageDuplicate req g s
  let s := genStageScoring req g s
  let s := genStageBranching req complexity g s
  let s := genStageAction req g s
  let s := genStageLogging req complexity g s
  let s ← genStageNotification req g s
  let s := genStageErrors req g s
  let workflowName ← generateWorkflowName req conv
  return {
    name := workflowName,
    nodes := s.nodes,
    connections := s.conns,
    active := false,
    settings := JVal.jobj [("executionOrder", JVal.jstr "v1")],
    meta := JVal.jobj
      [("generatedBy", JVal.jstr "n8n-flow-generator"),
       ("version", JVal.jstr "2.0"),
       ("complexity", JVal.jnum complexity),
       ("nodeCount", JVal.jnum (s.nodes.length : Int))] }

/-! Concrete example inputs used by counterexamples and witnesses. -/

/-- A typed workflow whose single node has a type outside the registry
catalog (and outside the `n8n-nodes-base.` prefix). -/
def c1Workflow : WorkflowJSON :=
  { name := "Demo",
    nodes := [{ id := "1", name := "Node A", type := "custom.foo",
                typeVersion := 1, position := [0, 0], parameters := [] }],
    connections := [] }

/-- A workflow whose single node is an empty dict (no `name`, no `type`). -/
def c2Workflow : PyWorkflow := { nodes := some [(({} : PyNode))] }

/-- Sufficient input condition under which the quality validator's raw
subscripts cannot fire: every node carries `name` and `type`, every
connection target entry carries `node`. -/
def qvalidateSafeInput (w : PyWorkflow) : Bool :=
  (w.nodes.getD []).all (fun n => n.name.isSome && n.type.isSome) &&
  (w.connections.getD []).all (fun e =>
    e.2.all (fun ct => ct.2.all (fun l => l.all (fun c => c.node.isSome))))

/-- A five-node workflow (Set nodes only), for the node-count scenario. -/
def c7Workflow : PyWorkflow :=
  { nodes := some
      [{ name := some "A1", type := some "n8n-nodes-base.set" },
       { name := some "A2", type := some "n8n-nodes-base.set" },
       { name := some "A3", type := some "n8n-nodes-base.set" },
       { name := some "A4", type := some "n8n-nodes-base.set" },
       { name := some "A5", type := some "n8n-nodes-base.set" }],
    connections := some [] }

/-- `QualityValidator._check_credentials` counts this node as unbound: a
Slack node with no `credentials` key. -/
def c8Node : PyNode :=
  { name := some "Post", type := some "n8n-nodes-base.slack",
    parameters := some [("resource", JVal.jstr "message")] }

/-- One-node workflow with an unbound credential-requiring node. -/
def c8Workflow : PyWorkflow := { nodes := some [c8Node], connections := some [] }

/-- Adding a correct credential binding (the exact credential kind the
node's type expects) to a node, leaving everything else unchanged. -/
def addCredentialBinding (n : PyNode) (v : JVal) : PyNode :=
  match getCredentialType (n.type.getD "") with
  | some ct => { n with credentials := some ((n.credentials.getD []) ++ [(ct, v)]) }
  | none => n

/-- Replace the node at index `i`, leaving the rest of the workflow
unchanged. -/
def setNodeAt (w : PyWorkflow) (i : Nat) (n : PyNode) : PyWorkflow :=
  { w with nodes := some ((w.nodes.getD []).set i n) }

/-- The sticky-note target of the repair's documentation pass
(`_add_documentation`): 8 for `complex`, else the configured minimum. -/
def docTarget (complexity : String) : Nat :=
  if complexity == "complex" then 8 else minStickyNotes

/-- All target names appearing in a dynamic connection map (key presence
ignored; used only to state graph hypotheses). -/
def connTargetNames
    (conns : List (String × List (String × List (List PyConnEntry)))) :
    List String :=
  conns.flatMap (fun e =>
    e.2.flatMap (fun ct => ct.2.flatMap (fun l => l.filterMap PyConnEntry.node)))

/-- A node is fully populated for the repair pass: structural fields
present, non-empty parameters, the credential binding its type requires, and
the recommended error-policy keys when its type calls for them. -/
def nodeFullyPopulated (n : PyNode) : Bool :=
  n.id.isSome && n.name.isSome && n.position.isSome && n.typeVersion.isSome &&
  (match n.parameters with
   | some ps => !ps.isEmpty
   | none => false) &&
  (!requiresCredentials (n.type.getD "") || nodeHasProperCredentials n) &&
  (let t := n.type.getD ""
   strEndsWith t "Trigger" || t == "n8n-nodes-base.stickyNote" ||
   !needsErrorHandling t ||
   (n.onError.isSome && n.retryOnFail.isSome && n.maxTries.isSome))

/-- A workflow graph is fully populated and fully connected for the repair
pass at a given tier: all top-level keys present, every node fully
populated, at least the documentation minimum of sticky notes, and every
non-trigger non-sticky node receiving a connection. -/
def fullyPopulated (complexity : String) (w : PyWorkflow) : Bool :=
  w.name.isSome && w.nodes.isSome && w.connections.isSome &&
  w.active.isSome && w.settings.isSome &&
  (w.nodes.getD []).all nodeFullyPopulated &&
  ((w.nodes.getD []).filter
    (fun n => n.type == some "n8n-nodes-base.stickyNote")).length ≥
      docTarget complexity &&
  (w.nodes.getD []).all (fun n =>
    !isProcessable n || (connTargetNames (w.connections.getD [])).contains (n.name.getD ""))

/-- A fully populated, fully connected workflow: a webhook trigger feeding a
Set node, five sticky notes. -/
def c3Workflow : PyWorkflow :=
  { name := some "Ready",
    nodes := some
      ([{ id := some "t", name := some "Hook", type := some "n8n-nodes-base.webhookTrigger",
          typeVersion := some 1, position := some [0, 0],
          parameters := some [("path", JVal.jstr "x")] },
        { id := some "s", name := some "Shape", type := some "n8n-nodes-base.set",
          typeVersion := some 1, position := some [220, 0],
          parameters := some [("values", JVal.jobj [])] }] ++
       (List.range 5).map (fun i =>
        { id := some ("n" ++ toString i),
          name := some ("Note " ++ toString i),
          type := some "n8n-nodes-base.stickyNote",
          typeVersion := some 1, position := some [0, 200],
          parameters := some [("content", JVal.jstr "doc")] : PyNode })),
    connections := some
      [("Hook", [("main", [[{ node := some "Shape", type := some "main",
                              index := some 0 }]])])],
    active := some false,
    settings := some (JVal.jobj [("executionOrder", JVal.jstr "v1")]) }

/-- The raw candidate of the all-zero-score scenario: an OpenAI node with an
empty credentials dict, empty parameters and no connections. -/
def c6Gadget : PyWorkflow :=
  { nodes := some
      [{ name := some "A", type := some "n8n-nodes-base.openAi",
         credentials := some [], parameters := some [] }],
    connections := some [] }

/-- A concrete UUID stream for counterexamples. -/
def uuidStream : Nat → String :=
  fun n => "uuid-" ++ toString n

/-- The workflow the repair pass produces from the all-zero-score candidate
(extracted from the pipeline itself). -/
def c6Repaired : PyWorkflow :=
  match validateAndRefine uuidStream 0 c6Gadget "standard" with
  | .ok p => p.1
  | .error _ => {}

/-- The acceptance condition of the pipeline loop
(`quality_result['valid'] and quality_result['score'] >= 80`). -/
def acceptsResult (qr : QualityResult) : Bool :=
  qr.valid && decide (qr.score ≥ minQualityScore)

/-- The score an attempt outcome contributes (0 for a missing candidate). -/
def scoreOf (o : Option (PyWorkflow × QualityResult)) : Nat :=
  match o with
  | some p => p.2.score
  | none => 0

/-- The score of the j-th attempt outcome. -/
def scoreAt (outs : List (Option (PyWorkflow × QualityResult))) (j : Nat) : Nat :=
  match outs.get? j with
  | some o => scoreOf o
  | none => 0

/-- The maximum score over a run's attempt outcomes. -/
def maxScoreOf (outs : List (Option (PyWorkflow × QualityResult))) : Nat :=
  (outs.map scoreOf).foldr max 0

/-- The best-candidate tracking of `EnhancedWorkflowGenerator.generate`
(update on strictly greater score), folded over the attempt outcomes. -/
def bestFold : Nat × Option PyWorkflow → List (Option (PyWorkflow × QualityResult)) →
    Nat × Option PyWorkflow
  | acc, [] => acc
  | acc, none :: rest => bestFold acc rest
  | (bs, bw), some (w, qr) :: rest =>
      bestFold (if qr.score > bs then (qr.score, some w) else (bs, bw)) rest

/-- `TracksFrom synth g c attempt k outs` relates an oracle run of the
pipeline loop, starting at the given attempt number and UUID counter, to the
list `outs` of per-attempt outcomes: `none` for a failed synthesis, and
`some (w, qr)` for a candidate whose repair produced `w` with quality report
`qr`.  It also records that the repair and scoring steps did not raise, and
that feedback generation succeeds wherever the loop computes it. -/
def TracksFrom (synth : Nat → Option PyWorkflow) (g : Nat → String)
    (complexity : String) :
    Nat → Nat → List (Option (PyWorkflow × QualityResult)) → Prop
  | _, _, [] => True
  | attempt, k, o :: rest =>
      match synth attempt with
      | none => o = none ∧ TracksFrom synth g complexity (attempt + 1) k rest
      | some raw => ∃ w k2 qr,
          validateAndRefine g k raw complexity = Except.ok (w, k2) ∧
          qvalidate w complexity = Except.ok qr ∧
          o = some (w, qr) ∧
          (attempt < maxGenerationAttempts - 1 → acceptsResult qr = false →
            ∃ fb, generateFeedback qr = Except.ok fb) ∧
          TracksFrom synth g complexity (attempt + 1) k2 rest

/-- Erase the UUID-drawn fields of a generator node (`id`, `webhookId`). -/
def eraseNodeIds (n : GNode) : GNode :=
  { n with id := "", webhookId := none }

/-- The id-erased observable part of a generator state: nodes (without ids),
connections, layout cursor and exit-node name. -/
def eraseS (s : GenState) : List GNode × GConns × (Int × Int) × String :=
  (s.nodes.map eraseNodeIds, s.conns, s.pos, s.lastName)

/-- Erase the node ids of a generated workflow. -/
def eraseGW (w : GWorkflow) : GWorkflow :=
  { w with nodes := w.nodes.map eraseNodeIds }

/-- Flatten the target node names out of a per-type output-list list. -/
def targetsOfLists (lists : List (List GTarget)) : List String :=
  lists.foldr (fun lst acc => lst.map GTarget.node ++ acc) []

/-- Flatten the target node names out of one source entry's connection
dict. -/
def targetsOfData (d : GConnData) : List String :=
  d.foldr (fun ct acc => targetsOfLists ct.2 ++ acc) []

/-- All source node names of a generator connection map. -/
def gConnSources (conns : GConns) : List String := conns.map Prod.fst

/-- All target node names of a generator connection map. -/
def gConnTargets (conns : GConns) : List String :=
  conns.foldr (fun e acc => targetsOfData e.2 ++ acc) []

/-- The display name of the trigger node `_create_trigger_node` returns. -/
def triggerNameOf (req : Requirements) : String :=
  let t := req.trigger.getD "webhook"
  if t == "webhook" then "Webhook Trigger"
  else if t == "schedule" then "Schedule Trigger"
  else if t == "email" then "Email Trigger"
  else "Manual Trigger"

/-- The display name of the action node `_create_action_nodes` returns. -/
def actionNameOf (req : Requirements) : String :=
  let outputs := req.outputs.getD ["email"]
  let p := if outputs.isEmpty then "email" else outputs.headD "email"
  if p == "email" then "Send Email"
  else if p == "slack" then "Post to Slack"
  else if p == "database" then "Save to Database"
  else "Send to Webhook"

/-- The node display names `generate` produces for a requirements record, in
stage order. -/
def genNamesOf (req : Requirements) : List String :=
  [triggerNameOf req]
  ++ (if req.needsAuth then ["Validate API Key"] else [])
  ++ (if req.needsValidation then
        ["Validate Data", "Is Valid?", "Log Validation Error"] else [])
  ++ (if req.needsDuplicateCheck then
        ["Check for Duplicates", "Is New Record?"] else [])
  ++ (if req.needsScoring then ["Calculate Score"] else [])
  ++ (if req.hasBranching || calculateComplexity req > 6 then
        ["Route by Priority", "High Priority Processing",
         "Medium Priority Processing", "Low Priority Processing", "Merge Paths"]
      else [])
  ++ [actionNameOf req]
  ++ (if req.needsLogging || calculateComplexity req > 5 then
        ["Log to Database"] else [])
  ++ (if req.needsNotification.truthy then ["Notify Slack"] else [])
  ++ (if req.needsErrorHandling then
        (if req.needsErrorAlerts then
          ["Error Trigger", "Log Error Details", "Alert Admin"]
         else ["Error Trigger", "Log Error Details"])
      else [])

/-- All node display names the generator can ever produce, in stage order;
names inside each stage segment are pairwise distinct across the whole
list. -/
def masterNames : List String :=
  ["Webhook Trigger", "Schedule Trigger", "Email Trigger", "Manual Trigger"]
  ++ ["Validate API Key"]
  ++ ["Validate Data", "Is Valid?", "Log Validation Error"]
  ++ ["Check for Duplicates", "Is New Record?"]
  ++ ["Calculate Score"]
  ++ ["Route by Priority", "High Priority Processing",
      "Medium Priority Processing", "Low Priority Processing", "Merge Paths"]
  ++ ["Send Email", "Post to Slack", "Save to Database", "Send to Webhook"]
  ++ ["Log to Database"]
  ++ ["Notify Slack"]
  ++ ["Error Trigger", "Log Error Details", "Alert Admin"]

/-- The generator-state invariant behind the data-model guarantees: every
connection source and target name refers to an accumulated node, and the
stage-exit name is an accumulated node. -/
def GoodState (s : GenState) : Prop :=
  (∀ x ∈ gConnSources s.conns, x ∈ s.nodes.map GNode.name) ∧
  (∀ x ∈ gConnTargets s.conns, x ∈ s.nodes.map GNode.name) ∧
  s.lastName ∈ s.nodes.map GNode.name

def c10Workflow : GWorkflow :=
  match generate {} none uuidStream with
  | .ok w => w
  | .error _ =>
      { name := "", nodes := [], connections := [], active := false,
        settings := JVal.jobj [], meta := JVal.jobj [] }

end NFlow

namespace NFlow

/-! ## Helper lemmas -/

@[simp]
theorem exceptBindOk {α β ε : Type} (a : α) (f : α → Except ε β) :
    (Except.ok a >>= f) = f a := rfl

@[simp]
theorem exceptMapOk {α β ε : Type} (a : α) (f : α → β) :
    (Except.ok a : Except ε α).map f = Except.ok (f a) := rfl

theorem anyE_ok {α : Type} (p : α → Except String Bool) (l : List α)
    (h : ∀ x ∈ l, ∃ b, p x = Except.ok b) : ∃ b, anyE p l = Except.ok b := by
  induction l with
  | nil => exact ⟨false, rfl⟩
  | cons x rest ih =>
      obtain ⟨b, hb⟩ := h x (List.mem_cons_self x rest)
      obtain ⟨b2, hb2⟩ := ih (fun y hy => h y (List.mem_cons_of_mem x hy))
      cases b with
      | true => exact ⟨true, by simp [anyE, hb]⟩
      | false => exact ⟨b2, by simp [anyE, hb, hb2]⟩

theorem collectNamesE_ok (p : PyNode → Bool) (l : List PyNode)
    (h : ∀ n ∈ l, n.name.isSome) : ∃ out, collectNamesE p l = Except.ok out := by
  induction l with
  | nil => exact ⟨[], rfl⟩
  | cons n rest ih =>
      obtain ⟨out, hout⟩ := ih (fun m hm => h m (List.mem_cons_of_mem n hm))
      have hn := h n (List.mem_cons_self n rest)
      obtain ⟨s, hs⟩ := Option.isSome_iff_exists.mp hn
      cases hp : p n with
      | true =>
          refine ⟨insertNew out s, ?_⟩
          simp [collectNamesE, hp, nodeNameE, hs, hout]
      | false =>
          refine ⟨out, ?_⟩
          simp [collectNamesE, hp, hout]

theorem goEntries_ok (l : List PyConnEntry) (h : ∀ c ∈ l, c.node.isSome) :
    ∃ out, collectConnTargetsE.goEntries l = Except.ok out := by
  induction l with
  | nil => exact ⟨[], rfl⟩
  | cons c rest ih =>
      obtain ⟨out, hout⟩ := ih (fun d hd => h d (List.mem_cons_of_mem c hd))
      obtain ⟨s, hs⟩ := Option.isSome_iff_exists.mp (h c (List.mem_cons_self c rest))
      exact ⟨insertNew out s, by simp [collectConnTargetsE.goEntries, connNodeE, hs, hout]⟩

theorem goLists_ok (l : List (List PyConnEntry))
    (h : ∀ cl ∈ l, ∀ c ∈ cl, c.node.isSome) :
    ∃ out, collectConnTargetsE.goLists l = Except.ok out := by
  induction l with
  | nil => exact ⟨[], rfl⟩
  | cons cl rest ih =>
      obtain ⟨out, hout⟩ := ih (fun x hx => h x (List.mem_cons_of_mem cl hx))
      obtain ⟨xs, hxs⟩ := goEntries_ok cl (h cl (List.mem_cons_self cl rest))
      exact ⟨xs.foldl insertNew out, by simp [collectConnTargetsE.goLists, hxs, hout]⟩

theorem goTypes_ok (l : List (String × List (List PyConnEntry)))
    (h : ∀ kv ∈ l, ∀ cl ∈ kv.2, ∀ c ∈ cl, c.node.isSome) :
    ∃ out, collectConnTargetsE.goTypes l = Except.ok out := by
  induction l with
  | nil => exact ⟨[], rfl⟩
  | cons kv rest ih =>
      obtain ⟨out, hout⟩ := ih (fun x hx => h x (List.mem_cons_of_mem kv hx))
      obtain ⟨xs, hxs⟩ := goLists_ok kv.2 (h kv (List.mem_cons_self kv rest))
      exact ⟨xs.foldl insertNew out, by simp [collectConnTargetsE.goTypes, hxs, hout]⟩

theorem goSources_ok (l : List (String × List (String × List (List PyConnEntry))))
    (h : ∀ e ∈ l, ∀ kv ∈ e.2, ∀ cl ∈ kv.2, ∀ c ∈ cl, c.node.isSome) :
    ∃ out, collectConnTargetsE.goSources l = Except.ok out := by
  induction l with
  | nil => exact ⟨[], rfl⟩
  | cons e rest ih =>
      obtain ⟨out, hout⟩ := ih (fun x hx => h x (List.mem_cons_of_mem e hx))
      obtain ⟨xs, hxs⟩ := goTypes_ok e.2 (h e (List.mem_cons_self e rest))
      exact ⟨xs.foldl insertNew out, by simp [collectConnTargetsE.goSources, hxs, hout]⟩

theorem checkConnections_ok (w : PyWorkflow)
    (hn : ∀ n ∈ w.nodes.getD [], n.name.isSome)
    (hc : ∀ e ∈ w.connections.getD [], ∀ kv ∈ e.2, ∀ cl ∈ kv.2, ∀ c ∈ cl,
      c.node.isSome) :
    ∃ r, checkConnections w = Except.ok r := by
  obtain ⟨names, hnames⟩ := collectNamesE_ok (fun _ => true) _ hn
  obtain ⟨trigs, htrigs⟩ :=
    collectNamesE_ok (fun n => strEndsWith (n.type.getD "") "Trigger") _ hn
  obtain ⟨sticks, hsticks⟩ :=
    collectNamesE_ok (fun n => n.type == some "n8n-nodes-base.stickyNote") _ hn
  obtain ⟨targets, htargets⟩ := goSources_ok _ hc
  simp only [checkConnections, collectConnTargetsE, hnames, htrigs, hsticks,
    htargets, exceptBindOk]
  exact ⟨_, rfl⟩

theorem checkFlowComplexity_ok (w : PyWorkflow) (complexity : String)
    (ht : ∀ n ∈ w.nodes.getD [], n.type.isSome) :
    ∃ r, checkFlowComplexity w complexity = Except.ok r := by
  have hp : ∀ s : String, ∀ n ∈ w.nodes.getD [],
      ∃ b, (do return (← nodeTypeE n) == s : Except String Bool) = Except.ok b := by
    intro s n hn
    obtain ⟨t, hts⟩ := Option.isSome_iff_exists.mp (ht n hn)
    exact ⟨t == s, by simp [nodeTypeE, hts]⟩
  obtain ⟨b1, h1⟩ := anyE_ok _ _ (hp "n8n-nodes-base.if")
  obtain ⟨b2, h2⟩ := anyE_ok _ _ (hp "n8n-nodes-base.switch")
  obtain ⟨b3, h3⟩ := anyE_ok _ _ (hp "n8n-nodes-base.merge")
  obtain ⟨b4, h4⟩ := anyE_ok _ _ (hp "n8n-nodes-base.set")
  simp only [checkFlowComplexity, h1, h2, h3, h4, exceptBindOk]
  exact ⟨_, rfl⟩

theorem exceptIsOk_exists {ε α : Type} (e : Except ε α) (h : e.isOk = true) :
    ∃ a, e = Except.ok a := by
  cases e with
  | ok a => exact ⟨a, rfl⟩
  | error err => exact nomatch h

theorem vConnEntryErrors_ok (nodeNames : List String)
    (entry : String × List (String × List (List WConn))) :
    ∃ out, vConnEntryErrors nodeNames entry = Except.ok out := by
  apply exceptIsOk_exists
  simp only [vConnEntryErrors]
  split
  · rfl
  · split
    · rename_i h2
      obtain ⟨v, hv⟩ := Option.isSome_iff_exists.mp h2
      simp only [dictGetE, hv, exceptBindOk]
      rfl
    · rfl

theorem vValidateConnectionsGo_ok (nodeNames : List String)
    (l : List (String × List (String × List (List WConn)))) :
    ∃ out, vValidateConnections.go nodeNames l = Except.ok out := by
  induction l with
  | nil => exact ⟨[], rfl⟩
  | cons e rest ih =>
      obtain ⟨out, hout⟩ := ih
      obtain ⟨errs, herrs⟩ := vConnEntryErrors_ok nodeNames e
      exact ⟨errs ++ out, by simp [vValidateConnections.go, herrs, hout]⟩

theorem countP_set_eq {α : Type} (p : α → Bool) :
    ∀ (l : List α) (i : Nat) (a b : α), l.get? i = some a → p a = p b →
      (l.set i b).countP p = l.countP p := by
  intro l
  induction l with
  | nil => intro i a b h; simp at h
  | cons x rest ih =>
      intro i a b h hpab
      cases i with
      | zero =>
          simp only [List.get?] at h
          cases h
          simp [List.set, List.countP_cons, hpab]
      | succ j =>
          simp only [List.get?] at h
          simp [List.set, List.countP_cons, ih j a b h hpab]

theorem countP_set_incr {α : Type} (p : α → Bool) :
    ∀ (l : List α) (i : Nat) (a b : α), l.get? i = some a → p a = false →
      p b = true → (l.set i b).countP p = l.countP p + 1 := by
  intro l
  induction l with
  | nil => intro i a b h; simp at h
  | cons x rest ih =>
      intro i a b h hpa hpb
      cases i with
      | zero =>
          simp only [List.get?] at h
          cases h
          simp [List.set, List.countP_cons, hpa, hpb]
      | succ j =>
          simp only [List.get?] at h
          simp [List.set, List.countP_cons, ih j a b h hpa hpb]
          omega

theorem addCredentialBinding_type (n : PyNode) (v : JVal) :
    (addCredentialBinding n v).type = n.type := by
  unfold addCredentialBinding
  cases getCredentialType (n.type.getD "") <;> rfl

theorem lookupSchema_mem (t : String) (s : NodeSchema) (h : lookupSchema t = some s) :
    ∃ kv ∈ schemas, kv.2 = s := by
  unfold lookupSchema alistGet at h
  cases hf : List.find? (fun kv => kv.1 == t) schemas with
  | none => rw [hf] at h; simp at h
  | some kv =>
      rw [hf] at h
      simp only [Option.some.injEq] at h
      exact ⟨kv, List.mem_of_find?_eq_some hf, h⟩

theorem requiresCredentials_lookup (t : String) (h : requiresCredentials t = true) :
    ∃ s, lookupSchema t = some s ∧ s.requiresCredentials = true := by
  unfold requiresCredentials at h
  cases hl : lookupSchema t with
  | none => rw [hl] at h; simp at h
  | some s => rw [hl] at h; exact ⟨s, rfl, h⟩

theorem requires_implies_credType (t : String)
    (h : requiresCredentials t = true) :
    ∃ ct, getCredentialType t = some ct ∧ (ct != "") = true := by
  obtain ⟨s, hl, hreq⟩ := requiresCredentials_lookup t h
  obtain ⟨kv, hmem, hkv⟩ := lookupSchema_mem t s hl
  have hall : ∀ kv2 ∈ schemas, (!kv2.2.requiresCredentials ||
      (match kv2.2.credentialType with
       | some ct => ct != ""
       | none => false)) = true := by decide
  have h2 := hall kv hmem
  rw [hkv, hreq] at h2
  simp only [Bool.not_true, Bool.false_or] at h2
  cases hct : s.credentialType with
  | none => rw [hct] at h2; simp at h2
  | some ct =>
      rw [hct] at h2
      refine ⟨ct, ?_, h2⟩
      unfold getCredentialType
      rw [hl]
      exact hct

theorem some_getD_of_isSome {α : Type} (o : Option α) (d : α) (h : o.isSome) :
    some (o.getD d) = o := by
  cases o with
  | none => simp at h
  | some x => rfl

theorem mapIdOfMem {α : Type} (f : α → α) :
    ∀ (l : List α), (∀ x ∈ l, f x = x) → l.map f = l := by
  intro l
  induction l with
  | nil => intro _; rfl
  | cons x rest ih =>
      intro h
      simp only [List.map_cons, h x (List.mem_cons_self x rest),
        ih (fun y hy => h y (List.mem_cons_of_mem x hy))]

theorem fixStructureNode_noop (g : Nat → String) (k : Nat) (n : PyNode)
    (h1 : n.id.isSome) (h2 : n.position.isSome) (h3 : n.parameters.isSome)
    (h4 : n.typeVersion.isSome) : fixStructureNode g k n = (n, k) := by
  obtain ⟨id0, nm, ty, tv, pos0, par, cr, oe, rof, cof, mt⟩ := n
  simp only [Option.isSome_iff_exists] at h1 h2 h3 h4
  obtain ⟨a, rfl⟩ := h1
  obtain ⟨b, rfl⟩ := h2
  obtain ⟨c, rfl⟩ := h3
  obtain ⟨d, rfl⟩ := h4
  rfl

theorem fixStructureNodes_noop (g : Nat → String) :
    ∀ (l : List PyNode) (k : Nat),
      (∀ n ∈ l, n.id.isSome ∧ n.position.isSome ∧ n.parameters.isSome ∧
        n.typeVersion.isSome) →
      fixStructureNodes g l k = (l, k) := by
  intro l
  induction l with
  | nil => intro k _; rfl
  | cons n rest ih =>
      intro k h
      obtain ⟨h1, h2, h3, h4⟩ := h n (List.mem_cons_self n rest)
      simp only [fixStructureNodes, fixStructureNode_noop g k n h1 h2 h3 h4,
        ih k (fun m hm => h m (List.mem_cons_of_mem n hm))]

theorem nodeFullyPopulated_fields (n : PyNode) (h : nodeFullyPopulated n = true) :
    n.id.isSome ∧ n.name.isSome ∧ n.position.isSome ∧ n.typeVersion.isSome ∧
    n.parameters.isSome := by
  simp only [nodeFullyPopulated, Bool.and_eq_true] at h
  refine ⟨h.1.1.1.1.1.1, h.1.1.1.1.1.2, h.1.1.1.1.2, h.1.1.1.2, ?_⟩
  have h5 := h.1.1.2
  cases hp : n.parameters with
  | none => rw [hp] at h5; simp at h5
  | some ps => rfl

theorem properCredentials_isSome (n : PyNode)
    (h : nodeHasProperCredentials n = true) : n.credentials.isSome := by
  unfold nodeHasProperCredentials at h
  cases hc : n.credentials with
  | none => rw [hc] at h; simp at h
  | some creds => rfl

theorem injectCredentialsNode_noop (n : PyNode)
    (h : (!requiresCredentials (n.type.getD "") || nodeHasProperCredentials n) = true) :
    injectCredentialsNode n = n := by
  unfold injectCredentialsNode
  cases hr : requiresCredentials (n.type.getD "") with
  | false => simp [hr]
  | true =>
      rw [hr] at h
      simp only [Bool.not_true, Bool.false_or] at h
      have hs := properCredentials_isSome n h
      obtain ⟨creds, hc⟩ := Option.isSome_iff_exists.mp hs
      simp [hc]

theorem addErrorHandlingNode_noop (n : PyNode)
    (h : (strEndsWith (n.type.getD "") "Trigger" ||
          (n.type.getD "") == "n8n-nodes-base.stickyNote" ||
          !needsErrorHandling (n.type.getD "") ||
          (n.onError.isSome && n.retryOnFail.isSome && n.maxTries.isSome)) = true) :
    addErrorHandlingNode n = n := by
  unfold addErrorHandlingNode
  by_cases h1 : (strEndsWith (n.type.getD "") "Trigger" ||
      ((n.type.getD "") == "n8n-nodes-base.stickyNote")) = true
  · simp [h1]
  · rw [if_neg h1]
    simp only [Bool.or_eq_true, not_or, Bool.not_eq_true] at h1
    obtain ⟨hA, hB⟩ := h1
    cases hne : needsErrorHandling (n.type.getD "") with
    | false => simp [hne]
    | true =>
        rw [hA, hB, hne] at h
        simp only [Bool.false_or, Bool.not_true, Bool.and_eq_true] at h
        obtain ⟨⟨hoe, hrf⟩, hmt⟩ := h
        obtain ⟨a, ha⟩ := Option.isSome_iff_exists.mp hoe
        obtain ⟨b, hb⟩ := Option.isSome_iff_exists.mp hrf
        obtain ⟨c, hc⟩ := Option.isSome_iff_exists.mp hmt
        simp only [hne, if_true]
        rw [ha, hb, hc]
        simp only [Option.getD_some]
        rw [← ha, ← hb, ← hc]

theorem fixStructure_noop (g : Nat → String) (k : Nat) (w : PyWorkflow)
    (hname : w.name.isSome) (hnodes : w.nodes.isSome) (hconns : w.connections.isSome)
    (hactive : w.active.isSome) (hsettings : w.settings.isSome)
    (hfields : ∀ n ∈ w.nodes.getD [], n.id.isSome ∧ n.position.isSome ∧
      n.parameters.isSome ∧ n.typeVersion.isSome) :
    fixStructure g k w = (w, k) := by
  obtain ⟨l, hl⟩ := Option.isSome_iff_exists.mp hnodes
  unfold fixStructure
  rw [hl] at hfields ⊢
  simp only [Option.getD_some] at hfields ⊢
  rw [fixStructureNodes_noop g l k hfields]
  rw [some_getD_of_isSome _ _ hname, some_getD_of_isSome _ _ hconns,
    some_getD_of_isSome _ _ hactive, some_getD_of_isSome _ _ hsettings, ← hl]

theorem injectCredentials_noop (w : PyWorkflow)
    (h : ∀ n ∈ w.nodes.getD [], (!requiresCredentials (n.type.getD "") ||
      nodeHasProperCredentials n) = true) :
    injectCredentials w = w := by
  unfold injectCredentials
  cases hn : w.nodes with
  | none =>
      simp only [Option.map_none']
      rw [← hn]
  | some l =>
      rw [hn] at h
      simp only [Option.getD_some] at h
      simp only [Option.map_some']
      rw [mapIdOfMem _ l (fun n hmem => injectCredentialsNode_noop n (h n hmem)), ← hn]

theorem addErrorHandling_noop (w : PyWorkflow)
    (h : ∀ n ∈ w.nodes.getD [], (strEndsWith (n.type.getD "") "Trigger" ||
          (n.type.getD "") == "n8n-nodes-base.stickyNote" ||
          !needsErrorHandling (n.type.getD "") ||
          (n.onError.isSome && n.retryOnFail.isSome && n.maxTries.isSome)) = true) :
    addErrorHandling w = w := by
  unfold addErrorHandling
  cases hn : w.nodes with
  | none =>
      simp only [Option.map_none']
      rw [← hn]
  | some l =>
      rw [hn] at h
      simp only [Option.getD_some] at h
      simp only [Option.map_some']
      rw [mapIdOfMem _ l (fun n hmem => addErrorHandlingNode_noop n (h n hmem)), ← hn]

theorem addDocumentation_noop (g : Nat → String) (k : Nat) (w : PyWorkflow)
    (complexity : String)
    (h : ((w.nodes.getD []).filter
      (fun n => n.type == some "n8n-nodes-base.stickyNote")).length ≥
        docTarget complexity) :
    addDocumentation g k w complexity = Except.ok (w, k) := by
  simp only [addDocumentation]
  have hz : (if complexity == "complex" then 8 else minStickyNotes) -
      ((w.nodes.getD []).filter
        (fun n => n.type == some "n8n-nodes-base.stickyNote")).length = 0 := by
    unfold docTarget at h
    omega
  rw [hz]
  rfl

theorem stageValidateConnections_noop (w : PyWorkflow)
    (h : w.connections.isSome) : stageValidateConnections w = w := by
  unfold stageValidateConnections
  rw [some_getD_of_isSome _ _ h]

theorem validateAndRefine_noop (g : Nat → String) (k : Nat) (w : PyWorkflow)
    (complexity : String) (h : fullyPopulated complexity w = true) :
    validateAndRefine g k w complexity = Except.ok (w, k) := by
  simp only [fullyPopulated, Bool.and_eq_true, List.all_eq_true] at h
  obtain ⟨⟨⟨⟨⟨⟨⟨hname, hnodes⟩, hconns⟩, hactive⟩, hsettings⟩, hnode⟩, hsticky⟩, _hconn⟩ := h
  have hfields : ∀ n ∈ w.nodes.getD [], n.id.isSome ∧ n.position.isSome ∧
      n.parameters.isSome ∧ n.typeVersion.isSome := by
    intro n hm
    obtain ⟨h1, h2, h3, h4, h5⟩ := nodeFullyPopulated_fields n (hnode n hm)
    exact ⟨h1, h3, h5, h4⟩
  have hcred : ∀ n ∈ w.nodes.getD [], (!requiresCredentials (n.type.getD "") ||
      nodeHasProperCredentials n) = true := by
    intro n hm
    have hx := hnode n hm
    simp only [nodeFullyPopulated, Bool.and_eq_true] at hx
    exact hx.1.2
  have herr : ∀ n ∈ w.nodes.getD [], (strEndsWith (n.type.getD "") "Trigger" ||
      (n.type.getD "") == "n8n-nodes-base.stickyNote" ||
      !needsErrorHandling (n.type.getD "") ||
      (n.onError.isSome && n.retryOnFail.isSome && n.maxTries.isSome)) = true := by
    intro n hm
    have hx := hnode n hm
    simp only [nodeFullyPopulated, Bool.and_eq_true] at hx
    exact hx.2
  have hdoc : ((w.nodes.getD []).filter
      (fun n => n.type == some "n8n-nodes-base.stickyNote")).length ≥
        docTarget complexity := by
    simpa using hsticky
  unfold validateAndRefine
  rw [fixStructure_noop g k w hname hnodes hconns hactive hsettings hfields]
  simp only [fixParameters]
  rw [injectCredentials_noop w hcred, addErrorHandling_noop w herr]
  rw [addDocumentation_noop g k w complexity hdoc]
  simp only [exceptBindOk]
  rw [stageValidateConnections_noop w hconns]


theorem bestFold_fst :
    ∀ (outs : List (Option (PyWorkflow × QualityResult))) (bs : Nat)
      (bw : Option PyWorkflow),
      (bestFold (bs, bw) outs).1 = max bs (maxScoreOf outs) := by
  intro outs
  induction outs with
  | nil => intro bs bw; simp [bestFold, maxScoreOf]
  | cons o rest ih =>
      intro bs bw
      cases o with
      | none =>
          simp only [bestFold, maxScoreOf, List.map_cons, List.foldr_cons, scoreOf]
          rw [ih bs bw]
          simp [maxScoreOf] <;> omega
      | some p =>
          obtain ⟨w, qr⟩ := p
          simp only [bestFold, maxScoreOf, List.map_cons, List.foldr_cons, scoreOf]
          by_cases h : qr.score > bs
          · rw [if_pos h, ih]
            simp [maxScoreOf] <;> omega
          · rw [if_neg h, ih]
            simp [maxScoreOf] <;> omega

theorem bestFold_stay :
    ∀ (outs : List (Option (PyWorkflow × QualityResult))) (bs : Nat)
      (bw : Option PyWorkflow), maxScoreOf outs ≤ bs →
      bestFold (bs, bw) outs = (bs, bw) := by
  intro outs
  induction outs with
  | nil => intro bs bw _; rfl
  | cons o rest ih =>
      intro bs bw h
      cases o with
      | none =>
          simp only [maxScoreOf, List.map_cons, List.foldr_cons] at h
          exact ih bs bw (by simp [maxScoreOf]; omega)
      | some p =>
          obtain ⟨w, qr⟩ := p
          simp only [maxScoreOf, List.map_cons, List.foldr_cons, scoreOf] at h
          simp only [bestFold]
          rw [if_neg (by omega)]
          exact ih bs bw (by simp [maxScoreOf]; omega)

theorem bestFold_argmax :
    ∀ (outs : List (Option (PyWorkflow × QualityResult))) (bs : Nat)
      (bw : Option PyWorkflow), bs < maxScoreOf outs →
      ∃ i w qr, outs.get? i = some (some (w, qr)) ∧
        qr.score = maxScoreOf outs ∧
        (bestFold (bs, bw) outs).2 = some w ∧
        (∀ j < i, scoreAt outs j ≤ bs ∨ scoreAt outs j < maxScoreOf outs) := by
  intro outs
  induction outs with
  | nil => intro bs bw h; simp [maxScoreOf] at h
  | cons o rest ih =>
      intro bs bw h
      cases o with
      | none =>
          have hmax : maxScoreOf (none :: rest) = maxScoreOf rest := by
            simp [maxScoreOf, scoreOf]
          rw [hmax] at h
          obtain ⟨i, w, qr, hi, hs, hb, hj⟩ := ih bs bw h
          refine ⟨i + 1, w, qr, by simpa using hi, by rw [hmax, hs], hb, ?_⟩
          intro j hj2
          cases j with
          | zero =>
              left
              simp [scoreAt, scoreOf]
          | succ j2 =>
              have := hj j2 (by omega)
              rw [hmax]
              simpa [scoreAt] using this
      | some p =>
          obtain ⟨w0, qr0⟩ := p
          have hmax : maxScoreOf (some (w0, qr0) :: rest) =
              max qr0.score (maxScoreOf rest) := by
            simp [maxScoreOf, scoreOf]
          rw [hmax] at h
          by_cases hge : maxScoreOf rest ≤ qr0.score
          · -- the head achieves the maximum
            have hsc : qr0.score = max qr0.score (maxScoreOf rest) := by omega
            have hup : qr0.score > bs := by omega
            refine ⟨0, w0, qr0, rfl, by rw [hmax, ← hsc], ?_, by intro j hj; omega⟩
            simp only [bestFold, if_pos hup]
            rw [bestFold_stay rest qr0.score (some w0) hge]
          · -- the maximum lives in the tail
            push_neg at hge
            have hmax2 : max qr0.score (maxScoreOf rest) = maxScoreOf rest := by omega
            rw [hmax2] at h
            rw [show maxScoreOf (some (w0, qr0) :: rest) = maxScoreOf rest from
              hmax.trans hmax2]
            by_cases hup : qr0.score > bs
            · obtain ⟨i, w, qr, hi, hs, hb, hj⟩ := ih qr0.score (some w0) hge
              refine ⟨i + 1, w, qr, by simpa using hi, hs, ?_, ?_⟩
              · simp only [bestFold, if_pos hup]
                exact hb
              · intro j hj2
                cases j with
                | zero =>
                    right
                    simpa [scoreAt, scoreOf] using hge
                | succ j2 =>
                    have := hj j2 (by omega)
                    rcases this with h1 | h1
                    · right
                      have : scoreAt rest j2 < maxScoreOf rest := by omega
                      simpa [scoreAt] using this
                    · right
                      simpa [scoreAt] using h1
            · push_neg at hup
              obtain ⟨i, w, qr, hi, hs, hb, hj⟩ := ih bs bw (by omega)
              refine ⟨i + 1, w, qr, by simpa using hi, hs, ?_, ?_⟩
              · simp only [bestFold, if_neg (by omega : ¬ qr0.score > bs)]
                exact hb
              · intro j hj2
                cases j with
                | zero =>
                    left
                    simpa [scoreAt, scoreOf] using hup
                | succ j2 =>
                    have := hj j2 (by omega)
                    rcases this with h1 | h1
                    · left; simpa [scoreAt] using h1
                    · right; simpa [scoreAt] using h1

end NFlow
namespace NFlow

theorem egenLoop_exhaust (synth : Nat → Option PyWorkflow) (g : Nat → String)
    (c : String) :
    ∀ (outs : List (Option (PyWorkflow × QualityResult))) (attempt k bs : Nat)
      (bw : Option PyWorkflow),
      TracksFrom synth g c attempt k outs →
      (∀ o ∈ outs, ∀ w qr, o = some (w, qr) → acceptsResult qr = false) →
      egenLoop synth g c attempt outs.length k bs bw =
        Except.ok {
          workflow := (bestFold (bs, bw) outs).2,
          qualityScore := (bestFold (bs, bw) outs).1,
          qualityDetails := none, attempt := none,
          attempts := some maxGenerationAttempts,
          warning := some "Workflow may not meet all quality standards" } := by
  intro outs
  induction outs with
  | nil => intro attempt k bs bw _ _; rfl
  | cons o rest ih =>
      intro attempt k bs bw htrace hrej
      simp only [TracksFrom] at htrace
      simp only [List.length_cons, egenLoop]
      cases hsyn : synth attempt with
      | none =>
          rw [hsyn] at htrace
          obtain ⟨rfl, htrest⟩ := htrace
          rw [ih (attempt + 1) k bs bw htrest
            (fun o2 ho2 => hrej o2 (List.mem_cons_of_mem _ ho2))]
          rfl
      | some raw =>
          rw [hsyn] at htrace
          obtain ⟨w, k2, qr, hrep, hval, rfl, hfb, htrest⟩ := htrace
          have hacc : acceptsResult qr = false :=
            hrej _ (List.mem_cons_self _ _) w qr rfl
          have haccr : (qr.valid && decide (qr.score ≥ minQualityScore)) = false := hacc
          simp only [hrep, exceptBindOk, hval, haccr, Bool.false_eq_true, if_false]
          by_cases hlt : attempt < maxGenerationAttempts - 1
          · obtain ⟨fb, hfbeq⟩ := hfb hlt hacc
            rw [if_pos hlt, hfbeq]
            simp only [exceptBindOk, bestFold]
            by_cases hgt : qr.score > bs
            · simp only [if_pos hgt]
              exact ih (attempt + 1) k2 qr.score (some w) htrest
                (fun o2 ho2 => hrej o2 (List.mem_cons_of_mem _ ho2))
            · simp only [if_neg hgt]
              exact ih (attempt + 1) k2 bs bw htrest
                (fun o2 ho2 => hrej o2 (List.mem_cons_of_mem _ ho2))
          · rw [if_neg hlt]
            simp only [bestFold]
            by_cases hgt : qr.score > bs
            · simp only [if_pos hgt]
              exact ih (attempt + 1) k2 qr.score (some w) htrest
                (fun o2 ho2 => hrej o2 (List.mem_cons_of_mem _ ho2))
            · simp only [if_neg hgt]
              exact ih (attempt + 1) k2 bs bw htrest
                (fun o2 ho2 => hrej o2 (List.mem_cons_of_mem _ ho2))

end NFlow
namespace NFlow

theorem egenLoop_accept (synth : Nat → Option PyWorkflow) (g : Nat → String)
    (c : String) :
    ∀ (outs : List (Option (PyWorkflow × QualityResult))) (i attempt k bs : Nat)
      (bw : Option PyWorkflow) (w : PyWorkflow) (qr : QualityResult) (n : Nat),
      TracksFrom synth g c attempt k outs →
      outs.get? i = some (some (w, qr)) →
      acceptsResult qr = true →
      (∀ j < i, ∀ w2 qr2, outs.get? j = some (some (w2, qr2)) →
        acceptsResult qr2 = false) →
      i < n →
      egenLoop synth g c attempt n k bs bw =
        Except.ok { workflow := some w, qualityScore := qr.score,
                    qualityDetails := some qr, attempt := some (attempt + i + 1),
                    attempts := none, warning := none } := by
  intro outs
  induction outs with
  | nil => intro i attempt k bs bw w qr n _ hi; simp at hi
  | cons o rest ih =>
      intro i attempt k bs bw w qr n htrace hi hacc hrej hn
      simp only [TracksFrom] at htrace
      cases n with
      | zero => omega
      | succ m =>
          simp only [egenLoop]
          cases i with
          | zero =>
              simp only [List.get?] at hi
              injection hi with hi2
              cases hsyn : synth attempt with
              | none =>
                  rw [hsyn] at htrace
                  rw [htrace.1] at hi2
                  exact nomatch hi2
              | some raw =>
                  rw [hsyn] at htrace
                  obtain ⟨w2, k2, qr2, hrep, hval, heq, _hfb, _htrest⟩ := htrace
                  rw [heq] at hi2
                  injection hi2 with hi3
                  obtain ⟨rfl, rfl⟩ := Prod.mk.injEq .. ▸ Prod.ext_iff.mp hi3
                  have haccr : (qr.valid && decide (qr.score ≥ minQualityScore)) = true := hacc
                  simp only [hrep, exceptBindOk, hval, haccr, if_true]
          | succ j =>
              simp only [List.get?] at hi
              have hrej2 : ∀ j2 < j, ∀ w2 qr2,
                  rest.get? j2 = some (some (w2, qr2)) → acceptsResult qr2 = false := by
                intro j2 hj2 w2 qr2 hg
                exact hrej (j2 + 1) (by omega) w2 qr2 (by simpa using hg)
              rw [show attempt + (j + 1) + 1 = attempt + 1 + j + 1 from by omega]
              cases hsyn : synth attempt with
              | none =>
                  rw [hsyn] at htrace
                  obtain ⟨_, htrest⟩ := htrace
                  exact ih j (attempt + 1) k bs bw w qr m htrest hi hacc hrej2 (by omega)
              | some raw =>
                  rw [hsyn] at htrace
                  obtain ⟨w0, k2, qr0, hrep, hval, heq, hfb, htrest⟩ := htrace
                  have hrej0 : acceptsResult qr0 = false := by
                    refine hrej 0 (by omega) w0 qr0 ?_
                    simpa using heq
                  have haccr0 : (qr0.valid && decide (qr0.score ≥ minQualityScore)) = false := hrej0
                  simp only [hrep, exceptBindOk, hval, haccr0, Bool.false_eq_true, if_false]
                  by_cases hlt : attempt < maxGenerationAttempts - 1
                  · obtain ⟨fb, hfbeq⟩ := hfb hlt hrej0
                    rw [if_pos hlt, hfbeq]
                    simp only [exceptBindOk]
                    by_cases hgt : qr0.score > bs
                    · simp only [if_pos hgt]
                      exact ih j (attempt + 1) k2 qr0.score (some w0) w qr m htrest hi
                        hacc hrej2 (by omega)
                    · simp only [if_neg hgt]
                      exact ih j (attempt + 1) k2 bs bw w qr m htrest hi hacc hrej2
                        (by omega)
                  · rw [if_neg hlt]
                    by_cases hgt : qr0.score > bs
                    · simp only [if_pos hgt]
                      exact ih j (attempt + 1) k2 qr0.score (some w0) w qr m htrest hi
                        hacc hrej2 (by omega)
                    · simp only [if_neg hgt]
                      exact ih j (attempt + 1) k2 bs bw w qr m htrest hi hacc hrej2
                        (by omega)

end NFlow
namespace NFlow

theorem TracksFrom_take (synth : Nat → Option PyWorkflow) (g : Nat → String)
    (c : String) :
    ∀ (outs : List (Option (PyWorkflow × QualityResult))) (attempt k : Nat),
      TracksFrom synth g c attempt k outs →
      ∀ m, TracksFrom synth g c attempt k (outs.take m) := by
  intro outs
  induction outs with
  | nil => intro attempt k h m; simpa [List.take_nil] using h
  | cons o rest ih =>
      intro attempt k h m
      cases m with
      | zero => exact trivial
      | succ m2 =>
          simp only [List.take, TracksFrom] at h ⊢
          cases hsyn : synth attempt with
          | none =>
              rw [hsyn] at h
              exact ⟨h.1, ih (attempt + 1) k h.2 m2⟩
          | some raw =>
              rw [hsyn] at h
              obtain ⟨w, k2, qr, h1, h2, h3, h4, h5⟩ := h
              exact ⟨w, k2, qr, h1, h2, h3, h4, ih (attempt + 1) k2 h5 m2⟩

theorem TracksFrom_congr (synth synth2 : Nat → Option PyWorkflow)
    (g : Nat → String) (c : String) :
    ∀ (outs : List (Option (PyWorkflow × QualityResult))) (attempt k : Nat),
      (∀ j, attempt ≤ j → j < attempt + outs.length → synth2 j = synth j) →
      TracksFrom synth g c attempt k outs →
      TracksFrom synth2 g c attempt k outs := by
  intro outs
  induction outs with
  | nil => intro _ _ _ h; exact h
  | cons o rest ih =>
      intro attempt k hagree h
      simp only [TracksFrom] at h ⊢
      rw [hagree attempt (le_refl _) (by simp)]
      cases hsyn : synth attempt with
      | none =>
          rw [hsyn] at h
          exact ⟨h.1, ih (attempt + 1) k
            (fun j hj1 hj2 => hagree j (by omega) (by simp at hj2 ⊢; omega)) h.2⟩
      | some raw =>
          rw [hsyn] at h
          obtain ⟨w, k2, qr, h1, h2, h3, h4, h5⟩ := h
          exact ⟨w, k2, qr, h1, h2, h3, h4, ih (attempt + 1) k2
            (fun j hj1 hj2 => hagree j (by omega) (by simp at hj2 ⊢; omega)) h5⟩

theorem genStageTrigger_erase (req : Requirements) (g1 g2 : Nat → String) :
    eraseS (genStageTrigger req g1) = eraseS (genStageTrigger req g2) := by
  unfold genStageTrigger createTriggerNode
  by_cases h1 : (req.trigger.getD "webhook") == "webhook"
  · simp [h1, eraseS, eraseNodeIds]
  · by_cases h2 : (req.trigger.getD "webhook") == "schedule"
    · simp [h1, h2, eraseS, eraseNodeIds]
    · by_cases h3 : (req.trigger.getD "webhook") == "email"
      · simp [h1, h2, h3, eraseS, eraseNodeIds]
      · simp [h1, h2, h3, eraseS, eraseNodeIds]

theorem genStageAuth_erase (req : Requirements) (g1 g2 : Nat → String)
    (s1 s2 : GenState) (h : eraseS s1 = eraseS s2) :
    eraseS (genStageAuth req g1 s1) = eraseS (genStageAuth req g2 s2) := by
  simp only [eraseS, Prod.mk.injEq] at h
  obtain ⟨hn, hc, hp, hl⟩ := h
  unfold genStageAuth createAuthNode
  by_cases hA : req.needsAuth
  · simp [hA, eraseS, eraseNodeIds, hn, hc, hp, hl]
  · simp [hA, eraseS, hn, hc, hp, hl]

theorem genStageValidation_erase (req : Requirements) (g1 g2 : Nat → String)
    (s1 s2 : GenState) (h : eraseS s1 = eraseS s2) :
    eraseS (genStageValidation req g1 s1) = eraseS (genStageValidation req g2 s2) := by
  simp only [eraseS, Prod.mk.injEq] at h
  obtain ⟨hn, hc, hp, hl⟩ := h
  unfold genStageValidation createValidationFlow
  by_cases hA : req.needsValidation
  · simp [hA, eraseS, eraseNodeIds, hn, hc, hp, hl]
  · simp [hA, eraseS, hn, hc, hp, hl]

theorem genStageDuplicate_erase (req : Requirements) (g1 g2 : Nat → String)
    (s1 s2 : GenState) (h : eraseS s1 = eraseS s2) :
    eraseS (genStageDuplicate req g1 s1) = eraseS (genStageDuplicate req g2 s2) := by
  simp only [eraseS, Prod.mk.injEq] at h
  obtain ⟨hn, hc, hp, hl⟩ := h
  unfold genStageDuplicate createDuplicateCheckFlow
  by_cases hA : req.needsDuplicateCheck
  · simp [hA, eraseS, eraseNodeIds, hn, hc, hp, hl]
  · simp [hA, eraseS, hn, hc, hp, hl]

theorem genStageScoring_erase (req : Requirements) (g1 g2 : Nat → String)
    (s1 s2 : GenState) (h : eraseS s1 = eraseS s2) :
    eraseS (genStageScoring req g1 s1) = eraseS (genStageScoring req g2 s2) := by
  simp only [eraseS, Prod.mk.injEq] at h
  obtain ⟨hn, hc, hp, hl⟩ := h
  unfold genStageScoring createScoringNode
  by_cases hA : req.needsScoring
  · simp [hA, eraseS, eraseNodeIds, hn, hc, hp, hl]
  · simp [hA, eraseS, hn, hc, hp, hl]

theorem genStageBranching_erase (req : Requirements) (c : Int) (g1 g2 : Nat → String)
    (s1 s2 : GenState) (h : eraseS s1 = eraseS s2) :
    eraseS (genStageBranching req c g1 s1) = eraseS (genStageBranching req c g2 s2) := by
  simp only [eraseS, Prod.mk.injEq] at h
  obtain ⟨hn, hc, hp, hl⟩ := h
  unfold genStageBranching createBranchingFlow
  by_cases hA : req.hasBranching || c > 6
  · simp [hA, eraseS, eraseNodeIds, mkPriorityNode, hn, hc, hp, hl]
  · simp [hA, eraseS, hn, hc, hp, hl]

theorem genStageAction_erase (req : Requirements) (g1 g2 : Nat → String)
    (s1 s2 : GenState) (h : eraseS s1 = eraseS s2) :
    eraseS (genStageAction req g1 s1) = eraseS (genStageAction req g2 s2) := by
  simp only [eraseS, Prod.mk.injEq] at h
  obtain ⟨hn, hc, hp, hl⟩ := h
  simp only [genStageAction, createActionNodes]
  rw [hp, hl, hc]
  generalize (if (req.outputs.getD ["email"]).isEmpty = true then "email"
    else (req.outputs.getD ["email"]).headD "email") = P
  by_cases h1 : P == "email"
  · simp [h1, eraseS, eraseNodeIds, hn]
  · by_cases h2 : P == "slack"
    · simp [h1, h2, eraseS, eraseNodeIds, hn]
    · by_cases h3 : P == "database"
      · simp [h1, h2, h3, eraseS, eraseNodeIds, hn]
      · simp [h1, h2, h3, eraseS, eraseNodeIds, hn]

theorem genStageLogging_erase (req : Requirements) (c : Int) (g1 g2 : Nat → String)
    (s1 s2 : GenState) (h : eraseS s1 = eraseS s2) :
    eraseS (genStageLogging req c g1 s1) = eraseS (genStageLogging req c g2 s2) := by
  simp only [eraseS, Prod.mk.injEq] at h
  obtain ⟨hn, hc, hp, hl⟩ := h
  unfold genStageLogging createLoggingNode
  by_cases hA : req.needsLogging || c > 5
  · simp [hA, eraseS, eraseNodeIds, hn, hc, hp, hl]
  · simp [hA, eraseS, hn, hc, hp, hl]

theorem genStageNotification_erase (req : Requirements) (g1 g2 : Nat → String)
    (s1 s2 : GenState) (h : eraseS s1 = eraseS s2) :
    (genStageNotification req g1 s1).map eraseS =
      (genStageNotification req g2 s2).map eraseS := by
  have h0 := h
  simp only [eraseS, Prod.mk.injEq] at h
  obtain ⟨hn, hc, hp, hl⟩ := h
  unfold genStageNotification createNotificationNodes
  cases hv : req.needsNotification with
  | noneV => simp [hv, NotifVal.truthy, Except.map, h0]
  | boolV b =>
      cases b with
      | false => simp [hv, NotifVal.truthy, Except.map, h0]
      | true =>
          by_cases hS : "slack" ∈ req.outputs.getD []
          · simp [hv, NotifVal.truthy, hS, eraseS, eraseNodeIds, hn, hc, hp, hl,
              listGetE, bind, Except.bind, Except.map]
          · simp [hv, NotifVal.truthy, hS, bind, Except.bind, Except.map]
  | strV s =>
      by_cases hE : s = ""
      · simp [hv, hE, NotifVal.truthy, Except.map, h0]
      · by_cases hS : "slack" ∈ req.outputs.getD []
        · simp [hv, hE, NotifVal.truthy, hS, eraseS, eraseNodeIds, hn, hc, hp, hl,
            listGetE, bind, Except.bind, Except.map]
        · by_cases hc2 : strContains (strToLower s) "notification"
          · simp [hv, hE, NotifVal.truthy, hS, hc2, eraseS, eraseNodeIds, hn, hc,
              hp, hl, listGetE, bind, Except.bind, Except.map]
          · simp [hv, hE, NotifVal.truthy, hS, hc2, listGetE, bind, Except.bind,
              Except.map]

theorem genStageErrors_erase (req : Requirements) (g1 g2 : Nat → String)
    (s1 s2 : GenState) (h : eraseS s1 = eraseS s2) :
    eraseS (genStageErrors req g1 s1) = eraseS (genStageErrors req g2 s2) := by
  simp only [eraseS, Prod.mk.injEq] at h
  obtain ⟨hn, hc, hp, hl⟩ := h
  unfold genStageErrors createErrorWorkflow
  by_cases hA : req.needsErrorHandling
  · by_cases hB : req.needsErrorAlerts
    · simp [hA, hB, eraseS, eraseNodeIds, hn, hc, hp, hl]
    · simp [hA, hB, eraseS, eraseNodeIds, hn, hc, hp, hl]
  · simp [hA, eraseS, hn, hc, hp, hl]

theorem targetsOfLists_cons (a : List GTarget) (l : List (List GTarget)) :
    targetsOfLists (a :: l) = a.map GTarget.node ++ targetsOfLists l := rfl

theorem targetsOfData_cons (a : String × List (List GTarget)) (l : GConnData) :
    targetsOfData (a :: l) = targetsOfLists a.2 ++ targetsOfData l := rfl

theorem gConnTargets_cons (a : String × GConnData) (l : GConns) :
    gConnTargets (a :: l) = targetsOfData a.2 ++ gConnTargets l := rfl

theorem mem_targetsOfLists {x : String} {lists : List (List GTarget)} :
    x ∈ targetsOfLists lists ↔ ∃ lst ∈ lists, ∃ t ∈ lst, t.node = x := by
  induction lists with
  | nil => simp [targetsOfLists]
  | cons a l ih =>
      simp only [targetsOfLists, List.foldr_cons, List.mem_append, List.mem_map,
        List.mem_cons]
      constructor
      · rintro (⟨t, ht, rfl⟩ | h)
        · exact ⟨a, Or.inl rfl, t, ht, rfl⟩
        · obtain ⟨lst, hl, t, ht, rfl⟩ := ih.1 h
          exact ⟨lst, Or.inr hl, t, ht, rfl⟩
      · rintro ⟨lst, hl | hl, t, ht, rfl⟩
        · exact Or.inl ⟨t, hl ▸ ht, rfl⟩
        · exact Or.inr (ih.2 ⟨lst, hl, t, ht, rfl⟩)

theorem targetsOfLists_append (a b : List (List GTarget)) :
    targetsOfLists (a ++ b) = targetsOfLists a ++ targetsOfLists b := by
  induction a with
  | nil => simp [targetsOfLists]
  | cons x l ih =>
      rw [List.cons_append, targetsOfLists_cons, targetsOfLists_cons, ih,
        List.append_assoc]

theorem targetsOfLists_replicate (n : Nat) :
    targetsOfLists (List.replicate n []) = [] := by
  induction n with
  | zero => rfl
  | succ m ih => simpa [targetsOfLists, List.replicate] using ih

theorem mem_targetsOfLists_set {x : String} {l : List (List GTarget)} {i : Nat}
    {v : List GTarget} (hx : x ∈ targetsOfLists (l.set i v)) :
    x ∈ targetsOfLists l ∨ x ∈ v.map GTarget.node := by
  rw [mem_targetsOfLists] at hx
  obtain ⟨lst, hlst, t, ht, rfl⟩ := hx
  rcases List.mem_or_eq_of_mem_set hlst with h | rfl
  · exact Or.inl (mem_targetsOfLists.2 ⟨lst, h, t, ht, rfl⟩)
  · exact Or.inr (List.mem_map_of_mem _ ht)

theorem mem_map_getD {x : String} {l : List (List GTarget)} {i : Nat}
    (hx : x ∈ (l.getD i []).map GTarget.node) : x ∈ targetsOfLists l := by
  have hd : l.getD i [] = (l.get? i).getD [] := rfl
  rw [hd] at hx
  cases h : l.get? i with
  | none => rw [h] at hx; simp at hx
  | some a =>
      rw [h] at hx
      obtain ⟨t, ht, rfl⟩ := List.mem_map.1 hx
      exact mem_targetsOfLists.2 ⟨a, List.get?_mem h, t, ht, rfl⟩

theorem mem_targetsOfData {x : String} {d : GConnData} :
    x ∈ targetsOfData d ↔ ∃ ct ∈ d, x ∈ targetsOfLists ct.2 := by
  induction d with
  | nil => simp [targetsOfData]
  | cons a l ih =>
      simp only [targetsOfData, List.foldr_cons, List.mem_append, List.mem_cons]
      constructor
      · rintro (h | h)
        · exact ⟨a, Or.inl rfl, h⟩
        · obtain ⟨ct, hc, hx⟩ := ih.1 h
          exact ⟨ct, Or.inr hc, hx⟩
      · rintro ⟨ct, hc | hc, hx⟩
        · exact Or.inl (hc ▸ hx)
        · exact Or.inr (ih.2 ⟨ct, hc, hx⟩)

theorem targetsOfData_append (a b : GConnData) :
    targetsOfData (a ++ b) = targetsOfData a ++ targetsOfData b := by
  induction a with
  | nil => simp [targetsOfData]
  | cons x l ih =>
      rw [List.cons_append, targetsOfData_cons, targetsOfData_cons, ih,
        List.append_assoc]

theorem mem_gConnTargets {x : String} {c : GConns} :
    x ∈ gConnTargets c ↔ ∃ e ∈ c, x ∈ targetsOfData e.2 := by
  induction c with
  | nil => simp [gConnTargets]
  | cons a l ih =>
      simp only [gConnTargets, List.foldr_cons, List.mem_append, List.mem_cons]
      constructor
      · rintro (h | h)
        · exact ⟨a, Or.inl rfl, h⟩
        · obtain ⟨e, he, hx⟩ := ih.1 h
          exact ⟨e, Or.inr he, hx⟩
      · rintro ⟨e, he | he, hx⟩
        · exact Or.inl (he ▸ hx)
        · exact Or.inr (ih.2 ⟨e, he, hx⟩)

theorem gConnTargets_append (a b : GConns) :
    gConnTargets (a ++ b) = gConnTargets a ++ gConnTargets b := by
  induction a with
  | nil => simp [gConnTargets]
  | cons x l ih =>
      rw [List.cons_append, gConnTargets_cons, gConnTargets_cons, ih,
        List.append_assoc]

theorem alistModify_fst {α : Type} (kvs : List (String × α)) (k : String)
    (f : α → α) : (alistModify kvs k f).map Prod.fst = kvs.map Prod.fst := by
  unfold alistModify
  rw [List.map_map]
  refine List.map_congr_left ?_
  intro kv _
  by_cases h : kv.1 = k <;> simp [h]

theorem mem_targetsOfData_alistModify {x : String} {d : GConnData} {k : String}
    {F : List (List GTarget) → List (List GTarget)} {X : List String}
    (hF : ∀ lists, ∀ y ∈ targetsOfLists (F lists), y ∈ targetsOfLists lists ∨ y ∈ X)
    (hx : x ∈ targetsOfData (alistModify d k F)) :
    x ∈ targetsOfData d ∨ x ∈ X := by
  rw [mem_targetsOfData] at hx
  obtain ⟨e, he, hxe⟩ := hx
  unfold alistModify at he
  obtain ⟨e0, he0, rfl⟩ := List.mem_map.1 he
  by_cases h : e0.1 == k
  · rw [if_pos h] at hxe
    rcases hF e0.2 x hxe with hy | hy
    · exact Or.inl (mem_targetsOfData.2 ⟨e0, he0, hy⟩)
    · exact Or.inr hy
  · rw [if_neg h] at hxe
    exact Or.inl (mem_targetsOfData.2 ⟨e0, he0, hxe⟩)

theorem mem_gConnTargets_alistModify {x : String} {c : GConns} {k : String}
    {F : GConnData → GConnData} {X : List String}
    (hF : ∀ d, ∀ y ∈ targetsOfData (F d), y ∈ targetsOfData d ∨ y ∈ X)
    (hx : x ∈ gConnTargets (alistModify c k F)) :
    x ∈ gConnTargets c ∨ x ∈ X := by
  rw [mem_gConnTargets] at hx
  obtain ⟨e, he, hxe⟩ := hx
  unfold alistModify at he
  obtain ⟨e0, he0, rfl⟩ := List.mem_map.1 he
  by_cases h : e0.1 == k
  · rw [if_pos h] at hxe
    rcases hF e0.2 x hxe with hy | hy
    · exact Or.inl (mem_gConnTargets.2 ⟨e0, he0, hy⟩)
    · exact Or.inr hy
  · rw [if_neg h] at hxe
    exact Or.inl (mem_gConnTargets.2 ⟨e0, he0, hxe⟩)

theorem connectNodes_sources {x : String} (c : GConns) (f t : String) (i : Nat)
    (hx : x ∈ gConnSources (connectNodes c f t i)) :
    x ∈ gConnSources c ∨ x = f := by
  unfold connectNodes at hx
  unfold gConnSources at hx ⊢
  rw [alistModify_fst] at hx
  by_cases h : (alistGet c f).isSome
  · rw [if_pos h] at hx
    exact Or.inl hx
  · rw [if_neg h] at hx
    rw [List.map_append] at hx
    rcases List.mem_append.1 hx with h2 | h2
    · exact Or.inl h2
    · simp at h2
      exact Or.inr h2

theorem connectNodes_targets {x : String} (c : GConns) (f t : String) (i : Nat)
    (hx : x ∈ gConnTargets (connectNodes c f t i)) :
    x ∈ gConnTargets c ∨ x = t := by
  unfold connectNodes at hx
  have hF : ∀ d, ∀ y ∈ targetsOfData (alistModify d "main" (fun lists =>
      listAppendAt (padOutputs lists i) i { node := t, type := "main", index := 0 })),
      y ∈ targetsOfData d ∨ y ∈ [t] := by
    intro d y hy
    refine mem_targetsOfData_alistModify ?_ hy
    intro lists z hz
    unfold listAppendAt at hz
    rcases mem_targetsOfLists_set hz with h | h
    · left
      have hp : targetsOfLists (padOutputs lists i) = targetsOfLists lists := by
        unfold padOutputs
        rw [targetsOfLists_append, targetsOfLists_replicate, List.append_nil]
      rwa [hp] at h
    · rw [List.map_append] at h
      rcases List.mem_append.1 h with h2 | h2
      · left
        have hp : targetsOfLists (padOutputs lists i) = targetsOfLists lists := by
          unfold padOutputs
          rw [targetsOfLists_append, targetsOfLists_replicate, List.append_nil]
        rw [← hp]
        exact mem_map_getD h2
      · right
        simpa using h2
  by_cases h : (alistGet c f).isSome
  · rw [if_pos h] at hx
    rcases mem_gConnTargets_alistModify hF hx with h2 | h2
    · exact Or.inl h2
    · exact Or.inr (by simpa using h2)
  · rw [if_neg h] at hx
    rcases mem_gConnTargets_alistModify hF hx with h2 | h2
    · rw [gConnTargets_append] at h2
      rcases List.mem_append.1 h2 with h3 | h3
      · exact Or.inl h3
      · simp [gConnTargets, targetsOfData, targetsOfLists] at h3
    · exact Or.inr (by simpa using h2)

theorem mem_targetsOfLists_mergeOutputLists {x : String} :
    ∀ (b a : List (List GTarget)), x ∈ targetsOfLists (mergeOutputLists a b) →
      x ∈ targetsOfLists a ∨ x ∈ targetsOfLists b := by
  intro b
  induction b with
  | nil =>
      intro a hx
      cases a with
      | nil => exact Or.inl hx
      | cons t trest => exact Or.inl hx
  | cons s srest ih =>
      intro a hx
      cases a with
      | nil =>
          rw [show mergeOutputLists [] (s :: srest) = s :: mergeOutputLists [] srest
              from rfl, targetsOfLists_cons] at hx
          rcases List.mem_append.1 hx with h | h
          · exact Or.inr (by
              rw [targetsOfLists_cons]; exact List.mem_append.2 (Or.inl h))
          · rcases ih [] h with h2 | h2
            · simp [targetsOfLists] at h2
            · exact Or.inr (by
                rw [targetsOfLists_cons]; exact List.mem_append.2 (Or.inr h2))
      | cons t trest =>
          rw [show mergeOutputLists (t :: trest) (s :: srest) =
              (t ++ s) :: mergeOutputLists trest srest from rfl,
            targetsOfLists_cons, List.map_append] at hx
          rcases List.mem_append.1 hx with h | h
          · rcases List.mem_append.1 h with h2 | h2
            · exact Or.inl (by
                rw [targetsOfLists_cons]; exact List.mem_append.2 (Or.inl h2))
            · exact Or.inr (by
                rw [targetsOfLists_cons]; exact List.mem_append.2 (Or.inl h2))
          · rcases ih trest h with h2 | h2
            · exact Or.inl (by
                rw [targetsOfLists_cons]; exact List.mem_append.2 (Or.inr h2))
            · exact Or.inr (by
                rw [targetsOfLists_cons]; exact List.mem_append.2 (Or.inr h2))

theorem mem_targetsOfData_mergeConnData {x : String} :
    ∀ (s t : GConnData), x ∈ targetsOfData (mergeConnData t s) →
      x ∈ targetsOfData t ∨ x ∈ targetsOfData s := by
  intro s
  induction s with
  | nil => intro t hx; exact Or.inl hx
  | cons ct rest ih =>
      intro t hx
      have hstep : mergeConnData t (ct :: rest) =
          mergeConnData (if (alistGet t ct.1).isSome then
            alistModify t ct.1 (fun lists => mergeOutputLists lists ct.2)
          else t ++ [ct]) rest := rfl
      rw [hstep] at hx
      rcases ih _ hx with h | h
      · by_cases hp : (alistGet t ct.1).isSome
        · rw [if_pos hp] at h
          rcases mem_targetsOfData_alistModify
              (fun lists y hy => mem_targetsOfLists_mergeOutputLists ct.2 lists hy) h with
            h2 | h2
          · exact Or.inl h2
          · right
            simp only [targetsOfData, List.foldr_cons]
            exact List.mem_append.2 (Or.inl h2)
        · rw [if_neg hp, targetsOfData_append] at h
          rcases List.mem_append.1 h with h2 | h2
          · exact Or.inl h2
          · right
            simp only [targetsOfData, List.foldr_cons]
            simp only [targetsOfData, List.foldr_cons, List.foldr_nil,
              List.append_nil] at h2
            exact List.mem_append.2 (Or.inl h2)
      · right
        simp only [targetsOfData, List.foldr_cons]
        exact List.mem_append.2 (Or.inr h)

theorem mergeConnections_sources {x : String} :
    ∀ (s t : GConns), x ∈ gConnSources (mergeConnections t s) →
      x ∈ gConnSources t ∨ x ∈ gConnSources s := by
  intro s
  induction s with
  | nil => intro t hx; exact Or.inl hx
  | cons e rest ih =>
      intro t hx
      have hstep : mergeConnections t (e :: rest) =
          mergeConnections (if (alistGet t e.1).isSome then
            alistModify t e.1 (fun data => mergeConnData data e.2)
          else t ++ [e]) rest := rfl
      rw [hstep] at hx
      rcases ih _ hx with h | h
      · by_cases hp : (alistGet t e.1).isSome
        · rw [if_pos hp] at h
          unfold gConnSources at h
          rw [alistModify_fst] at h
          exact Or.inl h
        · rw [if_neg hp] at h
          unfold gConnSources at h ⊢
          rw [List.map_append] at h
          rcases List.mem_append.1 h with h2 | h2
          · exact Or.inl h2
          · right
            simp at h2
            simp [h2]
      · right
        simp only [gConnSources, List.map_cons, List.mem_cons]
        exact Or.inr h

theorem mergeConnections_targets {x : String} :
    ∀ (s t : GConns), x ∈ gConnTargets (mergeConnections t s) →
      x ∈ gConnTargets t ∨ x ∈ gConnTargets s := by
  intro s
  induction s with
  | nil => intro t hx; exact Or.inl hx
  | cons e rest ih =>
      intro t hx
      have hstep : mergeConnections t (e :: rest) =
          mergeConnections (if (alistGet t e.1).isSome then
            alistModify t e.1 (fun data => mergeConnData data e.2)
          else t ++ [e]) rest := rfl
      rw [hstep] at hx
      rcases ih _ hx with h | h
      · by_cases hp : (alistGet t e.1).isSome
        · rw [if_pos hp] at h
          rcases mem_gConnTargets_alistModify
              (fun d y hy => mem_targetsOfData_mergeConnData e.2 d hy) h with h2 | h2
          · exact Or.inl h2
          · right
            simp only [gConnTargets, List.foldr_cons]
            exact List.mem_append.2 (Or.inl h2)
        · rw [if_neg hp, gConnTargets_append] at h
          rcases List.mem_append.1 h with h2 | h2
          · exact Or.inl h2
          · right
            simp only [gConnTargets, List.foldr_cons] at h2 ⊢
            simp only [List.foldr_nil, List.append_nil] at h2
            exact List.mem_append.2 (Or.inl h2)
      · right
        simp only [gConnTargets, List.foldr_cons]
        exact List.mem_append.2 (Or.inr h)

theorem createTriggerNode_name (req : Requirements) (pos : Int × Int)
    (g : Nat → String) (k : Nat) :
    (createTriggerNode req pos g k).1.name = triggerNameOf req := by
  simp only [createTriggerNode, triggerNameOf]
  generalize req.trigger.getD "webhook" = t
  by_cases h1 : t == "webhook"
  · simp [h1]
  · by_cases h2 : t == "schedule"
    · simp [h1, h2]
    · by_cases h3 : t == "email"
      · simp [h1, h2, h3]
      · simp [h1, h2, h3]

theorem createActionNodes_name (req : Requirements) (pos : Int × Int)
    (g : Nat → String) (k : Nat) :
    (createActionNodes req pos g k).1.name = actionNameOf req := by
  simp only [createActionNodes, actionNameOf]
  generalize (if (req.outputs.getD ["email"]).isEmpty = true then "email"
    else (req.outputs.getD ["email"]).headD "email") = p
  by_cases h1 : p == "email"
  · simp [h1]
  · by_cases h2 : p == "slack"
    · simp [h1, h2]
    · by_cases h3 : p == "database"
      · simp [h1, h2, h3]
      · simp [h1, h2, h3]

theorem createActionNodes_conns (req : Requirements) (pos : Int × Int)
    (g : Nat → String) (k : Nat) :
    (createActionNodes req pos g k).2.1 = [] := by
  simp only [createActionNodes]

theorem createValidationFlow_names (pos : Int × Int) (g : Nat → String) (k : Nat) :
    (createValidationFlow pos g k).1.map GNode.name =
      ["Validate Data", "Is Valid?", "Log Validation Error"] := rfl

theorem createValidationFlow_success (pos : Int × Int) (g : Nat → String) (k : Nat) :
    (createValidationFlow pos g k).2.2.2.1 = "Is Valid?" := rfl

theorem createValidationFlow_conns_bound (pos : Int × Int) (g : Nat → String)
    (k : Nat) :
    (∀ x ∈ gConnSources (createValidationFlow pos g k).2.1,
      x ∈ ["Validate Data", "Is Valid?", "Log Validation Error"]) ∧
    (∀ x ∈ gConnTargets (createValidationFlow pos g k).2.1,
      x ∈ ["Validate Data", "Is Valid?", "Log Validation Error"]) := by
  rw [show (createValidationFlow pos g k).2.1 =
    (createValidationFlow (0, 0) (fun _ => "") 0).2.1 from rfl]
  decide

theorem createDuplicateCheckFlow_names (req : Requirements) (pos : Int × Int)
    (g : Nat → String) (k : Nat) :
    (createDuplicateCheckFlow req pos g k).1.map GNode.name =
      ["Check for Duplicates", "Is New Record?"] := rfl

theorem createDuplicateCheckFlow_newname (req : Requirements) (pos : Int × Int)
    (g : Nat → String) (k : Nat) :
    (createDuplicateCheckFlow req pos g k).2.2.2.1 = "Is New Record?" := rfl

theorem createDuplicateCheckFlow_conns_bound (req : Requirements) (pos : Int × Int)
    (g : Nat → String) (k : Nat) :
    (∀ x ∈ gConnSources (createDuplicateCheckFlow req pos g k).2.1,
      x ∈ ["Check for Duplicates", "Is New Record?"]) ∧
    (∀ x ∈ gConnTargets (createDuplicateCheckFlow req pos g k).2.1,
      x ∈ ["Check for Duplicates", "Is New Record?"]) := by
  rw [show (createDuplicateCheckFlow req pos g k).2.1 =
    (createDuplicateCheckFlow {} (0, 0) (fun _ => "") 0).2.1 from rfl]
  decide

theorem createBranchingFlow_names (pos : Int × Int) (g : Nat → String) (k : Nat) :
    (createBranchingFlow pos g k).1.map GNode.name =
      ["Route by Priority", "High Priority Processing",
       "Medium Priority Processing", "Low Priority Processing", "Merge Paths"] := rfl

theorem createBranchingFlow_mergename (pos : Int × Int) (g : Nat → String) (k : Nat) :
    (createBranchingFlow pos g k).2.2.2.1 = "Merge Paths" := rfl

theorem createBranchingFlow_conns_bound (pos : Int × Int) (g : Nat → String)
    (k : Nat) :
    (∀ x ∈ gConnSources (createBranchingFlow pos g k).2.1,
      x ∈ ["Route by Priority", "High Priority Processing",
           "Medium Priority Processing", "Low Priority Processing", "Merge Paths"]) ∧
    (∀ x ∈ gConnTargets (createBranchingFlow pos g k).2.1,
      x ∈ ["Route by Priority", "High Priority Processing",
           "Medium Priority Processing", "Low Priority Processing", "Merge Paths"]) := by
  rw [show (createBranchingFlow pos g k).2.1 =
    (createBranchingFlow (0, 0) (fun _ => "") 0).2.1 from rfl]
  decide

theorem createErrorWorkflow_names (req : Requirements) (g : Nat → String) (k : Nat) :
    (createErrorWorkflow req g k).1.map GNode.name =
      (if req.needsErrorAlerts then
        ["Error Trigger", "Log Error Details", "Alert Admin"]
       else ["Error Trigger", "Log Error Details"]) := by
  unfold createErrorWorkflow
  by_cases h : req.needsErrorAlerts <;> simp [h]

theorem createErrorWorkflow_conns_bound (req : Requirements) (g : Nat → String)
    (k : Nat) :
    (∀ x ∈ gConnSources (createErrorWorkflow req g k).2.1,
      x ∈ (createErrorWorkflow req g k).1.map GNode.name) ∧
    (∀ x ∈ gConnTargets (createErrorWorkflow req g k).2.1,
      x ∈ (createErrorWorkflow req g k).1.map GNode.name) := by
  unfold createErrorWorkflow
  by_cases h : req.needsErrorAlerts
  · simp only [h, if_true]
    constructor <;> intro x hx <;> simp only [List.map_cons, List.map_nil] <;>
      revert hx <;> revert x <;> decide
  · simp only [h, Bool.false_eq_true, if_false]
    constructor <;> intro x hx <;> simp only [List.map_cons, List.map_nil] <;>
      revert hx <;> revert x <;> decide

theorem headD_name_of_map {ns : List GNode} {x : String} {xs : List String}
    (h : ns.map GNode.name = x :: xs) (d : GNode) : (ns.headD d).name = x := by
  cases ns with
  | nil => simp at h
  | cons a l =>
      simp only [List.map_cons, List.cons.injEq] at h
      simpa using h.1

theorem GoodState_step (s : GenState) (ns2 : List GNode) (c2 : GConns)
    (hdName newLast : String) (pos2 : Int × Int) (k2 : Nat)
    (h : GoodState s)
    (hc2s : ∀ x ∈ gConnSources c2, x ∈ ns2.map GNode.name)
    (hc2t : ∀ x ∈ gConnTargets c2, x ∈ ns2.map GNode.name)
    (hhd : hdName ∈ ns2.map GNode.name)
    (hnl : newLast ∈ ns2.map GNode.name ∨ newLast = s.lastName) :
    GoodState { nodes := s.nodes ++ ns2,
                conns := connectNodes (mergeConnections s.conns c2) s.lastName hdName,
                pos := pos2, lastName := newLast, k := k2 } := by
  obtain ⟨hs, ht, hl⟩ := h
  refine ⟨?_, ?_, ?_⟩
  · intro x hx
    simp only [List.map_append, List.mem_append]
    rcases connectNodes_sources _ _ _ _ hx with h2 | h2
    · rcases mergeConnections_sources _ _ h2 with h3 | h3
      · exact Or.inl (hs x h3)
      · exact Or.inr (hc2s x h3)
    · subst h2
      exact Or.inl hl
  · intro x hx
    simp only [List.map_append, List.mem_append]
    rcases connectNodes_targets _ _ _ _ hx with h2 | h2
    · rcases mergeConnections_targets _ _ h2 with h3 | h3
      · exact Or.inl (ht x h3)
      · exact Or.inr (hc2t x h3)
    · subst h2
      exact Or.inr hhd
  · simp only [List.map_append, List.mem_append]
    rcases hnl with h2 | h2
    · exact Or.inr h2
    · subst h2
      exact Or.inl hl

theorem GoodState_merge (s : GenState) (ns2 : List GNode) (c2 : GConns) (k2 : Nat)
    (h : GoodState s)
    (hc2s : ∀ x ∈ gConnSources c2, x ∈ ns2.map GNode.name)
    (hc2t : ∀ x ∈ gConnTargets c2, x ∈ ns2.map GNode.name) :
    GoodState { nodes := s.nodes ++ ns2, conns := mergeConnections s.conns c2,
                pos := s.pos, lastName := s.lastName, k := k2 } := by
  obtain ⟨hs, ht, hl⟩ := h
  refine ⟨?_, ?_, ?_⟩
  · intro x hx
    simp only [List.map_append, List.mem_append]
    rcases mergeConnections_sources _ _ hx with h3 | h3
    · exact Or.inl (hs x h3)
    · exact Or.inr (hc2s x h3)
  · intro x hx
    simp only [List.map_append, List.mem_append]
    rcases mergeConnections_targets _ _ hx with h3 | h3
    · exact Or.inl (ht x h3)
    · exact Or.inr (hc2t x h3)
  · simp only [List.map_append, List.mem_append]
    exact Or.inl hl

theorem genStageTrigger_good (req : Requirements) (g : Nat → String) :
    GoodState (genStageTrigger req g) ∧
    (genStageTrigger req g).nodes.map GNode.name = [triggerNameOf req] := by
  have hnm := createTriggerNode_name req (positionX, positionY) g 0
  rcases hx : createTriggerNode req (positionX, positionY) g 0 with ⟨nd, pos2, k2⟩
  rw [hx] at hnm
  simp only [genStageTrigger, hx]
  refine ⟨⟨?_, ?_, ?_⟩, ?_⟩
  · intro x hx2
    simp [gConnSources] at hx2
  · intro x hx2
    simp [gConnTargets] at hx2
  · simp
  · simpa using hnm

theorem genStageAuth_good (req : Requirements) (g : Nat → String) (s : GenState)
    (h : GoodState s) :
    GoodState (genStageAuth req g s) ∧
    (genStageAuth req g s).nodes.map GNode.name =
      s.nodes.map GNode.name ++ (if req.needsAuth then ["Validate API Key"] else []) := by
  by_cases hA : req.needsAuth
  · constructor
    · simp only [genStageAuth, createAuthNode, hA, if_true]
      refine GoodState_step s _ [] _ _ _ _ h ?_ ?_ ?_ ?_
      · intro x hx
        simp [gConnSources] at hx
      · intro x hx
        simp [gConnTargets] at hx
      · simp
      · exact Or.inl (by simp)
    · simp [genStageAuth, createAuthNode, hA]
  · constructor
    · simp only [genStageAuth, hA, Bool.false_eq_true, if_false]
      exact h
    · simp [genStageAuth, hA]

theorem genStageValidation_good (req : Requirements) (g : Nat → String)
    (s : GenState) (h : GoodState s) :
    GoodState (genStageValidation req g s) ∧
    (genStageValidation req g s).nodes.map GNode.name =
      s.nodes.map GNode.name ++
        (if req.needsValidation then
          ["Validate Data", "Is Valid?", "Log Validation Error"] else []) := by
  by_cases hA : req.needsValidation
  · have hnm := createValidationFlow_names s.pos g s.k
    have hsc := createValidationFlow_success s.pos g s.k
    have hbd := createValidationFlow_conns_bound s.pos g s.k
    rcases hx : createValidationFlow s.pos g s.k with
      ⟨vNodes, vConns, pos2, sName, eName, k2⟩
    rw [hx] at hnm hsc hbd
    dsimp only at hnm hsc hbd
    have hhd := headD_name_of_map hnm defaultGNode
    constructor
    · simp only [genStageValidation, hA, if_true, hx]
      rw [hhd]
      refine GoodState_step s vNodes vConns "Validate Data" sName _ _ h ?_ ?_ ?_ ?_
      · rw [hnm]
        exact hbd.1
      · rw [hnm]
        exact hbd.2
      · rw [hnm]
        simp
      · rw [hnm, hsc]
        exact Or.inl (by simp)
    · simp only [genStageValidation, hA, if_true, hx]
      simp [hnm]
  · constructor
    · simp only [genStageValidation, hA, Bool.false_eq_true, if_false]
      exact h
    · simp [genStageValidation, hA]

theorem genStageDuplicate_good (req : Requirements) (g : Nat → String)
    (s : GenState) (h : GoodState s) :
    GoodState (genStageDuplicate req g s) ∧
    (genStageDuplicate req g s).nodes.map GNode.name =
      s.nodes.map GNode.name ++
        (if req.needsDuplicateCheck then
          ["Check for Duplicates", "Is New Record?"] else []) := by
  by_cases hA : req.needsDuplicateCheck
  · have hnm := createDuplicateCheckFlow_names req s.pos g s.k
    have hsc := createDuplicateCheckFlow_newname req s.pos g s.k
    have hbd := createDuplicateCheckFlow_conns_bound req s.pos g s.k
    rcases hx : createDuplicateCheckFlow req s.pos g s.k with
      ⟨dNodes, dConns, pos2, nName, k2⟩
    rw [hx] at hnm hsc hbd
    dsimp only at hnm hsc hbd
    have hhd := headD_name_of_map hnm defaultGNode
    constructor
    · simp only [genStageDuplicate, hA, if_true, hx]
      rw [hhd]
      refine GoodState_step s dNodes dConns "Check for Duplicates" nName _ _ h ?_ ?_ ?_ ?_
      · rw [hnm]
        exact hbd.1
      · rw [hnm]
        exact hbd.2
      · rw [hnm]
        simp
      · rw [hnm, hsc]
        exact Or.inl (by simp)
    · simp only [genStageDuplicate, hA, if_true, hx]
      simp [hnm]
  · constructor
    · simp only [genStageDuplicate, hA, Bool.false_eq_true, if_false]
      exact h
    · simp [genStageDuplicate, hA]

theorem genStageScoring_good (req : Requirements) (g : Nat → String) (s : GenState)
    (h : GoodState s) :
    GoodState (genStageScoring req g s) ∧
    (genStageScoring req g s).nodes.map GNode.name =
      s.nodes.map GNode.name ++ (if req.needsScoring then ["Calculate Score"] else []) := by
  by_cases hA : req.needsScoring
  · constructor
    · simp only [genStageScoring, createScoringNode, hA, if_true]
      refine GoodState_step s _ [] _ _ _ _ h ?_ ?_ ?_ ?_
      · intro x hx
        simp [gConnSources] at hx
      · intro x hx
        simp [gConnTargets] at hx
      · simp
      · exact Or.inl (by simp)
    · simp [genStageScoring, createScoringNode, hA]
  · constructor
    · simp only [genStageScoring, hA, Bool.false_eq_true, if_false]
      exact h
    · simp [genStageScoring, hA]

theorem genStageBranching_good (req : Requirements) (c : Int) (g : Nat → String)
    (s : GenState) (h : GoodState s) :
    GoodState (genStageBranching req c g s) ∧
    (genStageBranching req c g s).nodes.map GNode.name =
      s.nodes.map GNode.name ++
        (if req.hasBranching || c > 6 then
          ["Route by Priority", "High Priority Processing",
           "Medium Priority Processing", "Low Priority Processing", "Merge Paths"]
         else []) := by
  by_cases hA : req.hasBranching || c > 6
  · have hnm := createBranchingFlow_names s.pos g s.k
    have hsc := createBranchingFlow_mergename s.pos g s.k
    have hbd := createBranchingFlow_conns_bound s.pos g s.k
    rcases hx : createBranchingFlow s.pos g s.k with
      ⟨bNodes, bConns, pos2, mName, k2⟩
    rw [hx] at hnm hsc hbd
    dsimp only at hnm hsc hbd
    have hhd := headD_name_of_map hnm defaultGNode
    constructor
    · simp only [genStageBranching, hA, if_true, hx]
      rw [hhd]
      refine GoodState_step s bNodes bConns "Route by Priority" mName _ _ h ?_ ?_ ?_ ?_
      · rw [hnm]
        exact hbd.1
      · rw [hnm]
        exact hbd.2
      · rw [hnm]
        simp
      · rw [hnm, hsc]
        exact Or.inl (by simp)
    · simp only [genStageBranching, hA, if_true, hx]
      simp [hnm]
  · constructor
    · simp only [genStageBranching, hA, Bool.false_eq_true, if_false]
      exact h
    · simp [genStageBranching, hA]

theorem genStageAction_good (req : Requirements) (g : Nat → String) (s : GenState)
    (h : GoodState s) :
    GoodState (genStageAction req g s) ∧
    (genStageAction req g s).nodes.map GNode.name =
      s.nodes.map GNode.name ++ [actionNameOf req] := by
  have hnm := createActionNodes_name req s.pos g s.k
  have hcn := createActionNodes_conns req s.pos g s.k
  rcases hx : createActionNodes req s.pos g s.k with ⟨aNode, aConns, pos2, k2⟩
  rw [hx] at hnm hcn
  dsimp only at hnm hcn
  subst hcn
  constructor
  · simp only [genStageAction, hx]
    refine GoodState_step s [aNode] [] aNode.name aNode.name _ _ h ?_ ?_ ?_ ?_
    · intro x hx2
      simp [gConnSources] at hx2
    · intro x hx2
      simp [gConnTargets] at hx2
    · simp
    · exact Or.inl (by simp)
  · simp only [genStageAction, hx]
    simp [hnm]

theorem genStageLogging_good (req : Requirements) (c : Int) (g : Nat → String)
    (s : GenState) (h : GoodState s) :
    GoodState (genStageLogging req c g s) ∧
    (genStageLogging req c g s).nodes.map GNode.name =
      s.nodes.map GNode.name ++
        (if req.needsLogging || c > 5 then ["Log to Database"] else []) := by
  by_cases hA : req.needsLogging || c > 5
  · constructor
    · simp only [genStageLogging, createLoggingNode, hA, if_true]
      refine GoodState_step s _ [] _ _ _ _ h ?_ ?_ ?_ ?_
      · intro x hx
        simp [gConnSources] at hx
      · intro x hx
        simp [gConnTargets] at hx
      · simp
      · exact Or.inl (by simp)
    · simp [genStageLogging, createLoggingNode, hA]
  · constructor
    · simp only [genStageLogging, hA, Bool.false_eq_true, if_false]
      exact h
    · simp [genStageLogging, hA]

theorem genStageNotification_good (req : Requirements) (g : Nat → String)
    (s s2 : GenState) (h : GoodState s)
    (hok : genStageNotification req g s = Except.ok s2) :
    GoodState s2 ∧
    s2.nodes.map GNode.name =
      s.nodes.map GNode.name ++
        (if req.needsNotification.truthy then ["Notify Slack"] else []) := by
  unfold genStageNotification createNotificationNodes at hok
  cases hv : req.needsNotification with
  | noneV =>
      rw [hv] at hok
      simp only [NotifVal.truthy, Bool.false_eq_true, if_false, Except.ok.injEq] at hok
      subst hok
      simp [hv, NotifVal.truthy, h]
  | boolV b =>
      cases b with
      | false =>
          rw [hv] at hok
          simp only [NotifVal.truthy, Bool.false_eq_true, if_false,
            Except.ok.injEq] at hok
          subst hok
          simp [hv, NotifVal.truthy, h]
      | true =>
          rw [hv] at hok
          by_cases hS : "slack" ∈ req.outputs.getD []
          · simp [hS, listGetE, bind, Except.bind, NotifVal.truthy] at hok
            subst hok
            constructor
            · refine GoodState_step s _ [] "Notify Slack" s.lastName _ _ h ?_ ?_ ?_ ?_
              · intro x hx2
                simp [gConnSources] at hx2
              · intro x hx2
                simp [gConnTargets] at hx2
              · simp
              · exact Or.inr rfl
            · simp [hv, NotifVal.truthy]
          · simp [hS, listGetE, bind, Except.bind, NotifVal.truthy] at hok
  | strV str =>
      rw [hv] at hok
      by_cases hE : str = ""
      · subst hE
        simp only [NotifVal.truthy, bne_self_eq_false, Bool.false_eq_true,
          if_false, Except.ok.injEq] at hok
        subst hok
        simp [hv, NotifVal.truthy, h]
      · by_cases hS : "slack" ∈ req.outputs.getD []
        · simp [hS, hE, listGetE, bind, Except.bind, NotifVal.truthy] at hok
          subst hok
          constructor
          · refine GoodState_step s _ [] "Notify Slack" s.lastName _ _ h ?_ ?_ ?_ ?_
            · intro x hx2
              simp [gConnSources] at hx2
            · intro x hx2
              simp [gConnTargets] at hx2
            · simp
            · exact Or.inr rfl
          · simp [hv, NotifVal.truthy, hE]
        · by_cases hc2 : strContains (strToLower str) "notification"
          · simp [hS, hE, hc2, listGetE, bind, Except.bind, NotifVal.truthy] at hok
            subst hok
            constructor
            · refine GoodState_step s _ [] "Notify Slack" s.lastName _ _ h ?_ ?_ ?_ ?_
              · intro x hx2
                simp [gConnSources] at hx2
              · intro x hx2
                simp [gConnTargets] at hx2
              · simp
              · exact Or.inr rfl
            · simp [hv, NotifVal.truthy, hE]
          · simp [hS, hE, hc2, listGetE, bind, Except.bind, NotifVal.truthy] at hok

theorem genStageErrors_good (req : Requirements) (g : Nat → String) (s : GenState)
    (h : GoodState s) :
    GoodState (genStageErrors req g s) ∧
    (genStageErrors req g s).nodes.map GNode.name =
      s.nodes.map GNode.name ++
        (if req.needsErrorHandling then
          (if req.needsErrorAlerts then
            ["Error Trigger", "Log Error Details", "Alert Admin"]
           else ["Error Trigger", "Log Error Details"])
         else []) := by
  by_cases hA : req.needsErrorHandling
  · have hnm := createErrorWorkflow_names req g s.k
    have hbd := createErrorWorkflow_conns_bound req g s.k
    rcases hx : createErrorWorkflow req g s.k with ⟨eNodes, eConns, k2⟩
    rw [hx] at hnm hbd
    dsimp only at hnm hbd
    constructor
    · simp only [genStageErrors, hA, if_true, hx]
      exact GoodState_merge s eNodes eConns k2 h hbd.1 hbd.2
    · simp only [genStageErrors, hA, if_true, hx]
      simp [hnm]
  · constructor
    · simp only [genStageErrors, hA, Bool.false_eq_true, if_false]
      exact h
    · simp [genStageErrors, hA]

theorem triggerNameOf_mem (req : Requirements) :
    triggerNameOf req ∈
      ["Webhook Trigger", "Schedule Trigger", "Email Trigger", "Manual Trigger"] := by
  unfold triggerNameOf
  generalize req.trigger.getD "webhook" = t
  by_cases h1 : t == "webhook"
  · simp [h1]
  · by_cases h2 : t == "schedule"
    · simp [h1, h2]
    · by_cases h3 : t == "email"
      · simp [h1, h2, h3]
      · simp [h1, h2, h3]

theorem actionNameOf_mem (req : Requirements) :
    actionNameOf req ∈
      ["Send Email", "Post to Slack", "Save to Database", "Send to Webhook"] := by
  simp only [actionNameOf]
  generalize (if (req.outputs.getD ["email"]).isEmpty = true then "email"
    else (req.outputs.getD ["email"]).headD "email") = p
  by_cases h1 : p == "email"
  · simp [h1]
  · by_cases h2 : p == "slack"
    · simp [h1, h2]
    · by_cases h3 : p == "database"
      · simp [h1, h2, h3]
      · simp [h1, h2, h3]

theorem genNamesOf_sublist (req : Requirements) :
    List.Sublist (genNamesOf req) masterNames := by
  unfold genNamesOf masterNames
  refine List.Sublist.append (List.Sublist.append (List.Sublist.append
    (List.Sublist.append (List.Sublist.append (List.Sublist.append
    (List.Sublist.append (List.Sublist.append (List.Sublist.append ?_ ?_) ?_) ?_)
    ?_) ?_) ?_) ?_) ?_) ?_
  · rw [List.singleton_sublist]
    exact triggerNameOf_mem req
  · by_cases h : req.needsAuth <;> simp [h]
  · by_cases h : req.needsValidation <;> simp [h]
  · by_cases h : req.needsDuplicateCheck <;> simp [h]
  · by_cases h : req.needsScoring <;> simp [h]
  · by_cases h : req.hasBranching || calculateComplexity req > 6 <;> simp [h]
  · rw [List.singleton_sublist]
    exact actionNameOf_mem req
  · by_cases h : req.needsLogging || calculateComplexity req > 5 <;> simp [h]
  · by_cases h : req.needsNotification.truthy <;> simp [h]
  · by_cases h : req.needsErrorHandling
    · by_cases h2 : req.needsErrorAlerts <;> simp [h, h2]
    · simp [h]

theorem masterNames_nodup : masterNames.Nodup := by decide

theorem genNamesOf_nodup (req : Requirements) : (genNamesOf req).Nodup :=
  (genNamesOf_sublist req).nodup masterNames_nodup

/-! ## Claims -/



/-- C1 (counterexample): on a workflow whose single node's type tag
`custom.foo` is absent from the registry, the registry-backed validator warns
only, yet `ValidationService.validate_workflow` judges the graph invalid with
a type-format error — so a validator in the core does add a validation error
for a type outside the registry catalog. -/
theorem c1_unknown_type_invalidates_graph :
    lookupSchema "custom.foo" = none ∧
    (validateNode { type := some "custom.foo" }).errors = [] ∧
    (validateNode { type := some "custom.foo" }).valid = true ∧
    validateWorkflow c1Workflow = Except.ok {
      isValid := false,
      errors := [{ type := "node", message := "Invalid node type format: custom.foo",
                   nodeId := some "1" }],
      warnings := ["Workflow does not contain a trigger node. It may need to be started manually or have a trigger added.",
                   "Disconnected nodes found: Node A. These nodes will not execute."] } :=
  ⟨rfl, rfl, rfl, rfl⟩

/-- C1 (amended): a node whose type is absent from the registry gets only
warnings (no errors, `valid=True`) from the schema validator
`NodeSchemaValidator.validate_node`; the structural validator
`ValidationService._validate_nodes`, however, errors on exactly the node
types that do not start with `n8n-nodes-base.`, regardless of registry
membership — registry-absent types with that prefix add no error there
either. -/
theorem c1_unknown_type_warning_semantics :
    (∀ n : PyNode,
      (match n.type with | some t => lookupSchema t | none => none) = none →
      (validateNode n).errors = [] ∧ (validateNode n).valid = true) ∧
    (∀ wn : WNode, wn.position.length = 2 →
      vNodeErrors wn =
        if strStartsWith wn.type "n8n-nodes-base." then []
        else [{ type := "node", message := "Invalid node type format: " ++ wn.type,
                nodeId := some wn.id }]) := by
  constructor
  · intro n h
    simp only [validateNode, h]
    exact ⟨trivial, trivial⟩
  · intro wn h
    unfold vNodeErrors
    rw [h]
    cases hs : strStartsWith wn.type "n8n-nodes-base." <;> simp [hs]

/-- C1 (witness): instantiation at a node of unknown type `custom.bar` and a
structural node of type `n8n-nodes-base.telegram` (absent from the registry
but carrying the required prefix). -/
theorem c1_unknown_type_warning_semantics_witness :
    ((validateNode { type := some "custom.bar" }).errors = [] ∧
      (validateNode { type := some "custom.bar" }).valid = true) ∧
    vNodeErrors { id := "7", name := "T", type := "n8n-nodes-base.telegram",
                  typeVersion := 1, position := [0, 0], parameters := [] } = [] := by
  refine ⟨c1_unknown_type_warning_semantics.1 _ rfl, ?_⟩
  rw [c1_unknown_type_warning_semantics.2 _ (by rfl)]
  rfl

/-- C2 (counterexample): `QualityValidator.validate` raises (a `KeyError` on
`name`, from the raw subscript in `_check_connections`) on a workflow whose
single node is an empty dict — it does not return a result object for every
input workflow. -/
theorem c2_validate_raises_on_missing_name :
    qvalidate c2Workflow "standard" = Except.error "KeyError: name" := rfl

/-- C2 (amended): `QualityValidator.validate` returns a result and never
raises provided every node carries `name` and `type` keys and every
connection target entry carries a `node` key; the remaining fields may be
absent or malformed in any way. -/
theorem c2_validate_total_on_safe_input (w : PyWorkflow) (complexity : String)
    (h : qvalidateSafeInput w = true) :
    ∃ r, qvalidate w complexity = Except.ok r := by
  simp only [qvalidateSafeInput, Bool.and_eq_true, List.all_eq_true] at h
  obtain ⟨hnodes, hconns⟩ := h
  have hn : ∀ n ∈ w.nodes.getD [], n.name.isSome := by
    intro n hmem
    exact (hnodes n hmem).1
  have ht : ∀ n ∈ w.nodes.getD [], n.type.isSome := by
    intro n hmem
    exact (hnodes n hmem).2
  have hc : ∀ e ∈ w.connections.getD [], ∀ kv ∈ e.2, ∀ cl ∈ kv.2, ∀ c ∈ cl,
      c.node.isSome := by
    intro e he kv hkv cl hcl c hcel
    have h1 := hconns e he
    simp only [List.all_eq_true] at h1
    exact h1 kv hkv cl hcl c hcel
  obtain ⟨conn, hconn⟩ := checkConnections_ok w hn hc
  obtain ⟨flow, hflow⟩ := checkFlowComplexity_ok w complexity ht
  simp only [qvalidate, hconn, hflow, exceptBindOk]
  exact ⟨_, rfl⟩

/-- C2 (witness): instantiation at the five-node workflow, whose nodes all
carry `name` and `type` but nothing else. -/
theorem c2_validate_total_on_safe_input_witness :
    qvalidateSafeInput c7Workflow = true ∧
    ∃ r, qvalidate c7Workflow "standard" = Except.ok r :=
  ⟨rfl, c2_validate_total_on_safe_input c7Workflow "standard" rfl⟩

/-- C3 (confirmed): on a fully populated, fully connected workflow graph the
repair sequence of `_validate_and_refine` is the identity, so a second repair
pass leaves the graph unchanged (and draws no fresh UUIDs: the counters pass
through untouched). -/
theorem c3_repair_idempotent (complexity : String) (w : PyWorkflow)
    (h : fullyPopulated complexity w = true) (g1 g2 : Nat → String) (k1 k2 : Nat) :
    ∃ w1, validateAndRefine g1 k1 w complexity = Except.ok (w1, k1) ∧
      validateAndRefine g2 k2 w1 complexity = Except.ok (w1, k2) :=
  ⟨w, validateAndRefine_noop g1 k1 w complexity h,
      validateAndRefine_noop g2 k2 w complexity h⟩

/-- C3 (witness): instantiation at a concrete fully populated workflow (a
webhook trigger feeding a Set node plus five sticky notes). -/
theorem c3_repair_idempotent_witness :
    ∃ w1, validateAndRefine uuidStream 0 c3Workflow "standard" = Except.ok (w1, 0) ∧
      validateAndRefine uuidStream 7 w1 "standard" = Except.ok (w1, 7) :=
  c3_repair_idempotent "standard" c3Workflow (by rfl) uuidStream uuidStream 0 7

/-- C8 (confirmed): adding the exact credential kind a node's type expects
to a previously unbound credential-requiring node, leaving the rest of the
workflow unchanged, never decreases the credential-completeness check
score. -/
theorem c8_credential_binding_monotone (w : PyWorkflow) (i : Nat) (v : JVal)
    (n : PyNode) (hget : (w.nodes.getD []).get? i = some n)
    (hreq : requiresCredentials (n.type.getD "") = true)
    (hunbound : nodeHasProperCredentials n = false) :
    (checkCredentials (setNodeAt w i (addCredentialBinding n v))).score ≥
      (checkCredentials w).score := by
  have htype : (addCredentialBinding n v).type = n.type := addCredentialBinding_type n v
  obtain ⟨ct, hct, hctne⟩ := requires_implies_credType _ hreq
  have hcreds : (addCredentialBinding n v).credentials =
      some ((n.credentials.getD []) ++ [(ct, v)]) := by
    simp [addCredentialBinding, hct]
  have hbound : nodeHasProperCredentials (addCredentialBinding n v) = true := by
    simp [nodeHasProperCredentials, hcreds, htype, hct, hctne, hasKey,
      List.any_append]
  have hreqnn : requiresCredentials ((addCredentialBinding n v).type.getD "") = true := by
    rw [htype]; exact hreq
  have hmem : n ∈ w.nodes.getD [] := List.get?_mem hget
  have hsvc : ((w.nodes.getD []).set i (addCredentialBinding n v)).countP
      (fun x => requiresCredentials (x.type.getD "")) =
      (w.nodes.getD []).countP (fun x => requiresCredentials (x.type.getD "")) := by
    refine countP_set_eq _ _ i n _ hget ?_
    rw [htype]
  have hcnt : ((w.nodes.getD []).set i (addCredentialBinding n v)).countP
      (fun x => requiresCredentials (x.type.getD "") && nodeHasProperCredentials x) =
      (w.nodes.getD []).countP
        (fun x => requiresCredentials (x.type.getD "") && nodeHasProperCredentials x) + 1 := by
    refine countP_set_incr _ _ i n _ hget ?_ ?_
    · rw [hreq, hunbound]; rfl
    · rw [hreqnn, hbound]; rfl
  have hpos : 0 < (w.nodes.getD []).countP
      (fun x => requiresCredentials (x.type.getD "")) := by
    rw [List.countP_pos_iff]
    exact ⟨n, hmem, hreq⟩
  have hne1 : ((w.nodes.getD []).filter
      (fun x => requiresCredentials (x.type.getD ""))).isEmpty = false := by
    rw [List.isEmpty_eq_false_iff_exists_mem]
    exact ⟨n, List.mem_filter.mpr ⟨hmem, hreq⟩⟩
  have hne2 : (((w.nodes.getD []).set i (addCredentialBinding n v)).filter
      (fun x => requiresCredentials (x.type.getD ""))).isEmpty = false := by
    have hlen : 0 < (((w.nodes.getD []).set i (addCredentialBinding n v)).filter
        (fun x => requiresCredentials (x.type.getD ""))).length := by
      rw [← List.countP_eq_length_filter, hsvc]
      exact hpos
    cases hemp : (((w.nodes.getD []).set i (addCredentialBinding n v)).filter
        (fun x => requiresCredentials (x.type.getD ""))) with
    | nil => rw [hemp] at hlen; simp at hlen
    | cons a rest => rfl
  have hd2 : List.countP nodeHasProperCredentials
      (List.filter (fun x => requiresCredentials (x.type.getD "")) (w.nodes.getD [])) =
      List.countP (fun x => requiresCredentials (x.type.getD "") && nodeHasProperCredentials x)
        (w.nodes.getD []) := by
    rw [List.countP_filter]
    congr 1
    funext a
    rw [Bool.and_comm]
  have hc2 : List.countP nodeHasProperCredentials
      (List.filter (fun x => requiresCredentials (x.type.getD ""))
        ((w.nodes.getD []).set i (addCredentialBinding n v))) =
      List.countP (fun x => requiresCredentials (x.type.getD "") && nodeHasProperCredentials x)
        (w.nodes.getD []) + 1 := by
    rw [List.countP_filter]
    rw [show (fun a => nodeHasProperCredentials a &&
        requiresCredentials (a.type.getD "")) =
        (fun x => requiresCredentials (x.type.getD "") && nodeHasProperCredentials x) from
      funext (fun a => Bool.and_comm _ _)]
    exact hcnt
  simp only [checkCredentials, setNodeAt, Option.getD_some,
    ← List.countP_eq_length_filter, hne1, hne2, Bool.false_eq_true, if_false,
    hsvc, hc2, hd2]
  split_ifs <;>
    simp only [ratioGe, ge_iff_le, decide_eq_true_eq, Bool.decide_eq_true,
      eq_self_iff_true, not_true, not_false_iff, Bool.not_eq_true] at * <;>
    omega

/-- C8 (witness): instantiation at a one-node workflow holding an unbound
Slack node, bound with its expected `slackApi` credential kind. -/
theorem c8_credential_binding_monotone_witness :
    (checkCredentials (setNodeAt c8Workflow 0
        (addCredentialBinding c8Node (JVal.jstr "cred")))).score ≥
      (checkCredentials c8Workflow).score :=
  c8_credential_binding_monotone c8Workflow 0 (JVal.jstr "cred") c8Node rfl rfl rfl

/-- C5 (confirmed): when the synthesis collaborator returns nothing on every
request, the refinement pipeline consumes all
`QUALITY_CONFIG['max_generation_attempts']` = 3 attempts, returns a null
graph with score 0, reports `attempts = 3`, and carries the
standards-not-met warning instead of the accepted-result fields. -/
theorem c5_all_empty_synthesis_exhausts (synth : Nat → Option PyWorkflow)
    (g : Nat → String) (complexity : String) (h : ∀ i, synth i = none) :
    egenerate synth g complexity = Except.ok {
      workflow := none, qualityScore := 0, qualityDetails := none,
      attempt := none, attempts := some 3,
      warning := some "Workflow may not meet all quality standards" } := by
  simp [egenerate, egenLoop, h, maxGenerationAttempts]

/-- C5 (witness): instantiation at the constantly-empty collaborator. -/
theorem c5_all_empty_synthesis_exhausts_witness :
    egenerate (fun _ => none) uuidStream "standard" = Except.ok {
      workflow := none, qualityScore := 0, qualityDetails := none,
      attempt := none, attempts := some 3,
      warning := some "Workflow may not meet all quality standards" } :=
  c5_all_empty_synthesis_exhausts (fun _ => none) uuidStream "standard"
    (fun _ => rfl)

/-- C7 (confirmed): the node-count check score is the step function of the
node count — below 10 nodes 0, below 15 nodes 5, below 25 nodes 10, below 35
nodes 15, otherwise 20 — and on the concrete 5-node workflow at the lightest
tier (`simple`, minimum 15) the check scores 0 and the generated feedback
literally states the 15-node minimum. -/
theorem c7_node_count_step_function :
    (∀ (w : PyWorkflow) (complexity : String),
      (checkNodeCount w complexity).score =
        (if (w.nodes.getD []).length < 10 then 0
         else if (w.nodes.getD []).length < 15 then 5
         else if (w.nodes.getD []).length < 25 then 10
         else if (w.nodes.getD []).length < 35 then 15
         else 20)) ∧
    (checkNodeCount c7Workflow "simple").score = 0 ∧
    (checkNodeCount c7Workflow "simple").required = 15 ∧
    (∃ fb, (qvalidate c7Workflow "simple" >>= generateFeedback) = Except.ok fb ∧
      fb.head? =
        some "CRITICAL: Workflow has only 5 nodes. Add more nodes to reach 15 nodes minimum.") := by
  refine ⟨?_, rfl, rfl, ⟨_, rfl, rfl⟩⟩
  intro w complexity
  simp only [checkNodeCount]
  split_ifs <;> omega

/-- C9 (confirmed): `ValidationService.validate_workflow` never raises: for
every typed workflow it returns a result whose errors and warnings lists are
as computed, and whose validity flag is exactly emptiness of the error
list. -/
theorem c9_validate_workflow_total (w : WorkflowJSON) :
    ∃ r, validateWorkflow w = Except.ok r ∧
      (r.isValid = true ↔ r.errors = []) := by
  obtain ⟨connErrs, hconn⟩ :=
    vValidateConnectionsGo_ok (w.nodes.map WNode.name) w.connections
  simp only [validateWorkflow, vValidateConnections, hconn, exceptBindOk]
  exact ⟨_, rfl, List.isEmpty_iff⟩

/-- C6 (counterexample): the exhausted branch does not always return the
highest-scoring repaired candidate.  With a synthesis oracle that always
returns the OpenAI gadget, every attempt repairs to a candidate (the repair
step succeeds and scoring returns 0), yet because best-candidate tracking
updates only on a strictly greater score starting from `best_score = 0`, the
pipeline returns `workflow = None` with score 0 instead of any of the three
repaired candidates it saw. -/
theorem c6_zero_scores_yield_no_workflow :
    egenerate (fun _ => some c6Gadget) uuidStream "standard" =
      Except.ok {
        workflow := none, qualityScore := 0, qualityDetails := none,
        attempt := none, attempts := some 3,
        warning := some "Workflow may not meet all quality standards" } ∧
    validateAndRefine uuidStream 0 c6Gadget "standard" = Except.ok (c6Repaired, 3) ∧
    (qvalidate c6Repaired "standard" >>= fun qr => Except.ok qr.score) =
      Except.ok 0 :=
  ⟨by rfl, by rfl, by rfl⟩

/-- C6 (amended): over any loop trace `outs` of per-attempt outcomes,
(a) if attempt `i` is the first whose repaired candidate is valid with score
at or above the threshold, the pipeline returns exactly that candidate with
`attempt = i + 1` and makes no further synthesis requests (the result is the
same for every oracle agreeing on attempts `≤ i`); (b) if no attempt is
accepted, the pipeline consumes all attempts and returns the maximum score
seen, with the earliest candidate attaining it when that maximum is positive,
and `workflow = None` when every attempt scored zero or synthesised
nothing. -/
theorem c6_accept_and_best_candidate (synth : Nat → Option PyWorkflow) (g : Nat → String) (c : String)
    (outs : List (Option (PyWorkflow × QualityResult)))
    (hlen : outs.length = maxGenerationAttempts)
    (htrace : TracksFrom synth g c 0 0 outs) :
    (∀ i w qr, outs.get? i = some (some (w, qr)) → acceptsResult qr = true →
      (∀ j < i, ∀ w2 qr2, outs.get? j = some (some (w2, qr2)) →
        acceptsResult qr2 = false) →
      ∀ synth2 : Nat → Option PyWorkflow, (∀ j ≤ i, synth2 j = synth j) →
        egenerate synth2 g c = Except.ok {
          workflow := some w, qualityScore := qr.score, qualityDetails := some qr,
          attempt := some (i + 1), attempts := none, warning := none }) ∧
    ((∀ o ∈ outs, ∀ w qr, o = some (w, qr) → acceptsResult qr = false) →
      ∃ r, egenerate synth g c = Except.ok r ∧
        r.attempt = none ∧ r.attempts = some maxGenerationAttempts ∧
        r.warning = some "Workflow may not meet all quality standards" ∧
        r.qualityScore = maxScoreOf outs ∧
        (maxScoreOf outs = 0 → r.workflow = none) ∧
        (0 < maxScoreOf outs → ∃ i w qr, outs.get? i = some (some (w, qr)) ∧
          qr.score = maxScoreOf outs ∧ r.workflow = some w ∧
          ∀ j < i, scoreAt outs j < maxScoreOf outs)) := by
  constructor
  · intro i w qr hi hacc hrej synth2 hagree
    have hilt : i < outs.length := by
      by_contra hge
      rw [List.get?_eq_none.mpr (by omega)] at hi
      exact nomatch hi
    have htake : TracksFrom synth g c 0 0 (outs.take (i + 1)) :=
      TracksFrom_take synth g c outs 0 0 htrace (i + 1)
    have htake2 : TracksFrom synth2 g c 0 0 (outs.take (i + 1)) := by
      refine TracksFrom_congr synth synth2 g c _ 0 0 ?_ htake
      intro j _ hj2
      refine hagree j ?_
      have hlen2 : (outs.take (i + 1)).length ≤ i + 1 := by
        simp [List.length_take]
      omega
    have hgettake : ∀ j ≤ i, (outs.take (i + 1)).get? j = outs.get? j := by
      intro j hj
      exact List.get?_take (by omega)
    unfold egenerate
    have := egenLoop_accept synth2 g c (outs.take (i + 1)) i 0 0 0 none w qr
      maxGenerationAttempts htake2 (by rw [hgettake i (le_refl i)]; exact hi) hacc
      (fun j hj w2 qr2 hg => hrej j hj w2 qr2 (by rw [← hgettake j (by omega)]; exact hg))
      (by rw [← hlen]; exact hilt)
    simpa using this
  · intro hrej
    have hx := egenLoop_exhaust synth g c outs 0 0 0 none htrace hrej
    rw [hlen] at hx
    unfold egenerate
    rw [hx]
    refine ⟨_, rfl, rfl, rfl, rfl, ?_, ?_, ?_⟩
    · simp only [bestFold_fst]
      omega
    · intro hz
      have := bestFold_stay outs 0 none (by omega)
      simp only [this]
    · intro hpos
      obtain ⟨i, w, qr, hi, hs, hb, hj⟩ := bestFold_argmax outs 0 none hpos
      refine ⟨i, w, qr, hi, hs, hb, ?_⟩
      intro j hjlt
      rcases hj j hjlt with h1 | h1
      · omega
      · exact h1

/-- Witness for C6: the all-failing oracle run with trace
`[none, none, none]` discharges the hypotheses of the amended theorem, whose
exhausted branch then describes the returned record concretely. -/
theorem c6_accept_and_best_candidate_witness :
    ∃ r, egenerate (fun _ => none) uuidStream "standard" = Except.ok r ∧
      r.attempt = none ∧ r.attempts = some maxGenerationAttempts ∧
      r.warning = some "Workflow may not meet all quality standards" ∧
      r.qualityScore = maxScoreOf [none, none, none] ∧
      (maxScoreOf [none, none, none] = 0 → r.workflow = none) ∧
      (0 < maxScoreOf [none, none, none] → ∃ i w qr,
        ([none, none, none] : List (Option (PyWorkflow × QualityResult))).get? i
          = some (some (w, qr)) ∧
        qr.score = maxScoreOf [none, none, none] ∧ r.workflow = some w ∧
        ∀ j < i, scoreAt [none, none, none] j < maxScoreOf [none, none, none]) :=
  (c6_accept_and_best_candidate (fun _ => none) uuidStream "standard" [none, none, none]
      rfl (by simp [TracksFrom])).2
    (by intro o ho w qr h; simp at ho; rw [ho] at h; exact nomatch h)

/-- C4 (counterexample): node ids are not determined by the requirements
record.  Two invocations of `generate` on the same empty record, whose UUID
draws differ (as successive `uuid4()` calls do), return different graphs:
the node ids follow the draws. -/
theorem c4_node_ids_follow_uuid_stream :
    generate {} none (fun _ => "a") ≠ generate {} none (fun _ => "b") := by
  intro h
  have h2 := congrArg (Except.map (fun w => w.nodes.map GNode.id)) h
  rw [show (generate {} none (fun _ => "a")).map (fun w => w.nodes.map GNode.id) =
        Except.ok ["a", "a"] from rfl,
      show (generate {} none (fun _ => "b")).map (fun w => w.nodes.map GNode.id) =
        Except.ok ["b", "b"] from rfl] at h2
  simp at h2

/-- C4 (amended): `generate` is deterministic in everything except the
UUID-drawn fields.  For any requirements record, conversation state and any
two UUID streams, the results agree after erasing each node's `id` and
`webhookId`: names, types, positions, parameters, credentials, connections,
workflow name and metadata are all determined by the record alone (and the
raising paths agree). -/
theorem c4_deterministic_up_to_ids (req : Requirements) (conv : Option ConversationState)
    (g1 g2 : Nat → String) :
    (generate req conv g1).map eraseGW = (generate req conv g2).map eraseGW := by
  have h1 := genStageTrigger_erase req g1 g2
  have h2 := genStageAuth_erase req g1 g2 _ _ h1
  have h3 := genStageValidation_erase req g1 g2 _ _ h2
  have h4 := genStageDuplicate_erase req g1 g2 _ _ h3
  have h5 := genStageScoring_erase req g1 g2 _ _ h4
  have h6 := genStageBranching_erase req (calculateComplexity req) g1 g2 _ _ h5
  have h7 := genStageAction_erase req g1 g2 _ _ h6
  have h8 := genStageLogging_erase req (calculateComplexity req) g1 g2 _ _ h7
  have h9 := genStageNotification_erase req g1 g2 _ _ h8
  unfold generate
  simp only [bind, Except.bind]
  cases hA : genStageNotification req g1 (genStageLogging req (calculateComplexity req) g1
      (genStageAction req g1 (genStageBranching req (calculateComplexity req) g1
      (genStageScoring req g1 (genStageDuplicate req g1 (genStageValidation req g1
      (genStageAuth req g1 (genStageTrigger req g1)))))))) with
  | error e =>
      cases hB : genStageNotification req g2 (genStageLogging req (calculateComplexity req) g2
      (genStageAction req g2 (genStageBranching req (calculateComplexity req) g2
      (genStageScoring req g2 (genStageDuplicate req g2 (genStageValidation req g2
      (genStageAuth req g2 (genStageTrigger req g2)))))))) with
      | error e2 =>
          rw [hA, hB] at h9
          simp only [Except.map] at h9
          injection h9 with he
          rw [he]
      | ok sB =>
          rw [hA, hB] at h9
          simp [Except.map] at h9
  | ok sA =>
      cases hB : genStageNotification req g2 (genStageLogging req (calculateComplexity req) g2
      (genStageAction req g2 (genStageBranching req (calculateComplexity req) g2
      (genStageScoring req g2 (genStageDuplicate req g2 (genStageValidation req g2
      (genStageAuth req g2 (genStageTrigger req g2)))))))) with
      | error e2 =>
          rw [hA, hB] at h9
          simp [Except.map] at h9
      | ok sB =>
          rw [hA, hB] at h9
          simp only [Except.map, Except.ok.injEq] at h9
          have h10 := genStageErrors_erase req g1 g2 sA sB h9
          cases hw : generateWorkflowName req conv with
          | error e => simp [hw, Except.map]
          | ok nm =>
              simp only [hw, Except.map, pure, Except.pure]
              simp only [eraseS, Prod.mk.injEq] at h10
              obtain ⟨hn, hc, hp, hl⟩ := h10
              have hlen : (genStageErrors req g1 sA).nodes.length =
                  (genStageErrors req g2 sB).nodes.length := by
                have hx := congrArg List.length hn
                simpa using hx
              simp [eraseGW, hn, hc, hlen]

/-- C10: every workflow `generate` returns satisfies the data-model
invariants: the node display names are pairwise distinct (they are a sublist
of a fixed master list of mutually distinct stage names), and every
connection source name and target name refers to a node of the returned node
list (the generator-state invariant `GoodState` is preserved by all ten
assembly stages). -/
theorem c10_generate_invariants (req : Requirements) (conv : Option ConversationState)
    (g : Nat → String) (w : GWorkflow)
    (hok : generate req conv g = Except.ok w) :
    (w.nodes.map GNode.name).Nodup ∧
    (∀ x ∈ gConnSources w.connections, x ∈ w.nodes.map GNode.name) ∧
    (∀ x ∈ gConnTargets w.connections, x ∈ w.nodes.map GNode.name) := by
  obtain ⟨g1, n1⟩ := genStageTrigger_good req g
  obtain ⟨g2, n2⟩ := genStageAuth_good req g _ g1
  obtain ⟨g3, n3⟩ := genStageValidation_good req g _ g2
  obtain ⟨g4, n4⟩ := genStageDuplicate_good req g _ g3
  obtain ⟨g5, n5⟩ := genStageScoring_good req g _ g4
  obtain ⟨g6, n6⟩ := genStageBranching_good req (calculateComplexity req) g _ g5
  obtain ⟨g7, n7⟩ := genStageAction_good req g _ g6
  obtain ⟨g8, n8⟩ := genStageLogging_good req (calculateComplexity req) g _ g7
  unfold generate at hok
  simp only [bind, Except.bind] at hok
  cases hA : genStageNotification req g (genStageLogging req (calculateComplexity req) g
      (genStageAction req g (genStageBranching req (calculateComplexity req) g
      (genStageScoring req g (genStageDuplicate req g (genStageValidation req g
      (genStageAuth req g (genStageTrigger req g)))))))) with
  | error e =>
      rw [hA] at hok
      exact nomatch hok
  | ok s9 =>
      rw [hA] at hok
      obtain ⟨g9, n9⟩ := genStageNotification_good req g _ s9 g8 hA
      obtain ⟨g10, n10⟩ := genStageErrors_good req g s9 g9
      cases hw : generateWorkflowName req conv with
      | error e =>
          rw [hw] at hok
          exact nomatch hok
      | ok nm =>
          rw [hw] at hok
          simp only [pure, Except.pure, Except.ok.injEq] at hok
          have hwn : w.nodes = (genStageErrors req g s9).nodes := by rw [← hok]
          have hwc : w.connections = (genStageErrors req g s9).conns := by rw [← hok]
          have hnames : w.nodes.map GNode.name = genNamesOf req := by
            rw [hwn, n10, n9, n8, n7, n6, n5, n4, n3, n2, n1]
            simp [genNamesOf, List.append_assoc]
          obtain ⟨gs, gt, _⟩ := g10
          refine ⟨?_, ?_, ?_⟩
          · rw [hnames]
            exact genNamesOf_nodup req
          · intro x hx
            rw [hwn]
            exact gs x (hwc ▸ hx)
          · intro x hx
            rw [hwn]
            exact gt x (hwc ▸ hx)

/-- Witness for C10: on the empty requirements record `generate` returns a
concrete workflow, discharging the hypothesis of the invariant theorem by
evaluation. -/
theorem c10_generate_invariants_witness :
    generate {} none uuidStream = Except.ok c10Workflow ∧
    ((c10Workflow.nodes.map GNode.name).Nodup ∧
     (∀ x ∈ gConnSources c10Workflow.connections,
        x ∈ c10Workflow.nodes.map GNode.name) ∧
     (∀ x ∈ gConnTargets c10Workflow.connections,
        x ∈ c10Workflow.nodes.map GNode.name)) :=
  ⟨by rfl, c10_generate_invariants {} none uuidStream c10Workflow (by rfl)⟩

end NFlow
